import Mathlib

/-!
# ShadowMappingInVulkan: a shallow embedding of the renderer core

The C++ sources embedded here are `code/cpp/graphics_misc.cpp`,
`code/cpp/graphics_create.cpp` and `code/cpp/main.cpp`.

Conventions of the embedding:

* Vulkan handles, enums and flag words are natural numbers carrying the
  values of `vulkan_core.h`; `VK_NULL_HANDLE` is `0`.
* Every call that leaves the translated code (a Vulkan entry point, a C
  library call, or a function of this repository whose body is not among the
  sources) appends one `Op` to a trace.  What such a call hands back (a
  status, a handle, a frame) is read from an environment `Env`, indexed by the
  position of the call in the trace, so a theorem quantified over `Env`
  covers every behaviour of the driver.
* `SDL_assert_release` is compiled in at every assertion level the project
  builds with; `SDL_assert` only when `Env.debugAsserts` holds (debug
  builds).  A failed assertion ends the run: the trace stops growing and the
  result is `Except.error`.
-/

namespace ShadowMapping

/-! ## Vulkan vocabulary -/

abbrev VkResult := Int
abbrev VkFlags := Nat
abbrev VkBool32 := Nat
abbrev VkImageLayout := Nat
abbrev VkFormat := Nat
abbrev VkCommandBuffer := Nat
abbrev VkSemaphore := Nat
abbrev VkFence := Nat
abbrev VkImage := Nat
abbrev VkBuffer := Nat
abbrev VkDeviceMemory := Nat
abbrev VkFramebuffer := Nat
abbrev VkRenderPass := Nat
abbrev VkQueue := Nat
abbrev VkDevice := Nat
abbrev VkCommandPool := Nat
abbrev VkSwapchainKHR := Nat
abbrev VkPipelineLayout := Nat
abbrev VkDescriptorSet := Nat

/-- Values of type `float`; the code embedded here only passes them along. -/
abbrev CFloat := Rat

abbrev VK_SUCCESS : VkResult := 0
abbrev VK_NULL_HANDLE : Nat := 0
abbrev VK_TRUE : VkBool32 := 1
abbrev VK_FALSE : VkBool32 := 0

abbrev VK_IMAGE_LAYOUT_UNDEFINED : VkImageLayout := 0
abbrev VK_IMAGE_LAYOUT_SHADER_READ_ONLY_OPTIMAL : VkImageLayout := 5
abbrev VK_IMAGE_LAYOUT_TRANSFER_DST_OPTIMAL : VkImageLayout := 7

abbrev VK_QUEUE_FAMILY_IGNORED : Nat := 0xFFFFFFFF
abbrev VK_IMAGE_ASPECT_COLOR_BIT : VkFlags := 0x1
abbrev VK_ACCESS_SHADER_READ_BIT : VkFlags := 0x20
abbrev VK_ACCESS_TRANSFER_WRITE_BIT : VkFlags := 0x1000
abbrev VK_PIPELINE_STAGE_TOP_OF_PIPE_BIT : VkFlags := 0x1
abbrev VK_PIPELINE_STAGE_FRAGMENT_SHADER_BIT : VkFlags := 0x80
abbrev VK_PIPELINE_STAGE_COLOR_ATTACHMENT_OUTPUT_BIT : VkFlags := 0x400
abbrev VK_PIPELINE_STAGE_TRANSFER_BIT : VkFlags := 0x1000
abbrev VK_QUEUE_GRAPHICS_BIT : VkFlags := 0x1
abbrev VK_BUFFER_USAGE_TRANSFER_SRC_BIT : VkFlags := 0x1
abbrev VK_SHARING_MODE_EXCLUSIVE : Nat := 0
abbrev VK_MEMORY_PROPERTY_HOST_VISIBLE_BIT : VkFlags := 0x2
abbrev VK_MEMORY_PROPERTY_HOST_COHERENT_BIT : VkFlags := 0x4
abbrev VK_COMMAND_BUFFER_USAGE_SIMULTANEOUS_USE_BIT : VkFlags := 0x4
abbrev VK_SUBPASS_CONTENTS_INLINE : Nat := 0
abbrev VK_FORMAT_R8G8B8A8_UNORM : VkFormat := 37
abbrev VK_FORMAT_R8G8B8A8_SNORM : VkFormat := 38
abbrev VK_IMAGE_VIEW_TYPE_2D : Nat := 1
abbrev VK_PIPELINE_BIND_POINT_GRAPHICS : Nat := 0
abbrev VK_DEBUG_UTILS_MESSAGE_SEVERITY_VERBOSE_BIT_EXT : Nat := 0x1
abbrev VK_DEBUG_UTILS_MESSAGE_SEVERITY_INFO_BIT_EXT : Nat := 0x10
abbrev VK_DEBUG_UTILS_MESSAGE_SEVERITY_WARNING_BIT_EXT : Nat := 0x100
abbrev VK_DEBUG_UTILS_MESSAGE_SEVERITY_ERROR_BIT_EXT : Nat := 0x1000
abbrev VK_DEBUG_UTILS_MESSAGE_TYPE_GENERAL_BIT_EXT : VkFlags := 0x1
abbrev VK_DEBUG_UTILS_MESSAGE_TYPE_VALIDATION_BIT_EXT : VkFlags := 0x2
abbrev VK_DEBUG_UTILS_MESSAGE_TYPE_PERFORMANCE_BIT_EXT : VkFlags := 0x4

structure VkImageSubresourceRange where
  aspectMask : VkFlags
  baseMipLevel : Nat
  levelCount : Nat
  baseArrayLayer : Nat
  layerCount : Nat
deriving DecidableEq, Repr

structure VkImageMemoryBarrier where
  srcAccessMask : VkFlags
  dstAccessMask : VkFlags
  oldLayout : VkImageLayout
  newLayout : VkImageLayout
  srcQueueFamilyIndex : Nat
  dstQueueFamilyIndex : Nat
  image : VkImage
  subresourceRange : VkImageSubresourceRange
deriving DecidableEq, Repr

/-- The submit info of `vkQueueSubmit`.  A pointer that the zero-initialised
struct leaves null is the empty list; a pointer to one object is a one-element
list. -/
structure VkSubmitInfo where
  waitSemaphoreCount : Nat
  pWaitSemaphores : List VkSemaphore
  pWaitDstStageMask : List VkFlags
  commandBufferCount : Nat
  pCommandBuffers : List VkCommandBuffer
  signalSemaphoreCount : Nat
  pSignalSemaphores : List VkSemaphore
deriving DecidableEq, Repr

structure VkPresentInfoKHR where
  waitSemaphoreCount : Nat
  pWaitSemaphores : List VkSemaphore
  swapchainCount : Nat
  pSwapchains : List VkSwapchainKHR
  pImageIndices : List Nat
deriving DecidableEq, Repr

structure VkExtent2D where
  width : Nat
  height : Nat
deriving DecidableEq, Repr

structure VkExtent3D where
  width : Nat
  height : Nat
  depth : Nat
deriving DecidableEq, Repr

structure VkImageSubresourceLayers where
  aspectMask : VkFlags
  mipLevel : Nat
  baseArrayLayer : Nat
  layerCount : Nat
deriving DecidableEq, Repr

structure VkBufferImageCopy where
  bufferOffset : Nat
  bufferRowLength : Nat
  bufferImageHeight : Nat
  imageSubresource : VkImageSubresourceLayers
  imageOffset : Int × Int × Int
  imageExtent : VkExtent3D
deriving DecidableEq, Repr

/-- One clear value of `cmdBeginRenderPass`: a colour or a depth/stencil pair. -/
inductive VkClearValue
  | color (r g b a : CFloat)
  | depthStencil (depth : CFloat) (stencil : Nat)
deriving DecidableEq, Repr

structure VkRenderPassBeginInfo where
  renderPass : VkRenderPass
  framebuffer : VkFramebuffer
  renderAreaOffset : Int × Int
  renderAreaExtent : VkExtent2D
  clearValueCount : Nat
  pClearValues : List VkClearValue
deriving DecidableEq, Repr

structure VkBufferCreateInfo where
  size : Nat
  usage : VkFlags
  sharingMode : Nat
deriving DecidableEq, Repr

/-- Modelled from the spec: `gfx::SwapchainFrame` is declared in `graphics.h`,
which is not among the sources.  The spec's Frame is "an index, an associated
command buffer, and a framebuffer target"; these are the three members the
sources read (`frame->index`, `frame->cmdBuffer`, `frame->framebuffer`). -/
structure SwapchainFrame where
  index : Nat
  cmdBuffer : VkCommandBuffer
  framebuffer : VkFramebuffer
deriving DecidableEq, Repr

structure VkImageViewCreateInfo where
  image : VkImage
  viewType : Nat
  format : VkFormat
  subresourceRange : VkImageSubresourceRange
deriving DecidableEq, Repr

/-- What `stbi_load` hands back when it succeeds: the dimensions it writes
through its out-pointers and the decoded bytes, four per pixel. -/
structure StbImage where
  width : Nat
  height : Nat
  data : List Nat
deriving DecidableEq, Repr

structure VkMemoryRequirements where
  size : Nat
  memoryTypeBits : Nat
deriving DecidableEq, Repr

structure VkQueueFamilyProperties where
  queueFlags : VkFlags
  queueCount : Nat
deriving DecidableEq, Repr

structure VkDeviceQueueCreateInfo where
  queueFamilyIndex : Nat
  queueCount : Nat
  pQueuePriorities : List CFloat
deriving DecidableEq, Repr

/-- The default arguments of `gfx::submitCommandBuffer`.  They are written in
its declaration in `graphics.h`, which is not among the sources, so they are
taken from the environment instead of being guessed. -/
structure SubmitDefaults where
  optionalWaitSemaphore : VkSemaphore
  optionalWaitStage : VkFlags
  optionalSignalSemaphore : VkSemaphore
  optionalFence : VkFence
deriving DecidableEq, Repr

/-- A three-component float vector (`vec3`). -/
structure Vec3 where
  x : CFloat
  y : CFloat
  z : CFloat
deriving DecidableEq, Repr

/-- An argument of `printf` after the format string. -/
inductive PrintfArg
  | str (s : String)
  | int (n : Int)
deriving DecidableEq, Repr

/-- The six global `DrawCall` pointers of namespace `geometry`
(geometry.cpp:8-13); a call `sphere0->addToCmdBuffer(..)` is a call on the
draw call named `sphere0`. -/
inductive SceneDrawCall
  | floor
  | sphere0
  | sphere1
  | obelisk
  | aeroplane
  | frog
deriving DecidableEq, Repr

/-! ## Traces -/

/-- One call leaving the translated code, with the arguments it was given. -/
inductive Op
  | vkQueueSubmit (queue : VkQueue) (submitCount : Nat) (submitInfo : VkSubmitInfo) (fence : VkFence)
  | vkQueuePresentKHR (queue : VkQueue) (presentInfo : VkPresentInfoKHR)
  | vkQueueWaitIdle (queue : VkQueue)
  | vkBeginCommandBuffer (cmdBuffer : VkCommandBuffer) (flags : VkFlags)
  | vkEndCommandBuffer (cmdBuffer : VkCommandBuffer)
  | vkCmdPipelineBarrier (cmdBuffer : VkCommandBuffer) (srcStage dstStage : VkFlags)
      (imageMemoryBarrierCount : Nat) (barrier : VkImageMemoryBarrier)
  | vkCmdCopyBufferToImage (cmdBuffer : VkCommandBuffer) (buffer : VkBuffer) (image : VkImage)
      (dstImageLayout : VkImageLayout) (regionCount : Nat) (region : VkBufferImageCopy)
  | vkCmdBeginRenderPass (cmdBuffer : VkCommandBuffer) (info : VkRenderPassBeginInfo) (contents : Nat)
  | vkCmdEndRenderPass (cmdBuffer : VkCommandBuffer)
  | vkFreeCommandBuffers (device : VkDevice) (pool : VkCommandPool) (count : Nat)
      (cmdBuffer : VkCommandBuffer)
  | vkCreateBuffer (device : VkDevice) (info : VkBufferCreateInfo)
  | vkGetBufferMemoryRequirements (device : VkDevice) (buffer : VkBuffer)
  | getMemoryType (memoryTypeBits : Nat) (properties : VkFlags)
  | vkAllocateMemory (device : VkDevice) (allocationSize : Nat) (memoryTypeIndex : Nat)
  | vkBindBufferMemory (device : VkDevice) (buffer : VkBuffer) (memory : VkDeviceMemory) (offset : Nat)
  | vkMapMemory (device : VkDevice) (memory : VkDeviceMemory) (offset size : Nat) (flags : VkFlags)
  | memcpy (dst : Nat) (src : List Nat) (size : Nat)
  | vkUnmapMemory (device : VkDevice) (memory : VkDeviceMemory)
  | vkDestroyBuffer (device : VkDevice) (buffer : VkBuffer)
  | vkFreeMemory (device : VkDevice) (memory : VkDeviceMemory)
  | vkCreateImageView (device : VkDevice) (info : VkImageViewCreateInfo)
  | stbi_load (filePath : String) (desiredChannels : Nat)
  | stbi_image_free
  | createImage (format : VkFormat) (width height : Nat)
  | createCommandBuffer
  | getNextFrame (signalSemaphore : VkSemaphore)
  | getSurfaceExtent
  | presentation_update (deltaTime : CFloat)
  | shadows_update
  | shadows_performRenderPasses (cmdBuffer : VkCommandBuffer)
  | presentation_render (cmdBuffer : VkCommandBuffer)
  | gui_render (cmdBuffer : VkCommandBuffer)
  | printf (format : String) (args : List PrintfArg)
  | fflush_stdout
  | vkCmdBindDescriptorSets (cmdBuffer : VkCommandBuffer) (pipelineBindPoint : Nat)
      (layout : VkPipelineLayout) (firstSet : Nat) (descriptorSetCount : Nat)
      (pDescriptorSets : List VkDescriptorSet) (dynamicOffsetCount : Nat)
  | DrawCall_addToCmdBuffer (drawCall : SceneDrawCall) (cmdBuffer : VkCommandBuffer)
      (pipelineLayout : VkPipelineLayout)
  | vkCreateSemaphore (device : VkDevice) (flags : VkFlags)
deriving DecidableEq, Repr

/-- Why a run ended before its function returned. -/
inductive Fatal
  | unsupportedLayoutTransition
  | noQueueFamily
  | debugAssert
  | imageNotLoaded
  | imageViewNotCreated
  | callee
  | validationMessage
  | objNotLoaded
  | faceNotTriangle
  | vertexNormalCountMismatch
  | semaphoreNotCreated
deriving DecidableEq, Repr

/-- Everything the translated code reads but does not compute: the build
configuration, the global handles set up at start-up, and what each outside
call hands back, indexed by the call's position in the trace. -/
structure Env where
  debugAsserts : Bool
  queue : VkQueue
  device : VkDevice
  commandPool : VkCommandPool
  swapchain : VkSwapchainKHR
  renderPass : VkRenderPass
  imageAvailableSemaphore : VkSemaphore
  renderCompletedSemaphore : VkSemaphore
  vkResult : Nat → VkResult
  handle : Nat → Nat
  frame : Nat → SwapchainFrame
  extent : Nat → VkExtent2D
  memoryReqs : Nat → VkMemoryRequirements
  imageMemory : Nat → VkDeviceMemory
  calleeFatal : Nat → Bool
  submitDefaults : SubmitDefaults

/-- The state a run is in when it stops: the trace so far, and either the
returned value or the reason the process was terminated. -/
structure Outcome (α : Type) where
  trace : List Op
  result : Except Fatal α

/-- A computation of the translated code: from the environment and the trace
so far to an outcome. -/
def Gfx (α : Type) : Type := Env → List Op → Outcome α

def Gfx.pure {α : Type} (a : α) : Gfx α :=
  fun _ t => ⟨t, .ok a⟩

def Gfx.bind {α β : Type} (m : Gfx α) (f : α → Gfx β) : Gfx β :=
  fun env t =>
    match m env t with
    | ⟨t1, .ok a⟩ => f a env t1
    | ⟨t1, .error e⟩ => ⟨t1, .error e⟩

instance : Monad Gfx where
  pure := Gfx.pure
  bind := Gfx.bind

/-- The environment of the run. -/
def getEnv : Gfx Env :=
  fun env t => ⟨t, .ok env⟩

/-- Terminate the process. -/
def fatal {α : Type} (f : Fatal) : Gfx α :=
  fun _ t => ⟨t, .error f⟩

/-- Record an outside call; the value is the call's position in the trace. -/
def call (op : Op) : Gfx Nat :=
  fun _ t => ⟨t ++ [op], .ok t.length⟩

/-- An outside call returning a `VkResult`. -/
def vkCall (op : Op) : Gfx VkResult :=
  fun env t => ⟨t ++ [op], .ok (env.vkResult t.length)⟩

/-- A call into a function of this repository whose body is not among the
sources: it is one trace entry, and it either returns or terminates the
process, as the environment says. -/
def calleeCall (op : Op) : Gfx Nat :=
  fun env t =>
    if env.calleeFatal t.length then ⟨t ++ [op], .error .callee⟩
    else ⟨t ++ [op], .ok t.length⟩

/-- The always-enabled assertion `SDL_assert_release`. -/
def SDL_assert_release (cond : Bool) (f : Fatal) : Gfx Unit :=
  if cond then Gfx.pure () else fatal f

/-- The debug-level assertion `SDL_assert(cond)`: compiled out unless the
build has debug assertions. -/
def SDL_assert (cond : Bool) : Gfx Unit :=
  fun env t => if env.debugAsserts && !cond then ⟨t, .error .debugAssert⟩ else ⟨t, .ok ()⟩

namespace gfx

/-- Embedding of `cmdTransitionImageLayout` (graphics_misc.cpp:52-86). -/
def cmdTransitionImageLayout (cmdBuffer : VkCommandBuffer) (image : VkImage)
    (oldLayout newLayout : VkImageLayout) : Gfx Unit := do
  let barrier : VkImageMemoryBarrier :=
    { srcAccessMask := 0, dstAccessMask := 0,
      oldLayout := oldLayout, newLayout := newLayout,
      srcQueueFamilyIndex := VK_QUEUE_FAMILY_IGNORED,
      dstQueueFamilyIndex := VK_QUEUE_FAMILY_IGNORED,
      image := image,
      subresourceRange :=
        { aspectMask := VK_IMAGE_ASPECT_COLOR_BIT, baseMipLevel := 0, levelCount := 1,
          baseArrayLayer := 0, layerCount := 1 } }
  let srcStage : VkFlags := 0
  let dstStage : VkFlags := 0
  let (barrier, srcStage, dstStage) ←
    if oldLayout = VK_IMAGE_LAYOUT_UNDEFINED ∧ newLayout = VK_IMAGE_LAYOUT_TRANSFER_DST_OPTIMAL then
      pure ({ barrier with srcAccessMask := 0, dstAccessMask := VK_ACCESS_TRANSFER_WRITE_BIT },
        VK_PIPELINE_STAGE_TOP_OF_PIPE_BIT, VK_PIPELINE_STAGE_TRANSFER_BIT)
    else if oldLayout = VK_IMAGE_LAYOUT_TRANSFER_DST_OPTIMAL
        ∧ newLayout = VK_IMAGE_LAYOUT_SHADER_READ_ONLY_OPTIMAL then
      pure ({ barrier with srcAccessMask := VK_ACCESS_TRANSFER_WRITE_BIT,
                           dstAccessMask := VK_ACCESS_SHADER_READ_BIT },
        VK_PIPELINE_STAGE_TRANSFER_BIT, VK_PIPELINE_STAGE_FRAGMENT_SHADER_BIT)
    else do
      SDL_assert_release false .unsupportedLayoutTransition
      pure (barrier, srcStage, dstStage)
  let _ ← call (.vkCmdPipelineBarrier cmdBuffer srcStage dstStage 1 barrier)

/-- Embedding of `submitCommandBuffer` (graphics_misc.cpp:30-50). -/
def submitCommandBuffer (cmdBuffer : VkCommandBuffer) (optionalWaitSemaphore : VkSemaphore)
    (optionalWaitStage : VkFlags) (optionalSignalSemaphore : VkSemaphore)
    (optionalFence : VkFence) : Gfx Unit := do
  let submitInfo : VkSubmitInfo :=
    { waitSemaphoreCount := 0, pWaitSemaphores := [], pWaitDstStageMask := [],
      commandBufferCount := 0, pCommandBuffers := [],
      signalSemaphoreCount := 0, pSignalSemaphores := [] }
  let submitInfo := { submitInfo with commandBufferCount := 1, pCommandBuffers := [cmdBuffer] }
  let submitInfo :=
    if optionalWaitSemaphore ≠ VK_NULL_HANDLE then
      { submitInfo with waitSemaphoreCount := 1, pWaitSemaphores := [optionalWaitSemaphore],
                        pWaitDstStageMask := [optionalWaitStage] }
    else submitInfo
  let submitInfo :=
    if optionalSignalSemaphore ≠ VK_NULL_HANDLE then
      { submitInfo with signalSemaphoreCount := 1, pSignalSemaphores := [optionalSignalSemaphore] }
    else submitInfo
  let env ← getEnv
  let result ← vkCall (.vkQueueSubmit env.queue 1 submitInfo optionalFence)
  SDL_assert (result == VK_SUCCESS)

/-- The call `submitCommandBuffer(cmdBuffer)`, with every other argument
defaulted. -/
def submitCommandBufferDefault (cmdBuffer : VkCommandBuffer) : Gfx Unit := do
  let env ← getEnv
  submitCommandBuffer cmdBuffer env.submitDefaults.optionalWaitSemaphore
    env.submitDefaults.optionalWaitStage env.submitDefaults.optionalSignalSemaphore
    env.submitDefaults.optionalFence

/-- Embedding of `beginCommandBuffer` (graphics_misc.cpp:172-182). -/
def beginCommandBuffer (cmdBuffer : VkCommandBuffer) : Gfx Unit := do
  let result ← vkCall (.vkBeginCommandBuffer cmdBuffer VK_COMMAND_BUFFER_USAGE_SIMULTANEOUS_USE_BIT)
  SDL_assert (result == VK_SUCCESS)

/-- The function `gfx::createCommandBuffer`, whose body is not among the
sources: one trace entry handing back a command buffer. -/
def createCommandBuffer : Gfx VkCommandBuffer := do
  let pos ← calleeCall .createCommandBuffer
  let env ← getEnv
  pure (env.handle pos)

/-- Embedding of `transitionImageLayout` (graphics_misc.cpp:88-104). -/
def transitionImageLayout (image : VkImage) (oldLayout newLayout : VkImageLayout) : Gfx Unit := do
  let env ← getEnv
  let cmdBuffer ← createCommandBuffer
  beginCommandBuffer cmdBuffer
  cmdTransitionImageLayout cmdBuffer image oldLayout newLayout
  let _ ← vkCall (.vkEndCommandBuffer cmdBuffer)
  submitCommandBufferDefault cmdBuffer
  let _ ← vkCall (.vkQueueWaitIdle env.queue)
  let _ ← call (.vkFreeCommandBuffers env.device env.commandPool 1 cmdBuffer)

/-- Embedding of `copyBufferToImage` (graphics_misc.cpp:106-135). -/
def copyBufferToImage (buffer : VkBuffer) (image : VkImage) (width height : Nat) : Gfx Unit := do
  let env ← getEnv
  let copyCmdInfo : VkBufferImageCopy :=
    { bufferOffset := 0, bufferRowLength := 0, bufferImageHeight := 0,
      imageSubresource :=
        { aspectMask := VK_IMAGE_ASPECT_COLOR_BIT, mipLevel := 0, baseArrayLayer := 0,
          layerCount := 1 },
      imageOffset := (0, 0, 0),
      imageExtent := { width := width, height := height, depth := 1 } }
  let cmdBuffer ← createCommandBuffer
  beginCommandBuffer cmdBuffer
  let _ ← call (.vkCmdCopyBufferToImage cmdBuffer buffer image
    VK_IMAGE_LAYOUT_TRANSFER_DST_OPTIMAL 1 copyCmdInfo)
  let _ ← vkCall (.vkEndCommandBuffer cmdBuffer)
  submitCommandBufferDefault cmdBuffer
  let _ ← vkCall (.vkQueueWaitIdle env.queue)
  let _ ← call (.vkFreeCommandBuffers env.device env.commandPool 1 cmdBuffer)

/-- Embedding of `setBufferMemory` (graphics_misc.cpp:137-145). -/
def setBufferMemory (memory : VkDeviceMemory) (dataSize : Nat) (data : List Nat) : Gfx Unit := do
  let env ← getEnv
  let pos ← call (.vkMapMemory env.device memory 0 dataSize 0)
  SDL_assert (env.vkResult pos == VK_SUCCESS)
  let mappedMemory := env.handle pos
  let _ ← call (.memcpy mappedMemory data dataSize)
  let _ ← call (.vkUnmapMemory env.device memory)

/-- Embedding of `createBuffer` (graphics_create.cpp:178-201); the value is
the pair written through `bufferOut` and `memoryOut`. -/
def createBuffer (usage : VkFlags) (dataSize : Nat) : Gfx (VkBuffer × VkDeviceMemory) := do
  let env ← getEnv
  let bufferInfo : VkBufferCreateInfo :=
    { size := dataSize, usage := usage, sharingMode := VK_SHARING_MODE_EXCLUSIVE }
  let pos ← call (.vkCreateBuffer env.device bufferInfo)
  let buffer := env.handle pos
  SDL_assert (env.vkResult pos == VK_SUCCESS)
  let pos ← call (.vkGetBufferMemoryRequirements env.device buffer)
  let memoryReqs := env.memoryReqs pos
  let pos ← calleeCall (.getMemoryType memoryReqs.memoryTypeBits
    (VK_MEMORY_PROPERTY_HOST_VISIBLE_BIT ||| VK_MEMORY_PROPERTY_HOST_COHERENT_BIT))
  let memoryTypeIndex := env.handle pos
  let pos ← call (.vkAllocateMemory env.device memoryReqs.size memoryTypeIndex)
  let memory := env.handle pos
  SDL_assert (env.vkResult pos == VK_SUCCESS)
  let result ← vkCall (.vkBindBufferMemory env.device buffer memory 0)
  SDL_assert (result == VK_SUCCESS)
  pure (buffer, memory)

/-- Embedding of `setImageMemoryRGBA` (graphics_misc.cpp:147-170).  The byte
count is computed in `uint64_t`, hence modulo `2^64`. -/
def setImageMemoryRGBA (image : VkImage) (_memory : VkDeviceMemory) (width height : Nat)
    (data : List Nat) : Gfx Unit := do
  let env ← getEnv
  let dataSizePerPixel : Nat := 1 * 4
  let dataSizeTotal : Nat := (dataSizePerPixel * width * height) % 2 ^ 64
  let (stagingBuffer, stagingBufferMemory) ←
    createBuffer VK_BUFFER_USAGE_TRANSFER_SRC_BIT dataSizeTotal
  setBufferMemory stagingBufferMemory dataSizeTotal data
  transitionImageLayout image VK_IMAGE_LAYOUT_UNDEFINED VK_IMAGE_LAYOUT_TRANSFER_DST_OPTIMAL
  copyBufferToImage stagingBuffer image width height
  transitionImageLayout image VK_IMAGE_LAYOUT_TRANSFER_DST_OPTIMAL
    VK_IMAGE_LAYOUT_SHADER_READ_ONLY_OPTIMAL
  let _ ← call (.vkDestroyBuffer env.device stagingBuffer)
  let _ ← call (.vkFreeMemory env.device stagingBufferMemory)

/-- Embedding of `createImageView` (graphics_create.cpp:252-274). -/
def createImageView (image : VkImage) (format : VkFormat) (aspectMask : VkFlags) :
    Gfx Nat := do
  let env ← getEnv
  let viewInfo : VkImageViewCreateInfo :=
    { image := image, format := format, viewType := VK_IMAGE_VIEW_TYPE_2D,
      subresourceRange :=
        { aspectMask := aspectMask, baseMipLevel := 0, levelCount := 1,
          baseArrayLayer := 0, layerCount := 1 } }
  let pos ← call (.vkCreateImageView env.device viewInfo)
  let view := env.handle pos
  SDL_assert_release (env.vkResult pos == VK_SUCCESS) .imageViewNotCreated
  pure view

/-- Conversion of an `int` value to `uint8_t`. -/
def toUint8 (v : Int) : Nat := (v % 256).toNat

/-- The loop of `loadImage` (graphics_misc.cpp:15-19), from index `i` on, with
`bound` the value of `width*height*4`.  An element of `data` is a `uint8_t`;
the arithmetic is done in `int` and stored back as `uint8_t`.  The counter
never passes `bound + 3`, so it does not wrap as long as `bound` fits the
`int` it is computed in. -/
def loadImage.remapLoop (bound : Nat) (i : Nat) (data : List Nat) : List Nat :=
  if i < bound then
    let data := data.set i (toUint8 ((data.getD i 0 : Int) - 127))
    let data := data.set (i + 1) (toUint8 ((data.getD (i + 2) 0 : Int) / 2))
    let data := data.set (i + 2) (toUint8 ((data.getD (i + 1) 0 : Int) - 127))
    loadImage.remapLoop bound (i + 4) data
  else data
termination_by bound - i

/-- The pixel buffer `loadImage` passes to `setImageMemoryRGBA`
(graphics_misc.cpp:14-20): remapped in place when `normalMap` is set. -/
def loadImage.pixels (normalMap : Bool) (width height : Nat) (data : List Nat) : List Nat :=
  if normalMap then loadImage.remapLoop (width * height * 4) 0 data else data

/-- Embedding of `loadImage` (graphics_misc.cpp:7-28).  `decoded` is what
`stbi_load` returned (`none` for a null pointer); the value is the triple
written through `imageOut`, `memoryOut` and `viewOut`. -/
def loadImage (filePath : String) (normalMap : Bool) (decoded : Option StbImage) :
    Gfx (VkImage × VkDeviceMemory × Nat) := do
  let env ← getEnv
  let format := if normalMap then VK_FORMAT_R8G8B8A8_SNORM else VK_FORMAT_R8G8B8A8_UNORM
  let _ ← call (.stbi_load filePath 4)
  match decoded with
  | none => fatal .imageNotLoaded
  | some img =>
    let data := loadImage.pixels normalMap img.width img.height img.data
    let pos ← calleeCall (.createImage format img.width img.height)
    let image := env.handle pos
    let memory := env.imageMemory pos
    setImageMemoryRGBA image memory img.width img.height data
    let view ← createImageView image format VK_IMAGE_ASPECT_COLOR_BIT
    let _ ← call .stbi_image_free
    pure (image, memory, view)

/-- Embedding of `cmdBeginRenderPass` (graphics_misc.cpp:184-214). -/
def cmdBeginRenderPass (renderPass : VkRenderPass) (width height : Nat) (clearColor : Vec3)
    (framebuffer : VkFramebuffer) (cmdBuffer : VkCommandBuffer) : Gfx Unit := do
  let clearValues : List VkClearValue :=
    [ .color clearColor.x clearColor.y clearColor.z 1,
      .color clearColor.x clearColor.y clearColor.z 1,
      .depthStencil 1 0 ]
  let info : VkRenderPassBeginInfo :=
    { renderPass := renderPass, framebuffer := framebuffer,
      clearValueCount := clearValues.length, pClearValues := clearValues,
      renderAreaOffset := (0, 0),
      renderAreaExtent := { width := width, height := height } }
  let _ ← call (.vkCmdBeginRenderPass cmdBuffer info VK_SUBPASS_CONTENTS_INLINE)

/-- Embedding of `presentFrame` (graphics_misc.cpp:216-229). -/
def presentFrame (frame : SwapchainFrame) (waitSemaphore : VkSemaphore) : Gfx Unit := do
  let env ← getEnv
  let presentInfo : VkPresentInfoKHR :=
    { waitSemaphoreCount := 1, pWaitSemaphores := [waitSemaphore],
      swapchainCount := 1, pSwapchains := [env.swapchain],
      pImageIndices := [frame.index] }
  let result ← vkCall (.vkQueuePresentKHR env.queue presentInfo)
  SDL_assert (result == VK_SUCCESS)

/-- The function `gfx::getNextFrame`, whose body is not among the sources: one
trace entry handing back the acquired frame. -/
def getNextFrame (signalSemaphore : VkSemaphore) : Gfx SwapchainFrame := do
  let pos ← calleeCall (.getNextFrame signalSemaphore)
  let env ← getEnv
  pure (env.frame pos)

/-- The function `gfx::getSurfaceExtent`, whose body is not among the
sources. -/
def getSurfaceExtent : Gfx VkExtent2D := do
  let pos ← calleeCall .getSurfaceExtent
  let env ← getEnv
  pure (env.extent pos)

/-- The loop of `createQueueInfo` (graphics_create.cpp:122-130) from
`familyIndex` on: the index at which it stops.  `hasSurfaceSupport i` is the
value `vkGetPhysicalDeviceSurfaceSupportKHR` leaves in `hasSurfaceSupport` for
family `i`. -/
def createQueueInfo.loop (families : List VkQueueFamilyProperties)
    (hasSurfaceSupport : Nat → VkBool32) (familyIndex : Nat) : Nat :=
  if h : familyIndex < families.length then
    if hasSurfaceSupport familyIndex = VK_TRUE
        ∧ families[familyIndex].queueFlags &&& VK_QUEUE_GRAPHICS_BIT ≠ 0 then
      familyIndex
    else createQueueInfo.loop families hasSurfaceSupport (familyIndex + 1)
  else familyIndex
termination_by families.length - familyIndex

/-- Embedding of `createQueueInfo` (graphics_create.cpp:113-144), as a
function of what the two device queries report.  `familyIndex` is an `int`
in the source; it never passes `families.size()`. -/
def createQueueInfo (families : List VkQueueFamilyProperties)
    (hasSurfaceSupport : Nat → VkBool32) : Except Fatal VkDeviceQueueCreateInfo :=
  let familyIndex := createQueueInfo.loop families hasSurfaceSupport 0
  if familyIndex < families.length then
    .ok { queueFamilyIndex := familyIndex, queueCount := 1, pQueuePriorities := [1.0] }
  else .error .noQueueFamily

end gfx

/-- Embedding of `createSemaphores` (main.cpp:57-62); the value is the pair of
globals `(imageAvailableSemaphore, renderCompletedSemaphore)` on return, which
`renderNextFrame` later reads as `env.imageAvailableSemaphore` and
`env.renderCompletedSemaphore`.  `env.handle pos` is what the global holds
after the `vkCreateSemaphore` at position `pos` (its initialiser
`VK_NULL_HANDLE` when the call wrote nothing).  The result of the first call
is discarded (line 60); only the second is asserted (line 61). -/
def createSemaphores : Gfx (VkSemaphore × VkSemaphore) := do
  let env ← getEnv
  let pos ← call (.vkCreateSemaphore env.device 0)
  let imageAvailableSemaphore := env.handle pos
  let pos ← call (.vkCreateSemaphore env.device 0)
  let renderCompletedSemaphore := env.handle pos
  SDL_assert_release (env.vkResult pos == VK_SUCCESS) .semaphoreNotCreated
  pure (imageAvailableSemaphore, renderCompletedSemaphore)

/-- Embedding of `renderNextFrame` (main.cpp:64-93).  The calls into
`presentation`, `shadows` and `gui`, whose bodies are not among the sources,
are one trace entry each; the second argument of `presentation::render` is the
address of the global `shadowMaps` and is left out. -/
def renderNextFrame (deltaTime : CFloat) : Gfx Unit := do
  let env ← getEnv
  let _ ← calleeCall (.presentation_update deltaTime)
  let _ ← calleeCall .shadows_update
  let frame ← gfx.getNextFrame env.imageAvailableSemaphore
  let _ ← vkCall (.vkQueueWaitIdle env.queue)
  gfx.beginCommandBuffer frame.cmdBuffer
  let _ ← calleeCall (.shadows_performRenderPasses frame.cmdBuffer)
  let extent ← gfx.getSurfaceExtent
  let clearColor : Vec3 := { x := 0.5, y := 0.7, z := 1 }
  gfx.cmdBeginRenderPass env.renderPass extent.width extent.height clearColor
    frame.framebuffer frame.cmdBuffer
  let _ ← calleeCall (.presentation_render frame.cmdBuffer)
  let _ ← calleeCall (.gui_render frame.cmdBuffer)
  let _ ← call (.vkCmdEndRenderPass frame.cmdBuffer)
  let result ← vkCall (.vkEndCommandBuffer frame.cmdBuffer)
  SDL_assert (result == VK_SUCCESS)
  let waitStage : VkFlags := VK_PIPELINE_STAGE_COLOR_ATTACHMENT_OUTPUT_BIT
  gfx.submitCommandBuffer frame.cmdBuffer env.imageAvailableSemaphore waitStage
    env.renderCompletedSemaphore VK_NULL_HANDLE
  gfx.presentFrame frame env.renderCompletedSemaphore

/-- The rendering done by the frame loop of `main` (main.cpp:147-183): one
`renderNextFrame` per iteration, with that iteration's `deltaTime`. -/
def frameLoop : List CFloat → Gfx Unit
  | [] => pure ()
  | deltaTime :: rest => do
      renderNextFrame deltaTime
      frameLoop rest

/-- The layout an image is in once a barrier has executed: a barrier naming
the image leaves it in the barrier's `newLayout`; any other call leaves the
layout alone. -/
def layoutStep (image : VkImage) (layout : VkImageLayout) (op : Op) : VkImageLayout :=
  match op with
  | .vkCmdPipelineBarrier _ _ _ _ barrier =>
      if barrier.image = image then barrier.newLayout else layout
  | _ => layout

/-- The layout of `image` after the calls `ops`, starting from `layout`. -/
def layoutAfter (image : VkImage) (layout : VkImageLayout) (ops : List Op) : VkImageLayout :=
  ops.foldl (layoutStep image) layout

/-- The calls one `renderNextFrame` makes when nothing stops it, for a trace
that was `pos` calls long when it started. -/
def frameOps (env : Env) (pos : Nat) (deltaTime : CFloat) : List Op :=
  let frame := env.frame (pos + 2)
  let extent := env.extent (pos + 6)
  [ .presentation_update deltaTime,
    .shadows_update,
    .getNextFrame env.imageAvailableSemaphore,
    .vkQueueWaitIdle env.queue,
    .vkBeginCommandBuffer frame.cmdBuffer VK_COMMAND_BUFFER_USAGE_SIMULTANEOUS_USE_BIT,
    .shadows_performRenderPasses frame.cmdBuffer,
    .getSurfaceExtent,
    .vkCmdBeginRenderPass frame.cmdBuffer
      { renderPass := env.renderPass, framebuffer := frame.framebuffer,
        renderAreaOffset := (0, 0),
        renderAreaExtent := { width := extent.width, height := extent.height },
        clearValueCount := 3,
        pClearValues := [.color 0.5 0.7 1 1, .color 0.5 0.7 1 1, .depthStencil 1 0] }
      VK_SUBPASS_CONTENTS_INLINE,
    .presentation_render frame.cmdBuffer,
    .gui_render frame.cmdBuffer,
    .vkCmdEndRenderPass frame.cmdBuffer,
    .vkEndCommandBuffer frame.cmdBuffer,
    .vkQueueSubmit env.queue 1
      { waitSemaphoreCount := if env.imageAvailableSemaphore ≠ VK_NULL_HANDLE then 1 else 0,
        pWaitSemaphores :=
          if env.imageAvailableSemaphore ≠ VK_NULL_HANDLE then [env.imageAvailableSemaphore]
          else [],
        pWaitDstStageMask :=
          if env.imageAvailableSemaphore ≠ VK_NULL_HANDLE then
            [VK_PIPELINE_STAGE_COLOR_ATTACHMENT_OUTPUT_BIT]
          else [],
        commandBufferCount := 1,
        pCommandBuffers := [frame.cmdBuffer],
        signalSemaphoreCount := if env.renderCompletedSemaphore ≠ VK_NULL_HANDLE then 1 else 0,
        pSignalSemaphores :=
          if env.renderCompletedSemaphore ≠ VK_NULL_HANDLE then [env.renderCompletedSemaphore]
          else [] }
      VK_NULL_HANDLE,
    .vkQueuePresentKHR env.queue
      { waitSemaphoreCount := 1, pWaitSemaphores := [env.renderCompletedSemaphore],
        swapchainCount := 1, pSwapchains := [env.swapchain],
        pImageIndices := [frame.index] } ]

/-- A run of `m` from trace `t` makes the calls `ops` in order, stopping
early only by terminating the process for one of the reasons `errs`; when it
returns, it has made all of `ops` and its value is `a`. -/
def Runs {α : Type} (m : Gfx α) (env : Env) (t : List Op) (ops : List Op) (a : α)
    (errs : List Fatal) : Prop :=
  (∃ n, (m env t).trace = t ++ ops.take n)
  ∧ (∀ b, (m env t).result = .ok b → (m env t).trace = t ++ ops ∧ b = a)
  ∧ (∀ e, (m env t).result = .error e → e ∈ errs)

/-- The calls a run of `m` made, in order: what it added to the trace `t` it
started from. -/
def Gfx.calls {α : Type} (m : Gfx α) (env : Env) (t : List Op) : List Op :=
  (m env t).trace.drop t.length

/-- The ten steps of a frame that acquire, record into the command buffer,
submit or present. -/
inductive FrameStep
  | acquireFrame
  | beginRecording
  | shadowPasses
  | beginRenderPass
  | mainPassRender
  | guiRender
  | endRenderPass
  | endRecording
  | submit
  | present
deriving DecidableEq, Repr

/-- Which of the ten steps a call is, if any.  The scene updates, the
host-side queue wait and the surface-extent query are the calls of
`renderNextFrame` that are none of them. -/
def Op.frameStep : Op → Option FrameStep
  | .getNextFrame _ => some .acquireFrame
  | .vkBeginCommandBuffer _ _ => some .beginRecording
  | .shadows_performRenderPasses _ => some .shadowPasses
  | .vkCmdBeginRenderPass _ _ _ => some .beginRenderPass
  | .presentation_render _ => some .mainPassRender
  | .gui_render _ => some .guiRender
  | .vkCmdEndRenderPass _ => some .endRenderPass
  | .vkEndCommandBuffer _ => some .endRecording
  | .vkQueueSubmit _ _ _ _ => some .submit
  | .vkQueuePresentKHR _ _ => some .present
  | _ => none

/-- An environment in which every call succeeds: a release build, every
status `VK_SUCCESS`, and handles numbered by the position of the call that
made them. -/
def sampleEnv : Env where
  debugAsserts := false
  queue := 1
  device := 2
  commandPool := 3
  swapchain := 4
  renderPass := 5
  imageAvailableSemaphore := 6
  renderCompletedSemaphore := 7
  vkResult := fun _ => VK_SUCCESS
  handle := fun n => 100 + n
  frame := fun n => { index := n % 3, cmdBuffer := 10 + n % 3, framebuffer := 20 + n % 3 }
  extent := fun _ => { width := 800, height := 600 }
  memoryReqs := fun _ => { size := 64, memoryTypeBits := 1 }
  imageMemory := fun n => 200 + n
  calleeFatal := fun _ => false
  submitDefaults :=
    { optionalWaitSemaphore := VK_NULL_HANDLE, optionalWaitStage := 0,
      optionalSignalSemaphore := VK_NULL_HANDLE, optionalFence := VK_NULL_HANDLE }

/-- The calls of `frameLoop` when nothing stops it, for a trace that was `pos`
calls long when it started: the calls of one frame after the other. -/
def frameLoopOps (env : Env) : Nat → List CFloat → List Op
  | _, [] => []
  | pos, deltaTime :: rest => frameOps env pos deltaTime ++ frameLoopOps env (pos + 14) rest

/-- Family `j` exists, reports presentation support for the surface and has
the graphics bit: the condition under which the loop of `createQueueInfo`
stops at `j`. -/
def gfx.createQueueInfo.qualifies (families : List VkQueueFamilyProperties)
    (hasSurfaceSupport : Nat → VkBool32) (j : Nat) : Prop :=
  ∃ family, families[j]? = some family ∧ hasSurfaceSupport j = VK_TRUE
    ∧ family.queueFlags &&& VK_QUEUE_GRAPHICS_BIT ≠ 0

/-! ### The calls of the upload path -/

/-- The submit info `submitCommandBuffer` builds from its arguments. -/
def submitInfoOf (cmdBuffer : VkCommandBuffer) (optionalWaitSemaphore : VkSemaphore)
    (optionalWaitStage : VkFlags) (optionalSignalSemaphore : VkSemaphore) : VkSubmitInfo :=
  { waitSemaphoreCount := if optionalWaitSemaphore ≠ VK_NULL_HANDLE then 1 else 0,
    pWaitSemaphores :=
      if optionalWaitSemaphore ≠ VK_NULL_HANDLE then [optionalWaitSemaphore] else [],
    pWaitDstStageMask :=
      if optionalWaitSemaphore ≠ VK_NULL_HANDLE then [optionalWaitStage] else [],
    commandBufferCount := 1,
    pCommandBuffers := [cmdBuffer],
    signalSemaphoreCount := if optionalSignalSemaphore ≠ VK_NULL_HANDLE then 1 else 0,
    pSignalSemaphores :=
      if optionalSignalSemaphore ≠ VK_NULL_HANDLE then [optionalSignalSemaphore] else [] }

/-- The `vkQueueSubmit` made by `submitCommandBuffer(cmdBuffer)` with defaulted
arguments. -/
def defaultSubmitOp (env : Env) (cmdBuffer : VkCommandBuffer) : Op :=
  .vkQueueSubmit env.queue 1
    (submitInfoOf cmdBuffer env.submitDefaults.optionalWaitSemaphore
      env.submitDefaults.optionalWaitStage env.submitDefaults.optionalSignalSemaphore)
    env.submitDefaults.optionalFence

/-- The barrier recorded for `UNDEFINED -> TRANSFER_DST_OPTIMAL`. -/
def barrierToTransferDst (image : VkImage) : VkImageMemoryBarrier :=
  { srcAccessMask := 0, dstAccessMask := VK_ACCESS_TRANSFER_WRITE_BIT,
    oldLayout := VK_IMAGE_LAYOUT_UNDEFINED, newLayout := VK_IMAGE_LAYOUT_TRANSFER_DST_OPTIMAL,
    srcQueueFamilyIndex := VK_QUEUE_FAMILY_IGNORED,
    dstQueueFamilyIndex := VK_QUEUE_FAMILY_IGNORED,
    image := image,
    subresourceRange :=
      { aspectMask := VK_IMAGE_ASPECT_COLOR_BIT, baseMipLevel := 0, levelCount := 1,
        baseArrayLayer := 0, layerCount := 1 } }

/-- The barrier recorded for `TRANSFER_DST_OPTIMAL -> SHADER_READ_ONLY_OPTIMAL`. -/
def barrierToShaderRead (image : VkImage) : VkImageMemoryBarrier :=
  { srcAccessMask := VK_ACCESS_TRANSFER_WRITE_BIT, dstAccessMask := VK_ACCESS_SHADER_READ_BIT,
    oldLayout := VK_IMAGE_LAYOUT_TRANSFER_DST_OPTIMAL,
    newLayout := VK_IMAGE_LAYOUT_SHADER_READ_ONLY_OPTIMAL,
    srcQueueFamilyIndex := VK_QUEUE_FAMILY_IGNORED,
    dstQueueFamilyIndex := VK_QUEUE_FAMILY_IGNORED,
    image := image,
    subresourceRange :=
      { aspectMask := VK_IMAGE_ASPECT_COLOR_BIT, baseMipLevel := 0, levelCount := 1,
        baseArrayLayer := 0, layerCount := 1 } }

/-- The calls of `createBuffer` when nothing stops it, started at trace
length `pos`. -/
def createBufferOps (env : Env) (pos : Nat) (usage : VkFlags) (dataSize : Nat) : List Op :=
  [ .vkCreateBuffer env.device
      { size := dataSize, usage := usage, sharingMode := VK_SHARING_MODE_EXCLUSIVE },
    .vkGetBufferMemoryRequirements env.device (env.handle pos),
    .getMemoryType (env.memoryReqs (pos + 1)).memoryTypeBits
      (VK_MEMORY_PROPERTY_HOST_VISIBLE_BIT ||| VK_MEMORY_PROPERTY_HOST_COHERENT_BIT),
    .vkAllocateMemory env.device (env.memoryReqs (pos + 1)).size (env.handle (pos + 2)),
    .vkBindBufferMemory env.device (env.handle pos) (env.handle (pos + 3)) 0 ]

/-- The calls of `setBufferMemory` when nothing stops it. -/
def setBufferMemoryOps (env : Env) (pos : Nat) (memory : VkDeviceMemory) (dataSize : Nat)
    (data : List Nat) : List Op :=
  [ .vkMapMemory env.device memory 0 dataSize 0,
    .memcpy (env.handle pos) data dataSize,
    .vkUnmapMemory env.device memory ]

/-- The calls of a one-command submission (`transitionImageLayout`,
`copyBufferToImage`) when nothing stops it: create a command buffer, begin,
the command, end, submit, wait for the queue, free the command buffer. -/
def oneShotOps (env : Env) (pos : Nat) (command : VkCommandBuffer → Op) : List Op :=
  [ .createCommandBuffer,
    .vkBeginCommandBuffer (env.handle pos) VK_COMMAND_BUFFER_USAGE_SIMULTANEOUS_USE_BIT,
    command (env.handle pos),
    .vkEndCommandBuffer (env.handle pos),
    defaultSubmitOp env (env.handle pos),
    .vkQueueWaitIdle env.queue,
    .vkFreeCommandBuffers env.device env.commandPool 1 (env.handle pos) ]

/-- The copy region `copyBufferToImage` builds. -/
def copyRegion (width height : Nat) : VkBufferImageCopy :=
  { bufferOffset := 0, bufferRowLength := 0, bufferImageHeight := 0,
    imageSubresource :=
      { aspectMask := VK_IMAGE_ASPECT_COLOR_BIT, mipLevel := 0, baseArrayLayer := 0,
        layerCount := 1 },
    imageOffset := (0, 0, 0),
    imageExtent := { width := width, height := height, depth := 1 } }

/-- The calls of `setImageMemoryRGBA` when nothing stops it, started at trace
length `pos`: 5 of `createBuffer`, 3 of `setBufferMemory`, 7 for each of the
first transition, the copy and the second transition, and the two that
destroy the staging buffer and free its memory. -/
def uploadOps (env : Env) (pos : Nat) (image : VkImage) (width height : Nat)
    (data : List Nat) : List Op :=
  createBufferOps env pos VK_BUFFER_USAGE_TRANSFER_SRC_BIT ((4 * width * height) % 2 ^ 64)
  ++ setBufferMemoryOps env (pos + 5) (env.handle (pos + 3)) ((4 * width * height) % 2 ^ 64) data
  ++ oneShotOps env (pos + 8) (fun cmdBuffer =>
      .vkCmdPipelineBarrier cmdBuffer VK_PIPELINE_STAGE_TOP_OF_PIPE_BIT
        VK_PIPELINE_STAGE_TRANSFER_BIT 1 (barrierToTransferDst image))
  ++ oneShotOps env (pos + 15) (fun cmdBuffer =>
      .vkCmdCopyBufferToImage cmdBuffer (env.handle pos) image
        VK_IMAGE_LAYOUT_TRANSFER_DST_OPTIMAL 1 (copyRegion width height))
  ++ oneShotOps env (pos + 22) (fun cmdBuffer =>
      .vkCmdPipelineBarrier cmdBuffer VK_PIPELINE_STAGE_TRANSFER_BIT
        VK_PIPELINE_STAGE_FRAGMENT_SHADER_BIT 1 (barrierToShaderRead image))
  ++ [ .vkDestroyBuffer env.device (env.handle pos),
       .vkFreeMemory env.device (env.handle (pos + 3)) ]

/-- The steps of an upload that create or fill the staging buffer, move the
image to another layout, or copy into it. -/
inductive UploadStep
  | createStaging (size : Nat) (usage : VkFlags)
  | fillStaging (data : List Nat) (size : Nat)
  | transition (image : VkImage) (oldLayout newLayout : VkImageLayout)
  | copy (buffer : VkBuffer) (image : VkImage) (declaredLayout : VkImageLayout)
      (extent : VkExtent3D)
deriving DecidableEq, Repr

/-- Which upload step a call is, if any. -/
def Op.uploadStep : Op → Option UploadStep
  | .vkCreateBuffer _ info => some (.createStaging info.size info.usage)
  | .memcpy _ src size => some (.fillStaging src size)
  | .vkCmdPipelineBarrier _ _ _ _ barrier =>
      some (.transition barrier.image barrier.oldLayout barrier.newLayout)
  | .vkCmdCopyBufferToImage _ buffer image dstImageLayout _ region =>
      some (.copy buffer image dstImageLayout region.imageExtent)
  | _ => none

/-- Whether, along `ops`, every barrier naming `image` starts from the layout
the image is in at that point, and every copy into `image` declares that
layout; `layout` is the layout before `ops`. -/
def layoutRespected (image : VkImage) : VkImageLayout → List Op → Bool
  | _, [] => true
  | layout, op :: ops =>
    (match op with
      | .vkCmdPipelineBarrier _ _ _ _ barrier =>
          barrier.image != image || barrier.oldLayout == layout
      | .vkCmdCopyBufferToImage _ _ target dstImageLayout _ _ =>
          target != image || dstImageLayout == layout
      | _ => true)
    && layoutRespected image (layoutStep image layout op) ops

/-- The calls that must not be made while submitted work may still be
running: freeing a command buffer, a further submission, and destroying a
buffer or freeing its memory. -/
def Op.needsIdleQueue : Op → Bool
  | .vkFreeCommandBuffers _ _ _ _ => true
  | .vkQueueSubmit _ _ _ _ => true
  | .vkDestroyBuffer _ _ => true
  | .vkFreeMemory _ _ => true
  | _ => false

/-! ## The debug messenger callback -/

/-- The members of `VkDebugUtilsMessengerCallbackDataEXT` the callback reads. -/
structure VkDebugUtilsMessengerCallbackDataEXT where
  pMessage : String
  objectCount : Nat
deriving DecidableEq, Repr

/-- The first `switch` of `debugCallback` (graphics_create.cpp:24-30): print
the severity. -/
def gfx.debugCallback.printSeverity (severity : Nat) : Gfx Nat :=
  if severity = VK_DEBUG_UTILS_MESSAGE_SEVERITY_VERBOSE_BIT_EXT then
    call (.printf "verbose, " [])
  else if severity = VK_DEBUG_UTILS_MESSAGE_SEVERITY_INFO_BIT_EXT then
    call (.printf "info, " [])
  else if severity = VK_DEBUG_UTILS_MESSAGE_SEVERITY_WARNING_BIT_EXT then
    call (.printf "WARNING, " [])
  else if severity = VK_DEBUG_UTILS_MESSAGE_SEVERITY_ERROR_BIT_EXT then
    call (.printf "ERROR, " [])
  else call (.printf "unknown, " [])

/-- The second `switch` of `debugCallback` (graphics_create.cpp:32-37): print
the message type. -/
def gfx.debugCallback.printType (msgType : VkFlags) : Gfx Nat :=
  if msgType = VK_DEBUG_UTILS_MESSAGE_TYPE_GENERAL_BIT_EXT then
    call (.printf "general: " [])
  else if msgType = VK_DEBUG_UTILS_MESSAGE_TYPE_VALIDATION_BIT_EXT then
    call (.printf "validation: " [])
  else if msgType = VK_DEBUG_UTILS_MESSAGE_TYPE_PERFORMANCE_BIT_EXT then
    call (.printf "performance: " [])
  else call (.printf "unknown: " [])

/-- The third `switch` of `debugCallback` (graphics_create.cpp:42-48): the
cases WARNING and ERROR fall into `SDL_assert_release(false)`, every other
value into the empty default. -/
def gfx.debugCallback.escalate (severity : Nat) : Gfx Unit :=
  if severity = VK_DEBUG_UTILS_MESSAGE_SEVERITY_WARNING_BIT_EXT
      ∨ severity = VK_DEBUG_UTILS_MESSAGE_SEVERITY_ERROR_BIT_EXT then
    SDL_assert_release false .validationMessage
  else pure ()

/-- Embedding of `debugCallback` (graphics_create.cpp:20-51).  `severity` is
a `VkDebugUtilsMessageSeverityFlagBitsEXT`, compared for equality by the
`switch` statements; the value returned is the `VkBool32`. -/
def gfx.debugCallback (severity : Nat) (msgType : VkFlags)
    (data : VkDebugUtilsMessengerCallbackDataEXT) : Gfx VkBool32 := do
  let _ ← call (.printf "\n" [])
  let _ ← gfx.debugCallback.printSeverity severity
  let _ ← gfx.debugCallback.printType msgType
  let _ ← call (.printf "%s (%i objects reported)\n"
    [.str data.pMessage, .int data.objectCount])
  let _ ← call .fflush_stdout
  gfx.debugCallback.escalate severity
  pure VK_FALSE

/-- A start-up in which the first `vkCreateSemaphore` fails with
`VK_ERROR_OUT_OF_HOST_MEMORY` (-1) and leaves the global at `VK_NULL_HANDLE`,
and every later call succeeds. -/
def semaphoreFailureEnv : Env :=
  { sampleEnv with
    vkResult := fun n => if n = 0 then -1 else VK_SUCCESS,
    handle := fun n => if n = 0 then VK_NULL_HANDLE else 100 + n }

/-- The globals as `createSemaphores` leaves them in `semaphoreFailureEnv`:
`imageAvailableSemaphore` still `VK_NULL_HANDLE`, `renderCompletedSemaphore`
the created handle 101; every call of the frame succeeds. -/
def nullSemaphoreEnv : Env :=
  { sampleEnv with imageAvailableSemaphore := VK_NULL_HANDLE, renderCompletedSemaphore := 101 }

/-- A release build in which the driver reports `VK_ERROR_DEVICE_LOST` (-4) for
every call: `sampleEnv` with that status. -/
def deviceLostEnv : Env :=
  { sampleEnv with vkResult := fun _ => -4 }

/-! ## Geometry (geometry.cpp)

Values of type `float` are rationals here: the rounding of float arithmetic
is left out, and the functions of `<cmath>` and of the vector library are
taken as parameters (`FloatLib`). -/

/-- A two-component float vector (`vec2`). -/
structure Vec2 where
  x : CFloat
  y : CFloat
deriving DecidableEq, Repr

/-- Component-wise sum of two `vec3`. -/
def Vec3.add (a b : Vec3) : Vec3 :=
  { x := a.x + b.x, y := a.y + b.y, z := a.z + b.z }

/-- Modelled from the spec: class `DrawCall` is declared in a header that is
not among the sources.  The spec's Draw Call is "an immutable GPU-resident mesh
(vertex positions, optional normals, optional texture coordinates)"; the three
lists are the arguments of its constructor, an omitted optional list being the
empty list. -/
structure DrawCall where
  positions : List Vec3
  normals : List Vec3
  texCoords : List Vec2
deriving DecidableEq, Repr

/-- The functions and constants the geometry code takes from `<cmath>` and
from the vector library: `rotate`, `sinf`, `cosf`, `M_PI` and `M_TAU`. -/
structure FloatLib where
  rotate : Vec3 → CFloat → Vec3 → Vec3
  sinf : CFloat → CFloat
  cosf : CFloat → CFloat
  M_PI : CFloat
  M_TAU : CFloat

namespace tinyobj

/-- The index triple `tinyobj::index_t` of one face corner. -/
structure index_t where
  vertex_index : Int
  normal_index : Int
  texcoord_index : Int
deriving DecidableEq, Repr

/-- The members of `tinyobj::mesh_t` the loader reads. -/
structure mesh_t where
  indices : List index_t
  num_face_vertices : List Nat
deriving DecidableEq, Repr

structure shape_t where
  mesh : mesh_t
deriving DecidableEq, Repr

/-- The three float arrays of `tinyobj::attrib_t`. -/
structure attrib_t where
  vertices : List CFloat
  normals : List CFloat
  texcoords : List CFloat
deriving DecidableEq, Repr

/-- What `tinyobj::LoadObj` hands back: its return value and the attributes
and shapes it filled in. -/
structure LoadObjResult where
  ret : Bool
  attributes : attrib_t
  shapes : List shape_t
deriving DecidableEq, Repr

end tinyobj

namespace geometry

/-- The element `v[i]` of a float array indexed by an `int` expression.  An
index outside the array is undefined behaviour in the source; here it reads 0. -/
def floatAt (v : List CFloat) (i : Int) : CFloat :=
  if 0 ≤ i then v.getD i.toNat 0 else 0

/-- The `vec3 vertex` built for one face corner (geometry.cpp:50-54). -/
def newDrawCallFromObjFile.vertex (attributes : tinyobj.attrib_t) (idx : tinyobj.index_t) :
    Vec3 :=
  { x := floatAt attributes.vertices (3 * idx.vertex_index),
    y := floatAt attributes.vertices (3 * idx.vertex_index + 1),
    z := floatAt attributes.vertices (3 * idx.vertex_index + 2) }

/-- The `vec3 normal` built for one face corner (geometry.cpp:57-61). -/
def newDrawCallFromObjFile.normal (attributes : tinyobj.attrib_t) (idx : tinyobj.index_t) :
    Vec3 :=
  { x := floatAt attributes.normals (3 * idx.normal_index),
    y := floatAt attributes.normals (3 * idx.normal_index + 1),
    z := floatAt attributes.normals (3 * idx.normal_index + 2) }

/-- The `vec2 texCoord` built for one face corner (geometry.cpp:64-67). -/
def newDrawCallFromObjFile.texCoord (attributes : tinyobj.attrib_t) (idx : tinyobj.index_t) :
    Vec2 :=
  { x := floatAt attributes.texcoords (2 * idx.texcoord_index),
    y := floatAt attributes.texcoords (2 * idx.texcoord_index + 1) }

/-- The three vectors `vertices`, `normals` and `texCoords` being filled. -/
structure ObjLists where
  vertices : List Vec3
  normals : List Vec3
  texCoords : List Vec2
deriving DecidableEq, Repr

/-- The loop over the corners of one face (geometry.cpp:47-69), from
`vertIndex` on. -/
def newDrawCallFromObjFile.vertexLoop (attributes : tinyobj.attrib_t)
    (indices : List tinyobj.index_t) (indexOffset faceVertCount : Nat) (vertIndex : Nat)
    (lists : ObjLists) : ObjLists :=
  if vertIndex < faceVertCount then
    let idx := indices.getD (indexOffset + vertIndex) ⟨0, 0, 0⟩
    let lists : ObjLists :=
      { vertices := lists.vertices ++ [newDrawCallFromObjFile.vertex attributes idx],
        normals := lists.normals ++ [newDrawCallFromObjFile.normal attributes idx],
        texCoords := lists.texCoords ++ [newDrawCallFromObjFile.texCoord attributes idx] }
    newDrawCallFromObjFile.vertexLoop attributes indices indexOffset faceVertCount
      (vertIndex + 1) lists
  else lists
termination_by faceVertCount - vertIndex

/-- The loop over the faces of one shape (geometry.cpp:42-72), over the
entries of `num_face_vertices` still to come, with the running
`indexOffset`. -/
def newDrawCallFromObjFile.faceLoop (attributes : tinyobj.attrib_t)
    (indices : List tinyobj.index_t) : List Nat → Nat → ObjLists → Except Fatal ObjLists
  | [], _, lists => .ok lists
  | faceVertCount :: rest, indexOffset, lists =>
    if faceVertCount = 3 then
      newDrawCallFromObjFile.faceLoop attributes indices rest (indexOffset + faceVertCount)
        (newDrawCallFromObjFile.vertexLoop attributes indices indexOffset faceVertCount 0 lists)
    else .error .faceNotTriangle

/-- The loop over the shapes (geometry.cpp:38-73); `indexOffset` starts at 0
for every shape. -/
def newDrawCallFromObjFile.shapeLoop (attributes : tinyobj.attrib_t) :
    List tinyobj.shape_t → ObjLists → Except Fatal ObjLists
  | [], lists => .ok lists
  | shape :: rest, lists =>
    match newDrawCallFromObjFile.faceLoop attributes shape.mesh.indices
        shape.mesh.num_face_vertices 0 lists with
    | .ok lists => newDrawCallFromObjFile.shapeLoop attributes rest lists
    | .error e => .error e

/-- Embedding of `newDrawCallFromObjFile` (geometry.cpp:22-78) as a function
of what `tinyobj::LoadObj` handed back; the two `printf` calls are left out,
and the value is the `DrawCall` the returned pointer points to. -/
def newDrawCallFromObjFile (loaded : tinyobj.LoadObjResult) : Except Fatal DrawCall :=
  if loaded.ret then
    match newDrawCallFromObjFile.shapeLoop loaded.attributes loaded.shapes
        { vertices := [], normals := [], texCoords := [] } with
    | .ok lists =>
      if lists.vertices.length = lists.normals.length then
        .ok { positions := lists.vertices, normals := lists.normals,
              texCoords := lists.texCoords }
      else .error .vertexNormalCountMismatch
    | .error e => .error e
  else .error .objNotLoaded

/-- Embedding of `createCuboidVertices` (geometry.cpp:80-107). -/
def createCuboidVertices (width height yOffset : CFloat) : List Vec3 :=
  let halfWidth : CFloat := width / 2
  [ -- Top
    ⟨-halfWidth, yOffset+height, -halfWidth⟩, ⟨-halfWidth, yOffset+height, halfWidth⟩,
    ⟨halfWidth, yOffset+height, -halfWidth⟩,
    ⟨-halfWidth, yOffset+height, halfWidth⟩, ⟨halfWidth, yOffset+height, halfWidth⟩,
    ⟨halfWidth, yOffset+height, -halfWidth⟩,
    -- Bottom
    ⟨-halfWidth, yOffset, -halfWidth⟩, ⟨halfWidth, yOffset, -halfWidth⟩,
    ⟨-halfWidth, yOffset, halfWidth⟩,
    ⟨-halfWidth, yOffset, halfWidth⟩, ⟨halfWidth, yOffset, -halfWidth⟩,
    ⟨halfWidth, yOffset, halfWidth⟩,
    -- Sides
    ⟨-halfWidth, yOffset+height, -halfWidth⟩, ⟨halfWidth, yOffset+height, -halfWidth⟩,
    ⟨-halfWidth, yOffset, -halfWidth⟩,
    ⟨-halfWidth, yOffset, -halfWidth⟩, ⟨halfWidth, yOffset+height, -halfWidth⟩,
    ⟨halfWidth, yOffset, -halfWidth⟩,

    ⟨-halfWidth, yOffset+height, -halfWidth⟩, ⟨-halfWidth, yOffset, -halfWidth⟩,
    ⟨-halfWidth, yOffset+height, halfWidth⟩,
    ⟨-halfWidth, yOffset, -halfWidth⟩, ⟨-halfWidth, yOffset, halfWidth⟩,
    ⟨-halfWidth, yOffset+height, halfWidth⟩,

    ⟨-halfWidth, yOffset+height, halfWidth⟩, ⟨-halfWidth, yOffset, halfWidth⟩,
    ⟨halfWidth, yOffset+height, halfWidth⟩,
    ⟨-halfWidth, yOffset, halfWidth⟩, ⟨halfWidth, yOffset, halfWidth⟩,
    ⟨halfWidth, yOffset+height, halfWidth⟩,

    ⟨halfWidth, yOffset+height, -halfWidth⟩, ⟨halfWidth, yOffset+height, halfWidth⟩,
    ⟨halfWidth, yOffset, -halfWidth⟩,
    ⟨halfWidth, yOffset, -halfWidth⟩, ⟨halfWidth, yOffset+height, halfWidth⟩,
    ⟨halfWidth, yOffset, halfWidth⟩ ]

/-- The loop of `addRingVertices` (geometry.cpp:113-129), from `i` on; the
value is `*verts` after the loop. -/
def addRingVertices.loop (lib : FloatLib) (translation : Vec3) (sideCount : Int)
    (height btmRadius topRadius : CFloat) (i : Int) (verts : List Vec3) : List Vec3 :=
  let normal : Vec3 := ⟨0, 1, 0⟩
  if i < sideCount then
    let angle0 : CFloat := ((i : CFloat) / (sideCount : CFloat)) * lib.M_TAU
    let angle1 : CFloat := (((i + 1 : Int) : CFloat) / (sideCount : CFloat)) * lib.M_TAU
    let vert00 := lib.rotate ⟨btmRadius, 0, 0⟩ angle0 normal
    let vert10 := lib.rotate ⟨btmRadius, 0, 0⟩ angle1 normal
    let vert01 := lib.rotate ⟨topRadius, height, 0⟩ angle0 normal
    let vert11 := lib.rotate ⟨topRadius, height, 0⟩ angle1 normal
    let verts := verts ++ [vert00.add translation]
    let verts := verts ++ [vert10.add translation]
    let verts := verts ++ [vert01.add translation]
    let verts := verts ++ [vert01.add translation]
    let verts := verts ++ [vert10.add translation]
    let verts := verts ++ [vert11.add translation]
    addRingVertices.loop lib translation sideCount height btmRadius topRadius (i + 1) verts
  else verts
termination_by (sideCount - i).toNat
decreasing_by omega

/-- Embedding of `addRingVertices` (geometry.cpp:109-130); the value is
`*verts` on return. -/
def addRingVertices (lib : FloatLib) (translation : Vec3) (sideCount : Int)
    (height btmRadius topRadius : CFloat) (verts : List Vec3) : List Vec3 :=
  addRingVertices.loop lib translation sideCount height btmRadius topRadius 0 verts

/-- The loop of `newSphereDrawCall` (geometry.cpp:135-146), from `i` on.  The
product `resolution*2` is an `int`. -/
def newSphereDrawCall.loop (lib : FloatLib) (resolution : Int) (i : Int)
    (verts : List Vec3) : List Vec3 :=
  if i < resolution then
    let verticalAngle0 : CFloat := ((i : CFloat) / (resolution : CFloat)) * lib.M_PI
    let verticalAngle1 : CFloat := (((i + 1 : Int) : CFloat) / (resolution : CFloat)) * lib.M_PI
    let btmRadius := lib.sinf verticalAngle0
    let topRadius := lib.sinf verticalAngle1
    let btmY := -lib.cosf verticalAngle0
    let topY := -lib.cosf verticalAngle1
    let verts := addRingVertices lib ⟨0, btmY, 0⟩ (resolution * 2) (topY - btmY) btmRadius
      topRadius verts
    newSphereDrawCall.loop lib resolution (i + 1) verts
  else verts
termination_by (resolution - i).toNat
decreasing_by omega

/-- Embedding of `newSphereDrawCall` (geometry.cpp:132-156); the value is the
`DrawCall` the returned pointer points to. -/
def newSphereDrawCall (lib : FloatLib) (resolution : Int) (smoothNormals : Bool) : DrawCall :=
  let verts := newSphereDrawCall.loop lib resolution 0 []
  if smoothNormals then
    let normals := verts.foldl (fun normals vert => normals ++ [vert]) ([] : List Vec3)
    { positions := verts, normals := normals, texCoords := [] }
  else { positions := verts, normals := [], texCoords := [] }

/-- The padding loop of `createFloor` (geometry.cpp:166-168), for `target`
the value of `positions.size()`. -/
def createFloor.padLoop (target : Nat) (texCoords : List Vec2) : List Vec2 :=
  if texCoords.length < target then
    createFloor.padLoop target (texCoords ++ [⟨0, 0⟩])
  else texCoords
termination_by target - texCoords.length
decreasing_by simp; omega

/-- Embedding of `createFloor` (geometry.cpp:158-171); the value is the
`DrawCall` assigned to the global `floor`. -/
def createFloor : DrawCall :=
  let positions := createCuboidVertices 12 0.5 (-0.5)
  let texCoords : List Vec2 :=
    [ ⟨0, 0⟩, ⟨0, 1⟩, ⟨1, 0⟩,
      ⟨0, 1⟩, ⟨1, 1⟩, ⟨1, 0⟩ ]
  let texCoords := createFloor.padLoop positions.length texCoords
  { positions := positions, normals := [], texCoords := texCoords }

/-- The four global descriptor sets of namespace `geometry`
(geometry.cpp:15-20). -/
structure DescSets where
  floorSamplerDescSet : VkDescriptorSet
  floorNormalSamplerDescSet : VkDescriptorSet
  frogSamplerDescSet : VkDescriptorSet
  aeroplaneSamplerDescSet : VkDescriptorSet
deriving DecidableEq, Repr

/-- The method `DrawCall::addToCmdBuffer`, whose body is not among the
sources, called on one of the six global draw calls: one trace entry. -/
def addToCmdBuffer (drawCall : SceneDrawCall) (cmdBuffer : VkCommandBuffer)
    (pipelineLayout : VkPipelineLayout) : Gfx Unit := do
  let _ ← calleeCall (.DrawCall_addToCmdBuffer drawCall cmdBuffer pipelineLayout)

/-- Embedding of `renderAllGeometryWithoutSamplers` (geometry.cpp:247-254). -/
def renderAllGeometryWithoutSamplers (cmdBuffer : VkCommandBuffer)
    (pipelineLayout : VkPipelineLayout) : Gfx Unit := do
  addToCmdBuffer .sphere0 cmdBuffer pipelineLayout
  addToCmdBuffer .sphere1 cmdBuffer pipelineLayout
  addToCmdBuffer .obelisk cmdBuffer pipelineLayout
  addToCmdBuffer .frog cmdBuffer pipelineLayout
  addToCmdBuffer .aeroplane cmdBuffer pipelineLayout
  addToCmdBuffer .floor cmdBuffer pipelineLayout

/-- Embedding of `renderBareGeometry` (geometry.cpp:256-260). -/
def renderBareGeometry (cmdBuffer : VkCommandBuffer) (pipelineLayout : VkPipelineLayout) :
    Gfx Unit := do
  addToCmdBuffer .sphere0 cmdBuffer pipelineLayout
  addToCmdBuffer .sphere1 cmdBuffer pipelineLayout
  addToCmdBuffer .obelisk cmdBuffer pipelineLayout

/-- Embedding of `renderTexturedGeometry` (geometry.cpp:262-268). -/
def renderTexturedGeometry (sets : DescSets) (cmdBuffer : VkCommandBuffer)
    (pipelineLayout : VkPipelineLayout) : Gfx Unit := do
  let _ ← call (.vkCmdBindDescriptorSets cmdBuffer VK_PIPELINE_BIND_POINT_GRAPHICS
    pipelineLayout 18 1 [sets.frogSamplerDescSet] 0)
  addToCmdBuffer .frog cmdBuffer pipelineLayout
  let _ ← call (.vkCmdBindDescriptorSets cmdBuffer VK_PIPELINE_BIND_POINT_GRAPHICS
    pipelineLayout 18 1 [sets.aeroplaneSamplerDescSet] 0)
  addToCmdBuffer .aeroplane cmdBuffer pipelineLayout

/-- Embedding of `renderTexturedNormalMappedGeometry` (geometry.cpp:270-275). -/
def renderTexturedNormalMappedGeometry (sets : DescSets) (cmdBuffer : VkCommandBuffer)
    (pipelineLayout : VkPipelineLayout) : Gfx Unit := do
  let floorDescSets : List VkDescriptorSet :=
    [sets.floorSamplerDescSet, sets.floorNormalSamplerDescSet]
  let _ ← call (.vkCmdBindDescriptorSets cmdBuffer VK_PIPELINE_BIND_POINT_GRAPHICS
    pipelineLayout 18 floorDescSets.length floorDescSets 0)
  addToCmdBuffer .floor cmdBuffer pipelineLayout

end geometry

/-- Every index the loader reads is inside the array it indexes: each shape
has at least as many index triples as its faces have corners, and every
triple's vertex, normal and texcoord index addresses whole entries of the
attribute arrays. -/
def geometry.ObjInRange (loaded : tinyobj.LoadObjResult) : Prop :=
  ∀ shape ∈ loaded.shapes,
    shape.mesh.num_face_vertices.sum ≤ shape.mesh.indices.length
    ∧ ∀ idx ∈ shape.mesh.indices,
        (0 ≤ idx.vertex_index
          ∧ 3 * idx.vertex_index + 2 < (loaded.attributes.vertices.length : Int))
        ∧ (0 ≤ idx.normal_index
          ∧ 3 * idx.normal_index + 2 < (loaded.attributes.normals.length : Int))
        ∧ (0 ≤ idx.texcoord_index
          ∧ 2 * idx.texcoord_index + 1 < (loaded.attributes.texcoords.length : Int))

/-- The index triples of the corners of a shape's faces, in face order, when
every face is a triangle: the first `3 * (number of faces)` entries of
`indices`. -/
def geometry.faceCorners (shape : tinyobj.shape_t) : List tinyobj.index_t :=
  (List.range (3 * shape.mesh.num_face_vertices.length)).map
    (fun k => shape.mesh.indices.getD k ⟨0, 0, 0⟩)

/-- The number of faces over all shapes. -/
def geometry.totalFaces (loaded : tinyobj.LoadObjResult) : Nat :=
  (loaded.shapes.map (fun shape => shape.mesh.num_face_vertices.length)).sum

/-- A loaded model with one shape of two triangles (a square) over four
vertices, one normal and one texture coordinate. -/
def sampleObj : tinyobj.LoadObjResult where
  ret := true
  attributes :=
    { vertices := [0, 0, 0, 1, 0, 0, 1, 0, 1, 0, 0, 1],
      normals := [0, 1, 0],
      texcoords := [0, 0] }
  shapes :=
    [ { mesh :=
        { indices := [⟨0, 0, 0⟩, ⟨1, 0, 0⟩, ⟨2, 0, 0⟩, ⟨0, 0, 0⟩, ⟨2, 0, 0⟩, ⟨3, 0, 0⟩],
          num_face_vertices := [3, 3] } } ]

/-- Stand-ins for the float library in concrete evaluations: a rotation that
leaves the vector alone, and constant trigonometric functions. -/
def sampleFloatLib : FloatLib where
  rotate := fun v _ _ => v
  sinf := fun _ => 0
  cosf := fun _ => 1
  M_PI := 3
  M_TAU := 6

/-- The draw call a trace entry draws, if it is an `addToCmdBuffer`. -/
def Op.drawCall : Op → Option SceneDrawCall
  | .DrawCall_addToCmdBuffer drawCall _ _ => some drawCall
  | _ => none

/-- The calls of `renderAllGeometryWithoutSamplers` when nothing stops it. -/
def allGeometryOps (cmdBuffer : VkCommandBuffer) (pipelineLayout : VkPipelineLayout) :
    List Op :=
  [ .DrawCall_addToCmdBuffer .sphere0 cmdBuffer pipelineLayout,
    .DrawCall_addToCmdBuffer .sphere1 cmdBuffer pipelineLayout,
    .DrawCall_addToCmdBuffer .obelisk cmdBuffer pipelineLayout,
    .DrawCall_addToCmdBuffer .frog cmdBuffer pipelineLayout,
    .DrawCall_addToCmdBuffer .aeroplane cmdBuffer pipelineLayout,
    .DrawCall_addToCmdBuffer .floor cmdBuffer pipelineLayout ]

/-- Descriptor sets 31 to 34, for concrete evaluations. -/
def sampleDescSets : geometry.DescSets where
  floorSamplerDescSet := 31
  floorNormalSamplerDescSet := 32
  frogSamplerDescSet := 33
  aeroplaneSamplerDescSet := 34

/-- What a call says about an image being loaded: the format and size it is
created with, the bytes staged for it, the extent copied into it, and the
format it is viewed in.  Handles are left out, so that two loads can be
compared. -/
inductive ImageWrite
  | created (format : VkFormat) (width height : Nat)
  | staged (bytes : List Nat) (size : Nat)
  | copied (extent : VkExtent3D)
  | viewed (format : VkFormat)
deriving DecidableEq, Repr

/-- Which image write a call is, if any. -/
def Op.imageWrite : Op → Option ImageWrite
  | .createImage format width height => some (.created format width height)
  | .memcpy _ src size => some (.staged src size)
  | .vkCmdCopyBufferToImage _ _ _ _ _ region => some (.copied region.imageExtent)
  | .vkCreateImageView _ info => some (.viewed info.format)
  | _ => none

/-- The calls of `loadImage` on a decoded image when nothing stops it, started
at trace length `pos`: the decode, the image creation, the 31 calls of the
upload of the prepared pixels, the view creation and the release of the
decoded buffer. -/
def loadImageOps (env : Env) (pos : Nat) (filePath : String) (normalMap : Bool)
    (img : StbImage) : List Op :=
  [ .stbi_load filePath 4,
    .createImage (if normalMap then VK_FORMAT_R8G8B8A8_SNORM else VK_FORMAT_R8G8B8A8_UNORM)
      img.width img.height ]
  ++ uploadOps env (pos + 2) (env.handle (pos + 1)) img.width img.height
      (gfx.loadImage.pixels normalMap img.width img.height img.data)
  ++ [ .vkCreateImageView env.device
        { image := env.handle (pos + 1),
          format := if normalMap then VK_FORMAT_R8G8B8A8_SNORM else VK_FORMAT_R8G8B8A8_UNORM,
          viewType := VK_IMAGE_VIEW_TYPE_2D,
          subresourceRange :=
            { aspectMask := VK_IMAGE_ASPECT_COLOR_BIT, baseMipLevel := 0, levelCount := 1,
              baseArrayLayer := 0, layerCount := 1 } },
       .stbi_image_free ]

/-- A debug build in which every call succeeds and handles differ from those
of `sampleEnv`. -/
def debugEnv : Env :=
  { sampleEnv with debugAsserts := true, handle := fun n => 7 * n + 1 }

/-! ## Theorems -/

/-! ### Runs of the translated code -/

theorem Runs.intro_ok {α : Type} {m : Gfx α} {env : Env} {t ops : List Op} {a : α}
    {errs : List Fatal} (h : m env t = ⟨t ++ ops, .ok a⟩) : Runs m env t ops a errs := by
  refine ⟨⟨ops.length, by simp [h]⟩, ?_, ?_⟩
  · intro b hb
    rw [h] at hb ⊢
    simp only [Except.ok.injEq] at hb
    exact ⟨rfl, hb.symm⟩
  · intro e he
    rw [h] at he
    simp at he

theorem Runs.intro_error {α : Type} {m : Gfx α} {env : Env} {t ops : List Op} {a : α}
    {errs : List Fatal} (n : Nat) (e : Fatal) (h : m env t = ⟨t ++ ops.take n, .error e⟩)
    (he : e ∈ errs) : Runs m env t ops a errs := by
  refine ⟨⟨n, by simp [h]⟩, ?_, ?_⟩
  · intro b hb
    rw [h] at hb
    simp at hb
  · intro e' he'
    rw [h] at he'
    simp only [Except.error.injEq] at he'
    exact he' ▸ he

theorem Runs.congr {α : Type} {m : Gfx α} {env : Env} {t ops ops' : List Op} {a a' : α}
    {errs errs' : List Fatal} (h : Runs m env t ops a errs) (hops : ops = ops') (ha : a = a')
    (herrs : errs = errs') : Runs m env t ops' a' errs' := by
  subst hops ha herrs
  exact h

theorem Runs.conv {α : Type} {m : Gfx α} {env : Env} {t ops ops' : List Op} {a a' : α}
    {errs errs' : List Fatal} (h : Runs m env t ops a errs) (hops : ops = ops') (ha : a = a')
    (herrs : ∀ e ∈ errs, e ∈ errs') : Runs m env t ops' a' errs' := by
  subst hops ha
  exact ⟨h.1, h.2.1, fun e he => herrs e (h.2.2 e he)⟩

theorem Runs.bind {α β : Type} {m : Gfx α} {f : α → Gfx β} {env : Env} {t A B : List Op}
    {a : α} {b : β} {E1 E2 : List Fatal}
    (h1 : Runs m env t A a E1) (h2 : Runs (f a) env (t ++ A) B b E2) :
    Runs (m >>= f) env t (A ++ B) b (E1 ++ E2) := by
  obtain ⟨⟨n1, hn1⟩, hok1, herr1⟩ := h1
  obtain ⟨⟨n2, hn2⟩, hok2, herr2⟩ := h2
  have hbind : (m >>= f) env t = Gfx.bind m f env t := rfl
  unfold Runs
  rw [hbind]
  unfold Gfx.bind
  rcases hm : m env t with ⟨t1, r⟩
  rw [hm] at hn1 hok1 herr1
  cases r with
  | error e =>
    simp only at hn1 ⊢
    refine ⟨⟨min n1 A.length, ?_⟩, ?_, ?_⟩
    · rw [hn1, List.take_append_eq_append_take]
      have : min n1 A.length - A.length = 0 := by omega
      rw [this]
      simp [List.take_take]
    · intro b hb
      simp at hb
    · intro e' he'
      simp only [Except.error.injEq] at he'
      subst he'
      exact List.mem_append_left _ (herr1 e rfl)
  | ok a' =>
    obtain ⟨ht1, ha'⟩ := hok1 a' rfl
    simp only at ht1
    subst ha' ht1
    simp only
    refine ⟨⟨A.length + n2, ?_⟩, ?_, ?_⟩
    · rw [hn2, List.take_append_eq_append_take]
      simp [List.append_assoc]
    · intro b' hb'
      obtain ⟨h3, h4⟩ := hok2 b' hb'
      exact ⟨by rw [h3, List.append_assoc], h4⟩
    · intro e he
      exact List.mem_append_right _ (herr2 e he)

theorem runs_pure {α : Type} (a : α) (env : Env) (t : List Op) :
    Runs (pure a : Gfx α) env t [] a [] :=
  Runs.intro_ok (by simp [pure, Gfx.pure])

theorem runs_getEnv (env : Env) (t : List Op) : Runs getEnv env t [] env [] :=
  Runs.intro_ok (by simp [getEnv])

theorem runs_call (op : Op) (env : Env) (t : List Op) : Runs (call op) env t [op] t.length [] :=
  Runs.intro_ok rfl

theorem runs_vkCall (op : Op) (env : Env) (t : List Op) :
    Runs (vkCall op) env t [op] (env.vkResult t.length) [] :=
  Runs.intro_ok rfl

theorem runs_calleeCall (op : Op) (env : Env) (t : List Op) :
    Runs (calleeCall op) env t [op] t.length [Fatal.callee] := by
  by_cases h : env.calleeFatal t.length = true
  · exact Runs.intro_error 1 Fatal.callee (by simp [calleeCall, h]) (by simp)
  · exact Runs.intro_ok (by simp [calleeCall, h])

theorem runs_SDL_assert (cond : Bool) (env : Env) (t : List Op) :
    Runs (SDL_assert cond) env t [] () [Fatal.debugAssert] := by
  by_cases h : (env.debugAsserts && !cond) = true
  · exact Runs.intro_error 0 Fatal.debugAssert (by simp only [SDL_assert, h]; simp) (by simp)
  · exact Runs.intro_ok (by simp only [SDL_assert, h]; simp)

theorem runs_fatal {α : Type} (f : Fatal) (a : α) (ops : List Op) (env : Env) (t : List Op) :
    Runs (fatal f : Gfx α) env t ops a [f] :=
  Runs.intro_error 0 f (by simp [fatal]) (by simp)

theorem runs_SDL_assert_release (cond : Bool) (f : Fatal) (env : Env) (t : List Op) :
    Runs (SDL_assert_release cond f) env t [] () [f] := by
  cases cond with
  | true => exact Runs.intro_ok (by simp [SDL_assert_release, Gfx.pure])
  | false => exact runs_fatal f () [] env t

theorem runs_beginCommandBuffer (cmdBuffer : VkCommandBuffer) (env : Env) (t : List Op) :
    Runs (gfx.beginCommandBuffer cmdBuffer) env t
      [.vkBeginCommandBuffer cmdBuffer VK_COMMAND_BUFFER_USAGE_SIMULTANEOUS_USE_BIT] ()
      [Fatal.debugAssert] := by
  unfold gfx.beginCommandBuffer
  exact Runs.bind (runs_vkCall _ _ _) (runs_SDL_assert _ _ _)

theorem Runs.calls_take {α : Type} {m : Gfx α} {env : Env} {t ops : List Op} {a : α}
    {errs : List Fatal} (h : Runs m env t ops a errs) : ∃ n, m.calls env t = ops.take n := by
  obtain ⟨n, hn⟩ := h.1
  exact ⟨n, by simp [Gfx.calls, hn]⟩

theorem Runs.trace_eq {α : Type} {m : Gfx α} {env : Env} {t ops : List Op} {a : α}
    {errs : List Fatal} (h : Runs m env t ops a errs) :
    (m env t).trace = t ++ m.calls env t := by
  obtain ⟨n, hn⟩ := h.1
  simp [Gfx.calls, hn]

theorem Runs.calls_ok {α : Type} {m : Gfx α} {env : Env} {t ops : List Op} {a : α}
    {errs : List Fatal} (h : Runs m env t ops a errs) {b : α}
    (hok : (m env t).result = .ok b) : m.calls env t = ops := by
  simp [Gfx.calls, (h.2.1 b hok).1]

theorem getElem?_take_some {α : Type} {l : List α} {n i : Nat} {x : α}
    (h : (l.take n)[i]? = some x) : i < n ∧ l[i]? = some x := by
  rw [List.getElem?_take] at h
  split at h
  · exact ⟨by assumption, h⟩
  · simp at h

/-! ### Layout transitions -/

/-- C1: for every pair of layouts, `cmdTransitionImageLayout` records exactly
one pipeline barrier carrying `oldLayout -> newLayout` for the given image
(which leaves the image in `newLayout`) and returns, when the pair is
(UNDEFINED, TRANSFER_DST_OPTIMAL) or (TRANSFER_DST_OPTIMAL,
SHADER_READ_ONLY_OPTIMAL); for every other pair the run ends in the fatal
unsupported-transition assertion with the trace unchanged, so no barrier is
recorded. -/
theorem C1_cmdTransitionImageLayout_two_edges (env : Env) (t : List Op)
    (cmdBuffer : VkCommandBuffer) (image : VkImage) (oldLayout newLayout : VkImageLayout) :
    if (oldLayout = VK_IMAGE_LAYOUT_UNDEFINED ∧ newLayout = VK_IMAGE_LAYOUT_TRANSFER_DST_OPTIMAL)
        ∨ (oldLayout = VK_IMAGE_LAYOUT_TRANSFER_DST_OPTIMAL
            ∧ newLayout = VK_IMAGE_LAYOUT_SHADER_READ_ONLY_OPTIMAL) then
      ∃ srcStage dstStage barrier,
        (gfx.cmdTransitionImageLayout cmdBuffer image oldLayout newLayout env t).result = .ok ()
        ∧ (gfx.cmdTransitionImageLayout cmdBuffer image oldLayout newLayout env t).trace
            = t ++ [Op.vkCmdPipelineBarrier cmdBuffer srcStage dstStage 1 barrier]
        ∧ barrier.image = image ∧ barrier.oldLayout = oldLayout ∧ barrier.newLayout = newLayout
        ∧ ∀ before : VkImageLayout,
            layoutAfter image before
              (gfx.cmdTransitionImageLayout cmdBuffer image oldLayout newLayout env t).trace
              = newLayout
    else
      (gfx.cmdTransitionImageLayout cmdBuffer image oldLayout newLayout env t).result
          = .error Fatal.unsupportedLayoutTransition
      ∧ (gfx.cmdTransitionImageLayout cmdBuffer image oldLayout newLayout env t).trace = t := by
  by_cases h1 : oldLayout = VK_IMAGE_LAYOUT_UNDEFINED ∧ newLayout = VK_IMAGE_LAYOUT_TRANSFER_DST_OPTIMAL
  · obtain ⟨rfl, rfl⟩ := h1
    simp [gfx.cmdTransitionImageLayout, bind, Gfx.bind, pure, Gfx.pure, call, layoutAfter,
      layoutStep]
    exact ⟨_, _, _, ⟨rfl, rfl, rfl⟩, rfl, rfl, rfl⟩
  · by_cases h2 : oldLayout = VK_IMAGE_LAYOUT_TRANSFER_DST_OPTIMAL
        ∧ newLayout = VK_IMAGE_LAYOUT_SHADER_READ_ONLY_OPTIMAL
    · obtain ⟨rfl, rfl⟩ := h2
      simp [gfx.cmdTransitionImageLayout, bind, Gfx.bind, pure, Gfx.pure, call, layoutAfter,
        layoutStep]
      exact ⟨_, _, _, ⟨rfl, rfl, rfl⟩, rfl, rfl, rfl⟩
    · rw [if_neg (by tauto)]
      simp [gfx.cmdTransitionImageLayout, bind, Gfx.bind, pure, Gfx.pure, call,
        SDL_assert_release, fatal, h1, h2]

/-! ### The normal-map remap of `loadImage` -/

theorem getD_set_byte (l : List Nat) (i j a : Nat) (h : i < l.length) :
    (l.set i a).getD j 0 = if i = j then a else l.getD j 0 := by
  simp only [List.getD_eq_getElem?_getD, List.getElem?_set]
  split
  · simp [h]
  · rfl

theorem getD_lt_of_bytes (data : List Nat) (hbytes : ∀ x ∈ data, x < 256) (j : Nat) :
    data.getD j 0 < 256 := by
  by_cases hj : j < data.length
  · rw [List.getD_eq_getElem _ _ hj]
    exact hbytes _ (List.getElem_mem _)
  · rw [List.getD_eq_default _ _ (by omega)]
    decide

theorem remapLoop_length (bound : Nat) : ∀ (m i : Nat) (data : List Nat), bound - i ≤ m →
    (gfx.loadImage.remapLoop bound i data).length = data.length := by
  intro m
  induction m with
  | zero =>
    intro i data h
    unfold gfx.loadImage.remapLoop
    rw [if_neg (by omega)]
  | succ m ih =>
    intro i data h
    unfold gfx.loadImage.remapLoop
    split
    · simp only []
      rw [ih _ _ (by omega)]
      simp
    · rfl

/-- What the remap loop leaves at every index `j`, when started at pixel `k`
of `n`: nothing changes outside pixels `k .. n-1`; inside, byte 0 becomes
`byte0 - 127`, byte 1 becomes `byte2 / 2`, byte 2 becomes `(byte2 / 2) - 127`
and byte 3 stays. -/
theorem remapLoop_getD (n : Nat) : ∀ (m k : Nat) (data : List Nat), n = k + m →
    4 * n ≤ data.length → ∀ j : Nat,
    (gfx.loadImage.remapLoop (n * 4) (4 * k) data).getD j 0 =
      if j < 4 * k ∨ 4 * n ≤ j then data.getD j 0
      else if j % 4 = 0 then gfx.toUint8 ((data.getD j 0 : Int) - 127)
      else if j % 4 = 1 then gfx.toUint8 ((data.getD (j + 1) 0 : Int) / 2)
      else if j % 4 = 2 then
        gfx.toUint8 ((gfx.toUint8 ((data.getD j 0 : Int) / 2) : Int) - 127)
      else data.getD j 0 := by
  intro m
  induction m with
  | zero =>
    intro k data hn hlen j
    unfold gfx.loadImage.remapLoop
    rw [if_neg (by omega), if_pos (by omega)]
  | succ m ih =>
    intro k data hn hlen j
    unfold gfx.loadImage.remapLoop
    rw [if_pos (by omega)]
    simp only []
    have e : 4 * k + 4 = 4 * (k + 1) := by ring
    rw [e, ih (k + 1) _ (by omega) (by simpa using hlen) j]
    have h0 : 4 * k < data.length := by omega
    have h1 : 4 * k + 1 < data.length := by omega
    have h2 : 4 * k + 2 < data.length := by omega
    simp only [getD_set_byte, List.length_set, h0, h1, h2]
    by_cases c0 : j < 4 * k
    · simp only [show j < 4 * (k + 1) ∨ 4 * n ≤ j by omega, show j < 4 * k ∨ 4 * n ≤ j by omega,
        show ¬ (4 * k + 2 = j) by omega, show ¬ (4 * k + 1 = j) by omega,
        show ¬ (4 * k = j) by omega, if_true, if_false]
    · by_cases c1 : 4 * n ≤ j
      · simp only [show j < 4 * (k + 1) ∨ 4 * n ≤ j by omega, show j < 4 * k ∨ 4 * n ≤ j by omega,
          show ¬ (4 * k + 2 = j) by omega, show ¬ (4 * k + 1 = j) by omega,
          show ¬ (4 * k = j) by omega, if_true, if_false]
      · by_cases c2 : 4 * (k + 1) ≤ j
        · simp only [show ¬ (j < 4 * (k + 1) ∨ 4 * n ≤ j) by omega,
            show ¬ (j < 4 * k ∨ 4 * n ≤ j) by omega,
            show ¬ (4 * k + 2 = j) by omega, show ¬ (4 * k + 1 = j) by omega,
            show ¬ (4 * k = j) by omega, show ¬ (4 * k + 2 = j + 1) by omega,
            show ¬ (4 * k + 1 = j + 1) by omega, show ¬ (4 * k = j + 1) by omega, if_false]
        · have hj : j = 4 * k ∨ j = 4 * k + 1 ∨ j = 4 * k + 2 ∨ j = 4 * k + 3 := by omega
          rcases hj with rfl | rfl | rfl | rfl
          · simp only [show 4 * k < 4 * (k + 1) ∨ 4 * n ≤ 4 * k by omega,
              show ¬ (4 * k < 4 * k ∨ 4 * n ≤ 4 * k) by omega,
              show ¬ (4 * k + 2 = 4 * k) by omega, show ¬ (4 * k + 1 = 4 * k) by omega,
              show (4 * k) % 4 = 0 by omega, if_true, if_false]
          · simp only [show 4 * k + 1 < 4 * (k + 1) ∨ 4 * n ≤ 4 * k + 1 by omega,
              show ¬ (4 * k + 1 < 4 * k ∨ 4 * n ≤ 4 * k + 1) by omega,
              show ¬ (4 * k + 2 = 4 * k + 1) by omega, show ¬ (4 * k = 4 * k + 2) by omega,
              show ¬ (4 * k + 1 = 4 * k + 2) by omega,
              show (4 * k + 1) % 4 = 1 by omega, if_true, if_false]
            simp
          · simp only [show 4 * k + 2 < 4 * (k + 1) ∨ 4 * n ≤ 4 * k + 2 by omega,
              show ¬ (4 * k + 2 < 4 * k ∨ 4 * n ≤ 4 * k + 2) by omega,
              show ¬ (4 * k = 4 * k + 1) by omega, show ¬ (4 * k = 4 * k + 2) by omega,
              show ¬ (4 * k + 1 = 4 * k + 2) by omega,
              show (4 * k + 2) % 4 = 2 by omega, if_true, if_false]
            simp
          · simp only [show 4 * k + 3 < 4 * (k + 1) ∨ 4 * n ≤ 4 * k + 3 by omega,
              show ¬ (4 * k + 3 < 4 * k ∨ 4 * n ≤ 4 * k + 3) by omega,
              show ¬ (4 * k + 2 = 4 * k + 3) by omega, show ¬ (4 * k + 1 = 4 * k + 3) by omega,
              show ¬ (4 * k = 4 * k + 3) by omega,
              show (4 * k + 3) % 4 = 3 by omega, if_true, if_false]
            simp

theorem toUint8_half (b : Nat) (h : b < 256) : gfx.toUint8 ((b : Int) / 2) = b / 2 := by
  unfold gfx.toUint8
  omega

theorem toUint8_cast (v : Int) : ((gfx.toUint8 v : Nat) : Int) = v % 256 := by
  unfold gfx.toUint8
  omega

/-- C2, as stated, fails: for the one-pixel buffer (200, 100, 50, 255) the
claim gives (200-127, 50-127 mod 256, 100/2, 255) = (73, 179, 50, 255), while
the buffer handed to the upload is (73, 25, 154, 255). -/
theorem C2_counterexample :
    gfx.loadImage.pixels true 1 1 [200, 100, 50, 255] = [73, 25, 154, 255]
    ∧ gfx.loadImage.pixels true 1 1 [200, 100, 50, 255]
        ≠ [gfx.toUint8 (200 - 127), gfx.toUint8 (50 - 127), 100 / 2, 255] := by
  have h : gfx.loadImage.pixels true 1 1 [200, 100, 50, 255] = [73, 25, 154, 255] := by
    simp [gfx.loadImage.pixels, gfx.loadImage.remapLoop, gfx.toUint8]
  refine ⟨h, ?_⟩
  rw [h]
  decide

/-- C2, amended: for every pixel `p` of an RGBA8 buffer `(r,g,b,a)` loaded with
`normalMap = true` (four bytes per pixel, `width*height*4` within `int`), the
buffer handed to the upload has the same length, and of that pixel byte 0 is
`r - 127` modulo 256, byte 1 is `b / 2` (integer division) and byte 3 is `a`. -/
theorem C2_normalMap_pixel_amended (width height : Nat) (data : List Nat) (p : Nat)
    (hlen : data.length = width * height * 4) (_hint : width * height * 4 < 2 ^ 31)
    (hbytes : ∀ x ∈ data, x < 256) (hp : p < width * height) :
    (gfx.loadImage.pixels true width height data).length = data.length
    ∧ ((gfx.loadImage.pixels true width height data).getD (4 * p) 0 : Int)
        = ((data.getD (4 * p) 0 : Int) - 127) % 256
    ∧ (gfx.loadImage.pixels true width height data).getD (4 * p + 1) 0
        = data.getD (4 * p + 2) 0 / 2
    ∧ (gfx.loadImage.pixels true width height data).getD (4 * p + 3) 0
        = data.getD (4 * p + 3) 0 := by
  have key := remapLoop_getD (width * height) (width * height) 0 data (by omega) (by omega)
  simp only [gfx.loadImage.pixels, if_true, Nat.mul_zero] at key ⊢
  refine ⟨remapLoop_length _ _ _ _ (le_refl _), ?_, ?_, ?_⟩
  · rw [key, if_neg (by omega), if_pos (by omega), toUint8_cast]
  · rw [key, if_neg (by omega), if_neg (by omega), if_pos (by omega),
      toUint8_half _ (getD_lt_of_bytes data hbytes _)]
  · rw [key, if_neg (by omega), if_neg (by omega), if_neg (by omega), if_neg (by omega)]

/-- The amended C2 at pixel 1 of the two-pixel buffer
(200,100,50,255), (0,7,255,9). -/
theorem C2_normalMap_pixel_amended_witness :
    ([200, 100, 50, 255, 0, 7, 255, 9] : List Nat).length = 1 * 2 * 4
    ∧ 1 * 2 * 4 < 2 ^ 31
    ∧ (∀ x ∈ ([200, 100, 50, 255, 0, 7, 255, 9] : List Nat), x < 256)
    ∧ 1 < 1 * 2
    ∧ (gfx.loadImage.pixels true 1 2 [200, 100, 50, 255, 0, 7, 255, 9]).length
        = [200, 100, 50, 255, 0, 7, 255, 9].length
    ∧ ((gfx.loadImage.pixels true 1 2 [200, 100, 50, 255, 0, 7, 255, 9]).getD (4 * 1) 0 : Int)
        = ((([200, 100, 50, 255, 0, 7, 255, 9] : List Nat).getD (4 * 1) 0 : Nat) - 127) % 256
    ∧ (gfx.loadImage.pixels true 1 2 [200, 100, 50, 255, 0, 7, 255, 9]).getD (4 * 1 + 1) 0
        = ([200, 100, 50, 255, 0, 7, 255, 9] : List Nat).getD (4 * 1 + 2) 0 / 2
    ∧ (gfx.loadImage.pixels true 1 2 [200, 100, 50, 255, 0, 7, 255, 9]).getD (4 * 1 + 3) 0
        = ([200, 100, 50, 255, 0, 7, 255, 9] : List Nat).getD (4 * 1 + 3) 0 :=
  ⟨by decide, by decide, by decide, by decide,
    C2_normalMap_pixel_amended 1 2 [200, 100, 50, 255, 0, 7, 255, 9] 1 (by decide) (by decide)
      (by decide) (by decide)⟩

/-! ### One frame -/

theorem runs_getNextFrame (signalSemaphore : VkSemaphore) (env : Env) (t : List Op) :
    Runs (gfx.getNextFrame signalSemaphore) env t [.getNextFrame signalSemaphore]
      (env.frame t.length) [Fatal.callee] := by
  unfold gfx.getNextFrame
  exact Runs.bind (runs_calleeCall _ _ _) (Runs.bind (runs_getEnv _ _) (runs_pure _ _ _))

theorem runs_getSurfaceExtent (env : Env) (t : List Op) :
    Runs gfx.getSurfaceExtent env t [.getSurfaceExtent] (env.extent t.length) [Fatal.callee] := by
  unfold gfx.getSurfaceExtent
  exact Runs.bind (runs_calleeCall _ _ _) (Runs.bind (runs_getEnv _ _) (runs_pure _ _ _))

theorem runs_cmdBeginRenderPass (renderPass : VkRenderPass) (width height : Nat)
    (clearColor : Vec3) (framebuffer : VkFramebuffer) (cmdBuffer : VkCommandBuffer)
    (env : Env) (t : List Op) :
    Runs (gfx.cmdBeginRenderPass renderPass width height clearColor framebuffer cmdBuffer) env t
      [.vkCmdBeginRenderPass cmdBuffer
        { renderPass := renderPass, framebuffer := framebuffer, renderAreaOffset := (0, 0),
          renderAreaExtent := { width := width, height := height },
          clearValueCount := 3,
          pClearValues :=
            [.color clearColor.x clearColor.y clearColor.z 1,
             .color clearColor.x clearColor.y clearColor.z 1, .depthStencil 1 0] }
        VK_SUBPASS_CONTENTS_INLINE] () [] := by
  unfold gfx.cmdBeginRenderPass
  exact Runs.bind (runs_call _ _ _) (runs_pure _ _ _)

theorem runs_submitCommandBuffer (cmdBuffer : VkCommandBuffer)
    (optionalWaitSemaphore : VkSemaphore) (optionalWaitStage : VkFlags)
    (optionalSignalSemaphore : VkSemaphore) (optionalFence : VkFence) (env : Env)
    (t : List Op) :
    Runs (gfx.submitCommandBuffer cmdBuffer optionalWaitSemaphore optionalWaitStage
        optionalSignalSemaphore optionalFence) env t
      [.vkQueueSubmit env.queue 1
        { waitSemaphoreCount := if optionalWaitSemaphore ≠ VK_NULL_HANDLE then 1 else 0,
          pWaitSemaphores :=
            if optionalWaitSemaphore ≠ VK_NULL_HANDLE then [optionalWaitSemaphore] else [],
          pWaitDstStageMask :=
            if optionalWaitSemaphore ≠ VK_NULL_HANDLE then [optionalWaitStage] else [],
          commandBufferCount := 1,
          pCommandBuffers := [cmdBuffer],
          signalSemaphoreCount := if optionalSignalSemaphore ≠ VK_NULL_HANDLE then 1 else 0,
          pSignalSemaphores :=
            if optionalSignalSemaphore ≠ VK_NULL_HANDLE then [optionalSignalSemaphore] else [] }
        optionalFence] () [Fatal.debugAssert] := by
  unfold gfx.submitCommandBuffer
  refine Runs.conv
    (Runs.bind (runs_getEnv _ _) (Runs.bind (runs_vkCall _ _ _) (runs_SDL_assert _ _ _)))
    ?_ rfl (by decide)
  by_cases hw : optionalWaitSemaphore = VK_NULL_HANDLE <;>
    by_cases hs : optionalSignalSemaphore = VK_NULL_HANDLE <;> simp [hw, hs]

theorem runs_presentFrame (frame : SwapchainFrame) (waitSemaphore : VkSemaphore) (env : Env)
    (t : List Op) :
    Runs (gfx.presentFrame frame waitSemaphore) env t
      [.vkQueuePresentKHR env.queue
        { waitSemaphoreCount := 1, pWaitSemaphores := [waitSemaphore],
          swapchainCount := 1, pSwapchains := [env.swapchain],
          pImageIndices := [frame.index] }] () [Fatal.debugAssert] := by
  unfold gfx.presentFrame
  exact Runs.bind (runs_getEnv _ _) (Runs.bind (runs_vkCall _ _ _) (runs_SDL_assert _ _ _))

theorem runs_renderNextFrame (deltaTime : CFloat) (env : Env) (t : List Op) :
    Runs (renderNextFrame deltaTime) env t (frameOps env t.length deltaTime) ()
      [Fatal.debugAssert, Fatal.callee] := by
  unfold renderNextFrame
  refine Runs.conv
    (Runs.bind (runs_getEnv _ _) <|
     Runs.bind (runs_calleeCall _ _ _) <|
     Runs.bind (runs_calleeCall _ _ _) <|
     Runs.bind (runs_getNextFrame _ _ _) <|
     Runs.bind (runs_vkCall _ _ _) <|
     Runs.bind (runs_beginCommandBuffer _ _ _) <|
     Runs.bind (runs_calleeCall _ _ _) <|
     Runs.bind (runs_getSurfaceExtent _ _) <|
     Runs.bind (runs_cmdBeginRenderPass _ _ _ _ _ _ _ _) <|
     Runs.bind (runs_calleeCall _ _ _) <|
     Runs.bind (runs_calleeCall _ _ _) <|
     Runs.bind (runs_call _ _ _) <|
     Runs.bind (runs_vkCall _ _ _) <|
     Runs.bind (runs_SDL_assert _ _ _) <|
     Runs.bind (runs_submitCommandBuffer _ _ _ _ _ _ _) (runs_presentFrame _ _ _ _))
    ?_ rfl (by decide)
  simp [frameOps, Nat.add_assoc]

/-- C3: the trace after one `renderNextFrame` is the trace before it followed
by the calls it made, and in those calls, whether it returns or is cut short:
the colour render pass is only ever begun on a command buffer after
`shadows::performRenderPasses` has been called on that command buffer; and a
`presentation::render` into a command buffer is only ever made after the
shadow passes and then the begin of the colour render pass on that same
command buffer, which is the acquired frame's, with no `presentation::render`
at or before the shadow passes. -/
theorem C3_shadow_passes_before_main_pass (deltaTime : CFloat) (env : Env) (t : List Op) :
    (renderNextFrame deltaTime env t).trace = t ++ (renderNextFrame deltaTime).calls env t
    ∧ (∀ (k : Nat) (cmdBuffer : VkCommandBuffer) (info : VkRenderPassBeginInfo) (contents : Nat),
      ((renderNextFrame deltaTime).calls env t)[k]?
          = some (Op.vkCmdBeginRenderPass cmdBuffer info contents) →
      ∃ j, j < k
        ∧ ((renderNextFrame deltaTime).calls env t)[j]?
            = some (Op.shadows_performRenderPasses cmdBuffer))
    ∧ (∀ (i : Nat) (cmdBuffer : VkCommandBuffer),
      ((renderNextFrame deltaTime).calls env t)[i]? = some (Op.presentation_render cmdBuffer) →
      ∃ j k info contents, j < k ∧ k < i
        ∧ ((renderNextFrame deltaTime).calls env t)[j]?
            = some (Op.shadows_performRenderPasses cmdBuffer)
        ∧ ((renderNextFrame deltaTime).calls env t)[k]?
            = some (Op.vkCmdBeginRenderPass cmdBuffer info contents)
        ∧ cmdBuffer = (env.frame (t.length + 2)).cmdBuffer
        ∧ ∀ l c, l ≤ j → ((renderNextFrame deltaTime).calls env t)[l]?
            ≠ some (Op.presentation_render c)) := by
  refine ⟨(runs_renderNextFrame deltaTime env t).trace_eq, ?_⟩
  obtain ⟨n, hn⟩ := (runs_renderNextFrame deltaTime env t).calls_take
  rw [hn]
  constructor
  · intro k cmdBuffer info contents h
    obtain ⟨hkn, hk⟩ := getElem?_take_some h
    have hlt : k < 14 := by
      have := (List.getElem?_eq_some.mp hk).1
      simpa [frameOps] using this
    interval_cases k <;> simp [frameOps] at hk
    obtain ⟨hc, _⟩ := hk
    subst hc
    exact ⟨5, by decide, by rw [List.getElem?_take_of_lt (by omega)]; rfl⟩
  · intro i cmdBuffer h
    obtain ⟨hin, hi⟩ := getElem?_take_some h
    have hlt : i < 14 := by
      have := (List.getElem?_eq_some.mp hi).1
      simpa [frameOps] using this
    interval_cases i <;> simp [frameOps] at hi
    subst hi
    refine ⟨5, 7, ?info, ?contents, by decide, by decide, ?h5, ?h7, rfl, ?h8⟩
    case h7 =>
      rw [List.getElem?_take_of_lt (by omega)]
      exact rfl
    case h5 =>
      rw [List.getElem?_take_of_lt (by omega)]
      exact rfl
    case h8 =>
      intro l c hl hc
      obtain ⟨_, hc⟩ := getElem?_take_some hc
      interval_cases l <;> simp [frameOps] at hc

/-- C3 at the first frame of `sampleEnv`: call 8 is the main-pass render into
command buffer 12. -/
theorem C3_shadow_passes_before_main_pass_witness :
    ((renderNextFrame 0).calls sampleEnv [])[8]? = some (.presentation_render 12)
    ∧ ∃ j k info contents, j < k ∧ k < 8
      ∧ ((renderNextFrame 0).calls sampleEnv [])[j]? = some (.shadows_performRenderPasses 12)
      ∧ ((renderNextFrame 0).calls sampleEnv [])[k]?
          = some (.vkCmdBeginRenderPass 12 info contents)
      ∧ 12 = (sampleEnv.frame (([] : List Op).length + 2)).cmdBuffer
      ∧ ∀ l c, l ≤ j → ((renderNextFrame 0).calls sampleEnv [])[l]?
          ≠ some (.presentation_render c) :=
  ⟨by rfl, (C3_shadow_passes_before_main_pass 0 sampleEnv []).2.2 8 12 (by rfl)⟩

/-- C4: a call of `renderNextFrame` that returns has made exactly the calls
`frameOps`, in that order, whatever `deltaTime` and the environment are: the
two scene updates, acquire frame, wait for queue idle, begin recording of the
acquired frame's command buffer, shadow passes, surface-extent query, begin
the colour render pass on the acquired frame's framebuffer, main-pass render,
GUI render, end render pass, end recording, submit, present.  Its acquiring,
recording, submitting and presenting steps are exactly the ten of the claim,
in the claimed order. -/
theorem C4_renderNextFrame_fixed_sequence (deltaTime : CFloat) (env : Env) (t : List Op)
    (hok : (renderNextFrame deltaTime env t).result = .ok ()) :
    (renderNextFrame deltaTime env t).trace = t ++ (renderNextFrame deltaTime).calls env t
    ∧ (renderNextFrame deltaTime).calls env t = frameOps env t.length deltaTime
    ∧ ((renderNextFrame deltaTime).calls env t).filterMap Op.frameStep =
      [ FrameStep.acquireFrame, FrameStep.beginRecording, FrameStep.shadowPasses,
        FrameStep.beginRenderPass, FrameStep.mainPassRender, FrameStep.guiRender,
        FrameStep.endRenderPass, FrameStep.endRecording, FrameStep.submit,
        FrameStep.present ] := by
  have hr := runs_renderNextFrame deltaTime env t
  have hcalls := hr.calls_ok hok
  refine ⟨?_, hcalls, ?_⟩
  · rw [hcalls]
    exact (hr.2.1 () hok).1
  · rw [hcalls]
    rfl

/-- C4 at the first frame of `sampleEnv`, which returns. -/
theorem C4_renderNextFrame_fixed_sequence_witness :
    (renderNextFrame 0 sampleEnv []).result = .ok ()
    ∧ (renderNextFrame 0 sampleEnv []).trace = [] ++ (renderNextFrame 0).calls sampleEnv []
    ∧ (renderNextFrame 0).calls sampleEnv [] = frameOps sampleEnv ([] : List Op).length 0
    ∧ ((renderNextFrame 0).calls sampleEnv []).filterMap Op.frameStep =
      [ FrameStep.acquireFrame, FrameStep.beginRecording, FrameStep.shadowPasses,
        FrameStep.beginRenderPass, FrameStep.mainPassRender, FrameStep.guiRender,
        FrameStep.endRenderPass, FrameStep.endRecording, FrameStep.submit,
        FrameStep.present ] :=
  ⟨by rfl, C4_renderNextFrame_fixed_sequence 0 sampleEnv [] (by rfl)⟩

/-! ### The frame loop -/

theorem frameOps_length (env : Env) (pos : Nat) (deltaTime : CFloat) :
    (frameOps env pos deltaTime).length = 14 := rfl

theorem runs_frameLoop (env : Env) : ∀ (deltaTimes : List CFloat) (t : List Op),
    Runs (frameLoop deltaTimes) env t (frameLoopOps env t.length deltaTimes) ()
      [Fatal.debugAssert, Fatal.callee] := by
  intro deltaTimes
  induction deltaTimes with
  | nil =>
    intro t
    exact Runs.conv (runs_pure () env t) rfl rfl (by simp)
  | cons deltaTime rest ih =>
    intro t
    unfold frameLoop
    refine Runs.conv (Runs.bind (runs_renderNextFrame deltaTime env t) (ih _)) ?_ rfl (by decide)
    simp [frameLoopOps, frameOps_length]

/-- In the calls of any number of frames, a `vkBeginCommandBuffer` stands right
after a `vkQueueWaitIdle` on the queue. -/
theorem frameLoopOps_begin (env : Env) : ∀ (deltaTimes : List CFloat) (pos i : Nat)
    (cmdBuffer : VkCommandBuffer) (flags : VkFlags),
    (frameLoopOps env pos deltaTimes)[i]? = some (.vkBeginCommandBuffer cmdBuffer flags) →
    ∃ j, i = j + 1 ∧ (frameLoopOps env pos deltaTimes)[j]? = some (.vkQueueWaitIdle env.queue) := by
  intro deltaTimes
  induction deltaTimes with
  | nil =>
    intro pos i cmdBuffer flags h
    simp [frameLoopOps] at h
  | cons deltaTime rest ih =>
    intro pos i cmdBuffer flags h
    unfold frameLoopOps at h ⊢
    by_cases hi : i < 14
    · rw [List.getElem?_append_left (by rw [frameOps_length]; exact hi)] at h
      interval_cases i <;> simp [frameOps] at h
      exact ⟨3, rfl, by rw [List.getElem?_append_left (by rw [frameOps_length]; decide)]; rfl⟩
    · rw [List.getElem?_append_right (by rw [frameOps_length]; omega), frameOps_length] at h
      obtain ⟨j, hj, hw⟩ := ih _ _ _ _ h
      refine ⟨j + 14, by omega, ?_⟩
      rw [List.getElem?_append_right (by rw [frameOps_length]; omega), frameOps_length]
      simpa using hw

/-- C5: the trace after any run of the frame loop (any number of consecutive
`renderNextFrame` calls, returning or cut short) is the trace before it
followed by the calls it made, and in those calls every `vkBeginCommandBuffer`
is preceded by a `vkQueueWaitIdle` on the queue with no `vkQueueSubmit`
between the two: the wait comes after the most recent submission. -/
theorem C5_begin_recording_after_queue_idle (env : Env) (t : List Op)
    (deltaTimes : List CFloat) (i : Nat) (cmdBuffer : VkCommandBuffer) (flags : VkFlags)
    (h : ((frameLoop deltaTimes).calls env t)[i]?
      = some (.vkBeginCommandBuffer cmdBuffer flags)) :
    (frameLoop deltaTimes env t).trace = t ++ (frameLoop deltaTimes).calls env t
    ∧ ∃ j, j < i
      ∧ ((frameLoop deltaTimes).calls env t)[j]? = some (.vkQueueWaitIdle env.queue)
      ∧ ∀ k, j < k → k < i → ∀ queue submitCount submitInfo fence,
          ((frameLoop deltaTimes).calls env t)[k]?
            ≠ some (.vkQueueSubmit queue submitCount submitInfo fence) := by
  refine ⟨(runs_frameLoop env deltaTimes t).trace_eq, ?_⟩
  obtain ⟨n, hn⟩ := (runs_frameLoop env deltaTimes t).calls_take
  rw [hn] at h ⊢
  obtain ⟨hin, hi⟩ := getElem?_take_some h
  obtain ⟨j, hj, hw⟩ := frameLoopOps_begin env deltaTimes _ _ _ _ hi
  refine ⟨j, by omega, ?_, ?_⟩
  · rw [List.getElem?_take_of_lt (by omega)]
    exact hw
  · intro k hjk hki
    omega

/-- C5 at two frames of `sampleEnv`: call 18 begins the recording of the
second frame, after the first frame's submission at call 12. -/
theorem C5_begin_recording_after_queue_idle_witness :
    ((frameLoop [0, 1]).calls sampleEnv [])[18]? = some (.vkBeginCommandBuffer 11 4)
    ∧ (frameLoop [0, 1] sampleEnv []).trace = [] ++ (frameLoop [0, 1]).calls sampleEnv []
    ∧ ∃ j, j < 18
      ∧ ((frameLoop [0, 1]).calls sampleEnv [])[j]? = some (.vkQueueWaitIdle sampleEnv.queue)
      ∧ ∀ k, j < k → k < 18 → ∀ queue submitCount submitInfo fence,
          ((frameLoop [0, 1]).calls sampleEnv [])[k]?
            ≠ some (.vkQueueSubmit queue submitCount submitInfo fence) :=
  ⟨by rfl, C5_begin_recording_after_queue_idle sampleEnv [] [0, 1] 18 11 4 (by rfl)⟩

/-- What `createSemaphores` does, whatever the first `vkCreateSemaphore`
reports: it makes the two creation calls, and when the second one succeeds it
returns with `imageAvailableSemaphore` holding whatever the first call left,
created or not. -/
theorem createSemaphores_first_unchecked (env : Env) (t : List Op)
    (hsecond : env.vkResult (t.length + 1) = VK_SUCCESS) :
    (createSemaphores env t).result = .ok (env.handle t.length, env.handle (t.length + 1))
    ∧ createSemaphores.calls env t
        = [.vkCreateSemaphore env.device 0, .vkCreateSemaphore env.device 0] := by
  simp [createSemaphores, bind, Gfx.bind, pure, Gfx.pure, getEnv, call, SDL_assert_release,
    Gfx.calls, hsecond]

/-- The start-up behind `nullSemaphoreEnv`: in `semaphoreFailureEnv` the first
creation fails, `createSemaphores` returns all the same, and the globals it
leaves are those of `nullSemaphoreEnv`. -/
theorem createSemaphores_leaves_null :
    semaphoreFailureEnv.vkResult 0 ≠ VK_SUCCESS
    ∧ (createSemaphores semaphoreFailureEnv []).result
        = .ok (nullSemaphoreEnv.imageAvailableSemaphore,
            nullSemaphoreEnv.renderCompletedSemaphore) := by
  refine ⟨by decide, ?_⟩
  exact (createSemaphores_first_unchecked semaphoreFailureEnv [] rfl).1

theorem createQueueInfo_loop_spec (families : List VkQueueFamilyProperties)
    (hasSurfaceSupport : Nat → VkBool32) : ∀ (m i : Nat), families.length - i ≤ m →
    i ≤ families.length →
    i ≤ gfx.createQueueInfo.loop families hasSurfaceSupport i
    ∧ gfx.createQueueInfo.loop families hasSurfaceSupport i ≤ families.length
    ∧ (∀ j, i ≤ j → j < gfx.createQueueInfo.loop families hasSurfaceSupport i →
        ¬ gfx.createQueueInfo.qualifies families hasSurfaceSupport j)
    ∧ (gfx.createQueueInfo.loop families hasSurfaceSupport i < families.length →
        gfx.createQueueInfo.qualifies families hasSurfaceSupport
          (gfx.createQueueInfo.loop families hasSurfaceSupport i)) := by
  intro m
  induction m with
  | zero =>
    intro i hm hi
    unfold gfx.createQueueInfo.loop
    rw [dif_neg (by omega)]
    exact ⟨le_refl _, hi, fun j h1 h2 => by omega, fun h => by omega⟩
  | succ m ih =>
    intro i hm hi
    unfold gfx.createQueueInfo.loop
    by_cases hlt : i < families.length
    · rw [dif_pos hlt]
      by_cases hq : hasSurfaceSupport i = VK_TRUE
          ∧ families[i].queueFlags &&& VK_QUEUE_GRAPHICS_BIT ≠ 0
      · rw [if_pos hq]
        refine ⟨le_refl _, le_of_lt hlt, fun j h1 h2 => by omega, fun _ => ?_⟩
        exact ⟨families[i], List.getElem?_eq_getElem hlt, hq.1, hq.2⟩
      · rw [if_neg hq]
        obtain ⟨h1, h2, h3, h4⟩ := ih (i + 1) (by omega) (by omega)
        refine ⟨by omega, h2, ?_, h4⟩
        intro j hij hj
        by_cases hji : j = i
        · subst hji
          rintro ⟨family, hf, hs, hg⟩
          rw [List.getElem?_eq_getElem hlt] at hf
          simp only [Option.some.injEq] at hf
          subst hf
          exact hq ⟨hs, hg⟩
        · exact h3 j (by omega) hj
    · rw [dif_neg hlt]
      exact ⟨le_refl _, hi, fun j h1 h2 => by omega, fun h => by omega⟩

/-- C7: for every list of queue families (short enough for the `int` loop
counter) and every report of surface support, `createQueueInfo` returns a
queue info exactly when some family both reports presentation support and has
the graphics bit; the info then names the smallest such index and asks for
exactly one queue.  It fails, fatally and with the no-queue-family assertion,
exactly when no family satisfies both conditions (the empty list included). -/
theorem C7_createQueueInfo_first_qualifying (families : List VkQueueFamilyProperties)
    (hasSurfaceSupport : Nat → VkBool32) (_hlen : families.length < 2 ^ 31) :
    (∀ info, gfx.createQueueInfo families hasSurfaceSupport = .ok info →
        info.queueCount = 1
        ∧ gfx.createQueueInfo.qualifies families hasSurfaceSupport info.queueFamilyIndex
        ∧ ∀ j, j < info.queueFamilyIndex →
            ¬ gfx.createQueueInfo.qualifies families hasSurfaceSupport j)
    ∧ ((∃ j, gfx.createQueueInfo.qualifies families hasSurfaceSupport j) →
        ∃ info, gfx.createQueueInfo families hasSurfaceSupport = .ok info)
    ∧ (gfx.createQueueInfo families hasSurfaceSupport = .error Fatal.noQueueFamily ↔
        ∀ j, ¬ gfx.createQueueInfo.qualifies families hasSurfaceSupport j)
    ∧ ∀ e, gfx.createQueueInfo families hasSurfaceSupport = .error e → e = Fatal.noQueueFamily := by
  obtain ⟨_, h2, h3, h4⟩ :=
    createQueueInfo_loop_spec families hasSurfaceSupport families.length 0 (by omega) (by omega)
  have hnone : ¬ gfx.createQueueInfo.loop families hasSurfaceSupport 0 < families.length →
      ∀ j, ¬ gfx.createQueueInfo.qualifies families hasSurfaceSupport j := by
    intro hlt j hj
    have hjlt : j < families.length := by
      obtain ⟨family, hf, _⟩ := hj
      exact (List.getElem?_eq_some.mp hf).1
    exact h3 j (Nat.zero_le _) (by omega) hj
  unfold gfx.createQueueInfo
  simp only []
  by_cases hlt : gfx.createQueueInfo.loop families hasSurfaceSupport 0 < families.length
  · simp only [hlt, if_true]
    refine ⟨?_, fun _ => ⟨_, rfl⟩, ?_, ?_⟩
    · intro info hinfo
      simp only [Except.ok.injEq] at hinfo
      subst hinfo
      exact ⟨rfl, h4 hlt, fun j hj => h3 j (Nat.zero_le _) hj⟩
    · constructor
      · intro h
        simp at h
      · intro h
        exact absurd (h4 hlt) (h _)
    · intro e he
      simp at he
  · simp only [hlt, if_false]
    refine ⟨?_, ?_, ?_, ?_⟩
    · intro info hinfo
      simp at hinfo
    · rintro ⟨j, hj⟩
      exact absurd hj (hnone hlt j)
    · exact ⟨fun _ => hnone hlt, fun _ => trivial⟩
    · intro e he
      simp only [Except.error.injEq] at he
      exact he.symm

/-- C7 at four families of which family 0 lacks the graphics bit, family 1
lacks surface support and family 2 is the first with both. -/
theorem C7_createQueueInfo_first_qualifying_witness :
    ([⟨2, 1⟩, ⟨1, 4⟩, ⟨3, 2⟩, ⟨7, 1⟩] : List VkQueueFamilyProperties).length < 2 ^ 31
    ∧ gfx.createQueueInfo [⟨2, 1⟩, ⟨1, 4⟩, ⟨3, 2⟩, ⟨7, 1⟩] (fun i => if i = 1 then 0 else 1)
        = .ok { queueFamilyIndex := 2, queueCount := 1, pQueuePriorities := [1.0] }
    ∧ ((∀ info, gfx.createQueueInfo [⟨2, 1⟩, ⟨1, 4⟩, ⟨3, 2⟩, ⟨7, 1⟩]
          (fun i => if i = 1 then 0 else 1) = .ok info →
        info.queueCount = 1
        ∧ gfx.createQueueInfo.qualifies [⟨2, 1⟩, ⟨1, 4⟩, ⟨3, 2⟩, ⟨7, 1⟩]
            (fun i => if i = 1 then 0 else 1) info.queueFamilyIndex
        ∧ ∀ j, j < info.queueFamilyIndex →
            ¬ gfx.createQueueInfo.qualifies [⟨2, 1⟩, ⟨1, 4⟩, ⟨3, 2⟩, ⟨7, 1⟩]
                (fun i => if i = 1 then 0 else 1) j)
      ∧ ((∃ j, gfx.createQueueInfo.qualifies [⟨2, 1⟩, ⟨1, 4⟩, ⟨3, 2⟩, ⟨7, 1⟩]
            (fun i => if i = 1 then 0 else 1) j) →
          ∃ info, gfx.createQueueInfo [⟨2, 1⟩, ⟨1, 4⟩, ⟨3, 2⟩, ⟨7, 1⟩]
            (fun i => if i = 1 then 0 else 1) = .ok info)
      ∧ (gfx.createQueueInfo [⟨2, 1⟩, ⟨1, 4⟩, ⟨3, 2⟩, ⟨7, 1⟩]
            (fun i => if i = 1 then 0 else 1) = .error Fatal.noQueueFamily ↔
          ∀ j, ¬ gfx.createQueueInfo.qualifies [⟨2, 1⟩, ⟨1, 4⟩, ⟨3, 2⟩, ⟨7, 1⟩]
            (fun i => if i = 1 then 0 else 1) j)
      ∧ ∀ e, gfx.createQueueInfo [⟨2, 1⟩, ⟨1, 4⟩, ⟨3, 2⟩, ⟨7, 1⟩]
            (fun i => if i = 1 then 0 else 1) = .error e → e = Fatal.noQueueFamily) :=
  ⟨by decide, by simp [gfx.createQueueInfo, gfx.createQueueInfo.loop],
    C7_createQueueInfo_first_qualifying [⟨2, 1⟩, ⟨1, 4⟩, ⟨3, 2⟩, ⟨7, 1⟩]
      (fun i => if i = 1 then 0 else 1) (by decide)⟩

/-! ### Submission -/

/-- C8: for every wait semaphore, wait stage, signal semaphore and fence (null
or not), `submitCommandBuffer` makes exactly one call, a `vkQueueSubmit` of one
submit info holding exactly the given command buffer; the wait semaphore count
is 1, with the given semaphore and wait stage, iff the wait semaphore is
non-null (else 0 and no semaphore); the signal semaphore count is 1, with the
given semaphore, iff the signal semaphore is non-null (else 0); each choice
depends on its own semaphore only, and the fence is passed on unchanged. -/
theorem C8_submitCommandBuffer_submit_info (cmdBuffer : VkCommandBuffer)
    (optionalWaitSemaphore : VkSemaphore) (optionalWaitStage : VkFlags)
    (optionalSignalSemaphore : VkSemaphore) (optionalFence : VkFence) (env : Env)
    (t : List Op) :
    (gfx.submitCommandBuffer cmdBuffer optionalWaitSemaphore optionalWaitStage
        optionalSignalSemaphore optionalFence env t).trace
      = t ++ [.vkQueueSubmit env.queue 1
          { waitSemaphoreCount := if optionalWaitSemaphore ≠ VK_NULL_HANDLE then 1 else 0,
            pWaitSemaphores :=
              if optionalWaitSemaphore ≠ VK_NULL_HANDLE then [optionalWaitSemaphore] else [],
            pWaitDstStageMask :=
              if optionalWaitSemaphore ≠ VK_NULL_HANDLE then [optionalWaitStage] else [],
            commandBufferCount := 1,
            pCommandBuffers := [cmdBuffer],
            signalSemaphoreCount := if optionalSignalSemaphore ≠ VK_NULL_HANDLE then 1 else 0,
            pSignalSemaphores :=
              if optionalSignalSemaphore ≠ VK_NULL_HANDLE then [optionalSignalSemaphore]
              else [] }
          optionalFence] := by
  have hrun := runs_submitCommandBuffer cmdBuffer optionalWaitSemaphore optionalWaitStage
    optionalSignalSemaphore optionalFence env t
  rcases hres : (gfx.submitCommandBuffer cmdBuffer optionalWaitSemaphore optionalWaitStage
    optionalSignalSemaphore optionalFence env t).result with e | u
  · simp only [gfx.submitCommandBuffer, bind, Gfx.bind, getEnv, vkCall, SDL_assert] at hres ⊢
    by_cases hw : optionalWaitSemaphore = VK_NULL_HANDLE <;>
      by_cases hs : optionalSignalSemaphore = VK_NULL_HANDLE <;>
      simp only [hw, hs, ne_eq, not_true_eq_false, not_false_eq_true, if_true, if_false] <;>
      split <;> rfl
  · exact (hrun.2.1 u hres).1

/-! ### The upload path -/

theorem runs_createCommandBuffer (env : Env) (t : List Op) :
    Runs gfx.createCommandBuffer env t [.createCommandBuffer] (env.handle t.length)
      [Fatal.callee] := by
  unfold gfx.createCommandBuffer
  exact Runs.bind (runs_calleeCall _ _ _) (Runs.bind (runs_getEnv _ _) (runs_pure _ _ _))

theorem runs_submitCommandBufferDefault (cmdBuffer : VkCommandBuffer) (env : Env)
    (t : List Op) :
    Runs (gfx.submitCommandBufferDefault cmdBuffer) env t [defaultSubmitOp env cmdBuffer] ()
      [Fatal.debugAssert] := by
  unfold gfx.submitCommandBufferDefault
  exact Runs.bind (runs_getEnv _ _) (runs_submitCommandBuffer _ _ _ _ _ _ _)

theorem runs_cmdTransition_toTransferDst (cmdBuffer : VkCommandBuffer) (image : VkImage)
    (env : Env) (t : List Op) :
    Runs (gfx.cmdTransitionImageLayout cmdBuffer image VK_IMAGE_LAYOUT_UNDEFINED
        VK_IMAGE_LAYOUT_TRANSFER_DST_OPTIMAL) env t
      [.vkCmdPipelineBarrier cmdBuffer VK_PIPELINE_STAGE_TOP_OF_PIPE_BIT
        VK_PIPELINE_STAGE_TRANSFER_BIT 1 (barrierToTransferDst image)] () [] :=
  Runs.intro_ok (by
    simp [gfx.cmdTransitionImageLayout, bind, Gfx.bind, pure, Gfx.pure, call,
      barrierToTransferDst])

theorem runs_cmdTransition_toShaderRead (cmdBuffer : VkCommandBuffer) (image : VkImage)
    (env : Env) (t : List Op) :
    Runs (gfx.cmdTransitionImageLayout cmdBuffer image VK_IMAGE_LAYOUT_TRANSFER_DST_OPTIMAL
        VK_IMAGE_LAYOUT_SHADER_READ_ONLY_OPTIMAL) env t
      [.vkCmdPipelineBarrier cmdBuffer VK_PIPELINE_STAGE_TRANSFER_BIT
        VK_PIPELINE_STAGE_FRAGMENT_SHADER_BIT 1 (barrierToShaderRead image)] () [] :=
  Runs.intro_ok (by
    simp [gfx.cmdTransitionImageLayout, bind, Gfx.bind, pure, Gfx.pure, call,
      barrierToShaderRead])

theorem runs_transition_toTransferDst (image : VkImage) (env : Env) (t : List Op) :
    Runs (gfx.transitionImageLayout image VK_IMAGE_LAYOUT_UNDEFINED
        VK_IMAGE_LAYOUT_TRANSFER_DST_OPTIMAL) env t
      (oneShotOps env t.length (fun cmdBuffer =>
        .vkCmdPipelineBarrier cmdBuffer VK_PIPELINE_STAGE_TOP_OF_PIPE_BIT
          VK_PIPELINE_STAGE_TRANSFER_BIT 1 (barrierToTransferDst image))) ()
      [Fatal.debugAssert, Fatal.callee] := by
  unfold gfx.transitionImageLayout
  refine Runs.conv
    (Runs.bind (runs_getEnv _ _) <|
     Runs.bind (runs_createCommandBuffer _ _) <|
     Runs.bind (runs_beginCommandBuffer _ _ _) <|
     Runs.bind (runs_cmdTransition_toTransferDst _ _ _ _) <|
     Runs.bind (runs_vkCall _ _ _) <|
     Runs.bind (runs_submitCommandBufferDefault _ _ _) <|
     Runs.bind (runs_vkCall _ _ _) <|
     Runs.bind (runs_call _ _ _) (runs_pure _ _ _))
    ?_ rfl (by decide)
  simp [oneShotOps, setBufferMemoryOps]

theorem runs_transition_toShaderRead (image : VkImage) (env : Env) (t : List Op) :
    Runs (gfx.transitionImageLayout image VK_IMAGE_LAYOUT_TRANSFER_DST_OPTIMAL
        VK_IMAGE_LAYOUT_SHADER_READ_ONLY_OPTIMAL) env t
      (oneShotOps env t.length (fun cmdBuffer =>
        .vkCmdPipelineBarrier cmdBuffer VK_PIPELINE_STAGE_TRANSFER_BIT
          VK_PIPELINE_STAGE_FRAGMENT_SHADER_BIT 1 (barrierToShaderRead image))) ()
      [Fatal.debugAssert, Fatal.callee] := by
  unfold gfx.transitionImageLayout
  refine Runs.conv
    (Runs.bind (runs_getEnv _ _) <|
     Runs.bind (runs_createCommandBuffer _ _) <|
     Runs.bind (runs_beginCommandBuffer _ _ _) <|
     Runs.bind (runs_cmdTransition_toShaderRead _ _ _ _) <|
     Runs.bind (runs_vkCall _ _ _) <|
     Runs.bind (runs_submitCommandBufferDefault _ _ _) <|
     Runs.bind (runs_vkCall _ _ _) <|
     Runs.bind (runs_call _ _ _) (runs_pure _ _ _))
    ?_ rfl (by decide)
  simp [oneShotOps, setBufferMemoryOps]

theorem runs_copyBufferToImage (buffer : VkBuffer) (image : VkImage) (width height : Nat)
    (env : Env) (t : List Op) :
    Runs (gfx.copyBufferToImage buffer image width height) env t
      (oneShotOps env t.length (fun cmdBuffer =>
        .vkCmdCopyBufferToImage cmdBuffer buffer image VK_IMAGE_LAYOUT_TRANSFER_DST_OPTIMAL 1
          (copyRegion width height))) ()
      [Fatal.debugAssert, Fatal.callee] := by
  unfold gfx.copyBufferToImage
  refine Runs.conv
    (Runs.bind (runs_getEnv _ _) <|
     Runs.bind (runs_createCommandBuffer _ _) <|
     Runs.bind (runs_beginCommandBuffer _ _ _) <|
     Runs.bind (runs_call _ _ _) <|
     Runs.bind (runs_vkCall _ _ _) <|
     Runs.bind (runs_submitCommandBufferDefault _ _ _) <|
     Runs.bind (runs_vkCall _ _ _) <|
     Runs.bind (runs_call _ _ _) (runs_pure _ _ _))
    ?_ rfl (by decide)
  simp [oneShotOps, setBufferMemoryOps]
  rfl

theorem runs_setBufferMemory (memory : VkDeviceMemory) (dataSize : Nat) (data : List Nat)
    (env : Env) (t : List Op) :
    Runs (gfx.setBufferMemory memory dataSize data) env t
      (setBufferMemoryOps env t.length memory dataSize data) () [Fatal.debugAssert] := by
  unfold gfx.setBufferMemory
  refine Runs.conv
    (Runs.bind (runs_getEnv _ _) <|
     Runs.bind (runs_call _ _ _) <|
     Runs.bind (runs_SDL_assert _ _ _) <|
     Runs.bind (runs_call _ _ _) <|
     Runs.bind (runs_call _ _ _) (runs_pure _ _ _))
    ?_ rfl (by decide)
  simp [oneShotOps, setBufferMemoryOps]

theorem runs_createBuffer (usage : VkFlags) (dataSize : Nat) (env : Env) (t : List Op) :
    Runs (gfx.createBuffer usage dataSize) env t (createBufferOps env t.length usage dataSize)
      (env.handle t.length, env.handle (t.length + 3)) [Fatal.debugAssert, Fatal.callee] := by
  unfold gfx.createBuffer
  refine Runs.conv
    (Runs.bind (runs_getEnv _ _) <|
     Runs.bind (runs_call _ _ _) <|
     Runs.bind (runs_SDL_assert _ _ _) <|
     Runs.bind (runs_call _ _ _) <|
     Runs.bind (runs_calleeCall _ _ _) <|
     Runs.bind (runs_call _ _ _) <|
     Runs.bind (runs_SDL_assert _ _ _) <|
     Runs.bind (runs_vkCall _ _ _) <|
     Runs.bind (runs_SDL_assert _ _ _) (runs_pure _ _ _))
    ?_ ?_ (by decide)
  · simp [createBufferOps, Nat.add_assoc]
  · simp [Nat.add_assoc]

theorem runs_setImageMemoryRGBA (image : VkImage) (memory : VkDeviceMemory)
    (width height : Nat) (data : List Nat) (env : Env) (t : List Op) :
    Runs (gfx.setImageMemoryRGBA image memory width height data) env t
      (uploadOps env t.length image width height data) ()
      [Fatal.debugAssert, Fatal.callee] := by
  unfold gfx.setImageMemoryRGBA
  refine Runs.conv
    (Runs.bind (runs_getEnv _ _) <|
     Runs.bind (runs_createBuffer _ _ _ _) <|
     Runs.bind (runs_setBufferMemory _ _ _ _ _) <|
     Runs.bind (runs_transition_toTransferDst _ _ _) <|
     Runs.bind (runs_copyBufferToImage _ _ _ _ _ _) <|
     Runs.bind (runs_transition_toShaderRead _ _ _) <|
     Runs.bind (runs_call _ _ _) <|
     Runs.bind (runs_call _ _ _) (runs_pure _ _ _))
    ?_ rfl (by decide)
  simp [uploadOps, createBufferOps, setBufferMemoryOps, oneShotOps, Nat.add_assoc]

theorem uploadOps_length (env : Env) (pos : Nat) (image : VkImage) (width height : Nat)
    (data : List Nat) : (uploadOps env pos image width height data).length = 31 := rfl

theorem layoutRespected_take (image : VkImage) : ∀ (ops : List Op) (layout : VkImageLayout)
    (n : Nat), layoutRespected image layout ops = true →
    layoutRespected image layout (ops.take n) = true := by
  intro ops
  induction ops with
  | nil =>
    intro layout n _
    simp [layoutRespected]
  | cons op ops ih =>
    intro layout n h
    cases n with
    | zero => simp [layoutRespected]
    | succ n =>
      simp only [List.take_succ_cons, layoutRespected, Bool.and_eq_true] at h ⊢
      exact ⟨h.1, ih _ _ h.2⟩

/-- C9: for every image, width and height whose byte count `4*width*height`
fits `uint64_t`, and every environment: the trace after `setImageMemoryRGBA`
is the trace before it followed by its calls; those calls are an initial part
of `uploadOps`, and all of it when the function returns; the only ways it can
stop early are a debug assertion or a fatal exit inside a callee, never the
unsupported-transition assertion; `uploadOps` creates and fills a staging
buffer of exactly `4*width*height` bytes and then records exactly: transition
UNDEFINED -> TRANSFER_DST_OPTIMAL, copy (declared layout TRANSFER_DST_OPTIMAL,
extent width x height x 1), transition TRANSFER_DST_OPTIMAL ->
SHADER_READ_ONLY_OPTIMAL; starting from UNDEFINED, every transition and the
copy start from the layout the previous step left, and on return the image is
in SHADER_READ_ONLY_OPTIMAL; and the function does return when no callee exits
and no status checked by a compiled-in assertion is a failure. -/
theorem C9_setImageMemoryRGBA_sequence (image : VkImage) (memory : VkDeviceMemory)
    (width height : Nat) (data : List Nat) (env : Env) (t : List Op)
    (hsize : 4 * width * height < 2 ^ 64) :
    (gfx.setImageMemoryRGBA image memory width height data env t).trace
      = t ++ (gfx.setImageMemoryRGBA image memory width height data).calls env t
    ∧ (∃ n, (gfx.setImageMemoryRGBA image memory width height data).calls env t
        = (uploadOps env t.length image width height data).take n)
    ∧ ((gfx.setImageMemoryRGBA image memory width height data env t).result = .ok () →
        (gfx.setImageMemoryRGBA image memory width height data).calls env t
          = uploadOps env t.length image width height data)
    ∧ (∀ e, (gfx.setImageMemoryRGBA image memory width height data env t).result = .error e →
        e ≠ Fatal.unsupportedLayoutTransition)
    ∧ (uploadOps env t.length image width height data).filterMap Op.uploadStep =
        [ .createStaging (4 * width * height) VK_BUFFER_USAGE_TRANSFER_SRC_BIT,
          .fillStaging data (4 * width * height),
          .transition image VK_IMAGE_LAYOUT_UNDEFINED VK_IMAGE_LAYOUT_TRANSFER_DST_OPTIMAL,
          .copy (env.handle t.length) image VK_IMAGE_LAYOUT_TRANSFER_DST_OPTIMAL
            { width := width, height := height, depth := 1 },
          .transition image VK_IMAGE_LAYOUT_TRANSFER_DST_OPTIMAL
            VK_IMAGE_LAYOUT_SHADER_READ_ONLY_OPTIMAL ]
    ∧ layoutRespected image VK_IMAGE_LAYOUT_UNDEFINED
        ((gfx.setImageMemoryRGBA image memory width height data).calls env t) = true
    ∧ ((gfx.setImageMemoryRGBA image memory width height data env t).result = .ok () →
        layoutAfter image VK_IMAGE_LAYOUT_UNDEFINED
          ((gfx.setImageMemoryRGBA image memory width height data).calls env t)
          = VK_IMAGE_LAYOUT_SHADER_READ_ONLY_OPTIMAL)
    ∧ ((∀ n, env.calleeFatal n = false) →
        (env.debugAsserts = true → ∀ n, env.vkResult n = VK_SUCCESS) →
        (gfx.setImageMemoryRGBA image memory width height data env t).result = .ok ()) := by
  have hr := runs_setImageMemoryRGBA image memory width height data env t
  have hmod : (4 * width * height) % 2 ^ 64 = 4 * width * height := Nat.mod_eq_of_lt hsize
  have hresp : layoutRespected image VK_IMAGE_LAYOUT_UNDEFINED
      (uploadOps env t.length image width height data) = true := by
    simp [uploadOps, createBufferOps, setBufferMemoryOps, oneShotOps, defaultSubmitOp,
      layoutRespected, layoutStep, barrierToTransferDst, barrierToShaderRead]
  refine ⟨hr.trace_eq, hr.calls_take, fun hok => hr.calls_ok hok, ?_, ?_, ?_, ?_, ?_⟩
  · intro e he
    have := hr.2.2 e he
    intro hu
    subst hu
    simp at this
  · simp [uploadOps, createBufferOps, setBufferMemoryOps, oneShotOps, defaultSubmitOp,
      Op.uploadStep, barrierToTransferDst, barrierToShaderRead, copyRegion, hmod]
    omega
  · obtain ⟨n, hn⟩ := hr.calls_take
    rw [hn]
    exact layoutRespected_take image _ _ n hresp
  · intro hok
    rw [hr.calls_ok hok]
    simp [uploadOps, createBufferOps, setBufferMemoryOps, oneShotOps, defaultSubmitOp,
      layoutAfter, layoutStep, barrierToTransferDst, barrierToShaderRead]
  · intro hcallee hres
    cases hd : env.debugAsserts with
    | false =>
      simp [gfx.setImageMemoryRGBA, gfx.createBuffer, gfx.setBufferMemory,
        gfx.transitionImageLayout, gfx.copyBufferToImage, gfx.createCommandBuffer,
        gfx.beginCommandBuffer, gfx.cmdTransitionImageLayout, gfx.submitCommandBufferDefault,
        gfx.submitCommandBuffer, bind, Gfx.bind, pure, Gfx.pure, getEnv, call, vkCall,
        calleeCall, SDL_assert, hcallee, hd]
    | true =>
      simp [gfx.setImageMemoryRGBA, gfx.createBuffer, gfx.setBufferMemory,
        gfx.transitionImageLayout, gfx.copyBufferToImage, gfx.createCommandBuffer,
        gfx.beginCommandBuffer, gfx.cmdTransitionImageLayout, gfx.submitCommandBufferDefault,
        gfx.submitCommandBuffer, bind, Gfx.bind, pure, Gfx.pure, getEnv, call, vkCall,
        calleeCall, SDL_assert, hcallee, hd, hres hd]

/-- C9 at a 2 x 1 upload in `sampleEnv`, which returns. -/
theorem C9_setImageMemoryRGBA_sequence_witness :
    4 * 2 * 1 < 2 ^ 64
    ∧ (gfx.setImageMemoryRGBA 9 0 2 1 [1, 2, 3, 4, 5, 6, 7, 8] sampleEnv []).result = .ok ()
    ∧ (gfx.setImageMemoryRGBA 9 0 2 1 [1, 2, 3, 4, 5, 6, 7, 8]).calls sampleEnv []
        = uploadOps sampleEnv 0 9 2 1 [1, 2, 3, 4, 5, 6, 7, 8]
    ∧ layoutAfter 9 VK_IMAGE_LAYOUT_UNDEFINED
        ((gfx.setImageMemoryRGBA 9 0 2 1 [1, 2, 3, 4, 5, 6, 7, 8]).calls sampleEnv [])
        = VK_IMAGE_LAYOUT_SHADER_READ_ONLY_OPTIMAL :=
  have h := C9_setImageMemoryRGBA_sequence 9 0 2 1 [1, 2, 3, 4, 5, 6, 7, 8] sampleEnv []
    (by decide)
  have hok := h.2.2.2.2.2.2.2 (fun _ => rfl) (fun hd => absurd hd (by decide))
  ⟨by decide, hok, h.2.2.1 hok, h.2.2.2.2.2.2.1 hok⟩

/-- In the calls of a complete upload, a `vkQueueSubmit` stands right before a
`vkQueueWaitIdle` on the queue. -/
theorem uploadOps_submit (env : Env) (pos : Nat) (image : VkImage) (width height : Nat)
    (data : List Nat) (i : Nat) (queue : VkQueue) (submitCount : Nat)
    (submitInfo : VkSubmitInfo) (fence : VkFence)
    (h : (uploadOps env pos image width height data)[i]?
      = some (.vkQueueSubmit queue submitCount submitInfo fence)) :
    (uploadOps env pos image width height data)[i + 1]? = some (.vkQueueWaitIdle env.queue) := by
  have hlt : i < 31 := (List.getElem?_eq_some.mp h).1
  interval_cases i <;>
    simp [uploadOps, createBufferOps, setBufferMemoryOps, oneShotOps, defaultSubmitOp] at h ⊢

/-- C10: the trace after `setImageMemoryRGBA` (with its helpers
`transitionImageLayout` and `copyBufferToImage`) is the trace before it
followed by the calls it made, and in those calls, whether it returns or is
cut short, after every `vkQueueSubmit` there is a `vkQueueWaitIdle` on the queue
before any later call that frees a command buffer, submits again, destroys
the staging buffer or frees its memory; and when the function returns, the
call right after every `vkQueueSubmit` is that wait, so no submission is left
without a wait after it. -/
theorem C10_upload_waits_after_every_submit (image : VkImage) (memory : VkDeviceMemory)
    (width height : Nat) (data : List Nat) (env : Env) (t : List Op) (i : Nat)
    (queue : VkQueue) (submitCount : Nat) (submitInfo : VkSubmitInfo) (fence : VkFence)
    (hi : ((gfx.setImageMemoryRGBA image memory width height data).calls env t)[i]?
      = some (.vkQueueSubmit queue submitCount submitInfo fence)) :
    (gfx.setImageMemoryRGBA image memory width height data env t).trace
      = t ++ (gfx.setImageMemoryRGBA image memory width height data).calls env t
    ∧ (∀ k op, i < k →
        ((gfx.setImageMemoryRGBA image memory width height data).calls env t)[k]? = some op →
        op.needsIdleQueue = true →
        ∃ j, i < j ∧ j < k
          ∧ ((gfx.setImageMemoryRGBA image memory width height data).calls env t)[j]?
              = some (.vkQueueWaitIdle env.queue))
    ∧ ((gfx.setImageMemoryRGBA image memory width height data env t).result = .ok () →
        ((gfx.setImageMemoryRGBA image memory width height data).calls env t)[i + 1]?
          = some (.vkQueueWaitIdle env.queue)) := by
  have hr := runs_setImageMemoryRGBA image memory width height data env t
  refine ⟨hr.trace_eq, ?_, ?_⟩
  · obtain ⟨n, hn⟩ := hr.calls_take
    rw [hn] at hi ⊢
    obtain ⟨_, hi⟩ := getElem?_take_some hi
    have hwait := uploadOps_submit env _ image width height data i _ _ _ _ hi
    intro k op hik hk hop
    obtain ⟨hkn, hk⟩ := getElem?_take_some hk
    by_cases hk1 : k = i + 1
    · subst hk1
      rw [hwait] at hk
      simp only [Option.some.injEq] at hk
      subst hk
      simp [Op.needsIdleQueue] at hop
    · exact ⟨i + 1, by omega, by omega, by rw [List.getElem?_take_of_lt (by omega)]; exact hwait⟩
  · intro hok
    rw [hr.calls_ok hok] at hi ⊢
    exact uploadOps_submit env _ image width height data i _ _ _ _ hi

/-- C10 at the last submission (call 26) of a 2 x 1 upload in `sampleEnv`. -/
theorem C10_upload_waits_after_every_submit_witness :
    ((gfx.setImageMemoryRGBA 9 0 2 1 [1, 2, 3, 4, 5, 6, 7, 8]).calls sampleEnv [])[26]?
      = some (.vkQueueSubmit 1 1 (submitInfoOf 122 0 0 0) 0)
    ∧ (gfx.setImageMemoryRGBA 9 0 2 1 [1, 2, 3, 4, 5, 6, 7, 8] sampleEnv []).trace
      = [] ++ (gfx.setImageMemoryRGBA 9 0 2 1 [1, 2, 3, 4, 5, 6, 7, 8]).calls sampleEnv []
    ∧ (∀ k op, 26 < k →
        ((gfx.setImageMemoryRGBA 9 0 2 1 [1, 2, 3, 4, 5, 6, 7, 8]).calls sampleEnv [])[k]?
          = some op →
        op.needsIdleQueue = true →
        ∃ j, 26 < j ∧ j < k
          ∧ ((gfx.setImageMemoryRGBA 9 0 2 1 [1, 2, 3, 4, 5, 6, 7, 8]).calls sampleEnv [])[j]?
              = some (.vkQueueWaitIdle sampleEnv.queue))
    ∧ ((gfx.setImageMemoryRGBA 9 0 2 1 [1, 2, 3, 4, 5, 6, 7, 8] sampleEnv []).result = .ok () →
        ((gfx.setImageMemoryRGBA 9 0 2 1 [1, 2, 3, 4, 5, 6, 7, 8]).calls sampleEnv [])[26 + 1]?
          = some (.vkQueueWaitIdle sampleEnv.queue)) :=
  ⟨by rfl,
    C10_upload_waits_after_every_submit 9 0 2 1 [1, 2, 3, 4, 5, 6, 7, 8] sampleEnv [] 26 1 1
      (submitInfoOf 122 0 0 0) 0 (by rfl)⟩

/-! ### Failed submissions and presentations -/

/-- C11, as stated, fails: in a release build (debug-level assertions compiled
out) `vkQueueSubmit` and `vkQueuePresentKHR` report `VK_ERROR_DEVICE_LOST`,
which is not `VK_SUCCESS`, and both `submitCommandBuffer` and `presentFrame`
return normally. -/
theorem C11_counterexample :
    deviceLostEnv.debugAsserts = false
    ∧ deviceLostEnv.vkResult 0 ≠ VK_SUCCESS
    ∧ (gfx.submitCommandBuffer 10 6 VK_PIPELINE_STAGE_COLOR_ATTACHMENT_OUTPUT_BIT 7
        VK_NULL_HANDLE deviceLostEnv []).result = .ok ()
    ∧ (gfx.presentFrame { index := 0, cmdBuffer := 10, framebuffer := 20 } 7
        deviceLostEnv []).result = .ok () := by
  refine ⟨rfl, by decide, rfl, rfl⟩

/-- C11, amended: for every status returned by the queue-submit call and by
the queue-present call, `submitCommandBuffer` and `presentFrame` terminate the
process exactly when the status is other than success and debug-level
assertions are compiled in; when the status is success, or when debug-level
assertions are compiled out, they return normally.  In both cases the one
call they made is the submit, respectively the present. -/
theorem C11_fatal_only_with_debug_assertions (cmdBuffer : VkCommandBuffer)
    (optionalWaitSemaphore : VkSemaphore) (optionalWaitStage : VkFlags)
    (optionalSignalSemaphore : VkSemaphore) (optionalFence : VkFence)
    (frame : SwapchainFrame) (waitSemaphore : VkSemaphore) (env : Env) (t : List Op) :
    (gfx.submitCommandBuffer cmdBuffer optionalWaitSemaphore optionalWaitStage
        optionalSignalSemaphore optionalFence env t).result
      = (if env.debugAsserts = true ∧ env.vkResult t.length ≠ VK_SUCCESS then
          .error Fatal.debugAssert
        else .ok ())
    ∧ (gfx.presentFrame frame waitSemaphore env t).result
      = (if env.debugAsserts = true ∧ env.vkResult t.length ≠ VK_SUCCESS then
          .error Fatal.debugAssert
        else .ok ())
    ∧ (gfx.submitCommandBuffer cmdBuffer optionalWaitSemaphore optionalWaitStage
        optionalSignalSemaphore optionalFence).calls env t
      = [.vkQueueSubmit env.queue 1
          (submitInfoOf cmdBuffer optionalWaitSemaphore optionalWaitStage
            optionalSignalSemaphore) optionalFence]
    ∧ (gfx.presentFrame frame waitSemaphore).calls env t
      = [.vkQueuePresentKHR env.queue
          { waitSemaphoreCount := 1, pWaitSemaphores := [waitSemaphore],
            swapchainCount := 1, pSwapchains := [env.swapchain],
            pImageIndices := [frame.index] }] := by
  by_cases hd : env.debugAsserts = true <;>
    by_cases hr : env.vkResult t.length = VK_SUCCESS <;>
    by_cases hw : optionalWaitSemaphore = VK_NULL_HANDLE <;>
    by_cases hs : optionalSignalSemaphore = VK_NULL_HANDLE <;>
    simp [gfx.submitCommandBuffer, gfx.presentFrame, bind, Gfx.bind, getEnv, vkCall,
      SDL_assert, Gfx.calls, submitInfoOf, hd, hr, hw, hs]

/-! ### The debug messenger callback -/

/-- C12: for every severity value, message type and message, `debugCallback`
terminates the process (through the always-compiled `SDL_assert_release`)
exactly when the severity is WARNING or ERROR; for every other severity
(verbose, info, or any other value) it returns `VK_FALSE`.  Either way it has
first made its five output calls, four `printf` and the flush, and no other
call. -/
theorem C12_debugCallback_fatal_iff_warning_or_error (severity : Nat) (msgType : VkFlags)
    (data : VkDebugUtilsMessengerCallbackDataEXT) (env : Env) (t : List Op) :
    (gfx.debugCallback severity msgType data env t).result
      = (if severity = VK_DEBUG_UTILS_MESSAGE_SEVERITY_WARNING_BIT_EXT
            ∨ severity = VK_DEBUG_UTILS_MESSAGE_SEVERITY_ERROR_BIT_EXT then
          .error Fatal.validationMessage
        else .ok VK_FALSE)
    ∧ (gfx.debugCallback severity msgType data).calls env t
        = [ .printf "\n" [],
            .printf
              (if severity = VK_DEBUG_UTILS_MESSAGE_SEVERITY_VERBOSE_BIT_EXT then "verbose, "
               else if severity = VK_DEBUG_UTILS_MESSAGE_SEVERITY_INFO_BIT_EXT then "info, "
               else if severity = VK_DEBUG_UTILS_MESSAGE_SEVERITY_WARNING_BIT_EXT then "WARNING, "
               else if severity = VK_DEBUG_UTILS_MESSAGE_SEVERITY_ERROR_BIT_EXT then "ERROR, "
               else "unknown, ") [],
            .printf
              (if msgType = VK_DEBUG_UTILS_MESSAGE_TYPE_GENERAL_BIT_EXT then "general: "
               else if msgType = VK_DEBUG_UTILS_MESSAGE_TYPE_VALIDATION_BIT_EXT then "validation: "
               else if msgType = VK_DEBUG_UTILS_MESSAGE_TYPE_PERFORMANCE_BIT_EXT then
                 "performance: "
               else "unknown: ") [],
            .printf "%s (%i objects reported)\n"
              [.str data.pMessage, .int data.objectCount],
            .fflush_stdout ] := by
  have hite : ∀ (c : Prop) [Decidable c] (a b : Op),
      (if c then call a else call b) = call (if c then a else b) := by
    intro c _ a b
    split <;> rfl
  have hstr : ∀ (c : Prop) [Decidable c] (a b : String),
      (if c then Op.printf a [] else Op.printf b []) = Op.printf (if c then a else b) [] := by
    intro c _ a b
    split <;> rfl
  simp only [gfx.debugCallback, gfx.debugCallback.printSeverity, gfx.debugCallback.printType,
    gfx.debugCallback.escalate, hite, hstr]
  by_cases hs : severity = VK_DEBUG_UTILS_MESSAGE_SEVERITY_WARNING_BIT_EXT
      ∨ severity = VK_DEBUG_UTILS_MESSAGE_SEVERITY_ERROR_BIT_EXT
  · simp only [hs, if_true]
    constructor
    · rfl
    · simp [bind, Gfx.bind, call, SDL_assert_release, fatal, pure, Gfx.pure, Gfx.calls]
  · simp only [hs, if_false]
    constructor
    · rfl
    · simp [bind, Gfx.bind, call, pure, Gfx.pure, Gfx.calls]

/-! ### Loading a model -/

theorem vertexLoop_three (attributes : tinyobj.attrib_t) (indices : List tinyobj.index_t)
    (indexOffset : Nat) (lists : geometry.ObjLists) :
    geometry.newDrawCallFromObjFile.vertexLoop attributes indices indexOffset 3 0 lists
      = { vertices := lists.vertices ++ (List.range 3).map (fun k =>
            geometry.newDrawCallFromObjFile.vertex attributes
              (indices.getD (indexOffset + k) ⟨0, 0, 0⟩)),
          normals := lists.normals ++ (List.range 3).map (fun k =>
            geometry.newDrawCallFromObjFile.normal attributes
              (indices.getD (indexOffset + k) ⟨0, 0, 0⟩)),
          texCoords := lists.texCoords ++ (List.range 3).map (fun k =>
            geometry.newDrawCallFromObjFile.texCoord attributes
              (indices.getD (indexOffset + k) ⟨0, 0, 0⟩)) } := by
  simp [geometry.newDrawCallFromObjFile.vertexLoop, List.range_succ]

theorem faceLoop_triangles (attributes : tinyobj.attrib_t) (indices : List tinyobj.index_t) :
    ∀ (faces : List Nat), (∀ c ∈ faces, c = 3) → ∀ (indexOffset : Nat)
      (lists : geometry.ObjLists),
    geometry.newDrawCallFromObjFile.faceLoop attributes indices faces indexOffset lists
      = .ok { vertices := lists.vertices ++ (List.range (3 * faces.length)).map (fun k =>
                geometry.newDrawCallFromObjFile.vertex attributes
                  (indices.getD (indexOffset + k) ⟨0, 0, 0⟩)),
              normals := lists.normals ++ (List.range (3 * faces.length)).map (fun k =>
                geometry.newDrawCallFromObjFile.normal attributes
                  (indices.getD (indexOffset + k) ⟨0, 0, 0⟩)),
              texCoords := lists.texCoords ++ (List.range (3 * faces.length)).map (fun k =>
                geometry.newDrawCallFromObjFile.texCoord attributes
                  (indices.getD (indexOffset + k) ⟨0, 0, 0⟩)) } := by
  intro faces
  induction faces with
  | nil =>
    intro _ indexOffset lists
    simp [geometry.newDrawCallFromObjFile.faceLoop]
  | cons c rest ih =>
    intro h indexOffset lists
    have hc : c = 3 := h c (List.mem_cons_self _ _)
    subst hc
    have hrest : ∀ c ∈ rest, c = 3 := fun c hc => h c (List.mem_cons_of_mem _ hc)
    have e : 3 * (3 :: rest).length = 3 + 3 * rest.length := by simp; ring
    simp only [geometry.newDrawCallFromObjFile.faceLoop, if_true, vertexLoop_three,
      ih hrest, e, List.range_add, List.map_append, List.map_map, List.append_assoc,
      Function.comp_def, Nat.add_assoc]

theorem faceLoop_not_triangle (attributes : tinyobj.attrib_t)
    (indices : List tinyobj.index_t) :
    ∀ (faces : List Nat), (∃ c ∈ faces, c ≠ 3) → ∀ (indexOffset : Nat)
      (lists : geometry.ObjLists),
    geometry.newDrawCallFromObjFile.faceLoop attributes indices faces indexOffset lists
      = .error Fatal.faceNotTriangle := by
  intro faces
  induction faces with
  | nil =>
    intro h
    simp at h
  | cons c rest ih =>
    intro h indexOffset lists
    by_cases hc : c = 3
    · subst hc
      obtain ⟨c', hmem, hne⟩ := h
      have hrest : ∃ c ∈ rest, c ≠ 3 := by
        rcases List.mem_cons.mp hmem with rfl | hm
        · exact absurd rfl hne
        · exact ⟨c', hm, hne⟩
      simp only [geometry.newDrawCallFromObjFile.faceLoop, if_true]
      exact ih hrest _ _
    · simp [geometry.newDrawCallFromObjFile.faceLoop, hc]

theorem shapeLoop_triangles (attributes : tinyobj.attrib_t) :
    ∀ (shapes : List tinyobj.shape_t),
    (∀ shape ∈ shapes, ∀ c ∈ shape.mesh.num_face_vertices, c = 3) →
    ∀ (lists : geometry.ObjLists),
    geometry.newDrawCallFromObjFile.shapeLoop attributes shapes lists
      = .ok { vertices := lists.vertices ++ shapes.flatMap (fun shape =>
                (geometry.faceCorners shape).map
                  (geometry.newDrawCallFromObjFile.vertex attributes)),
              normals := lists.normals ++ shapes.flatMap (fun shape =>
                (geometry.faceCorners shape).map
                  (geometry.newDrawCallFromObjFile.normal attributes)),
              texCoords := lists.texCoords ++ shapes.flatMap (fun shape =>
                (geometry.faceCorners shape).map
                  (geometry.newDrawCallFromObjFile.texCoord attributes)) } := by
  intro shapes
  induction shapes with
  | nil =>
    intro _ lists
    simp [geometry.newDrawCallFromObjFile.shapeLoop]
  | cons shape rest ih =>
    intro h lists
    have hshape := h shape (List.mem_cons_self _ _)
    have hrest : ∀ s ∈ rest, ∀ c ∈ s.mesh.num_face_vertices, c = 3 :=
      fun s hs => h s (List.mem_cons_of_mem _ hs)
    simp only [geometry.newDrawCallFromObjFile.shapeLoop,
      faceLoop_triangles attributes _ _ hshape, ih hrest, List.flatMap_cons,
      geometry.faceCorners, List.map_map, Function.comp_def, Nat.zero_add,
      List.append_assoc]

theorem shapeLoop_not_triangle (attributes : tinyobj.attrib_t) :
    ∀ (shapes : List tinyobj.shape_t),
    (∃ shape ∈ shapes, ∃ c ∈ shape.mesh.num_face_vertices, c ≠ 3) →
    ∀ (lists : geometry.ObjLists),
    geometry.newDrawCallFromObjFile.shapeLoop attributes shapes lists
      = .error Fatal.faceNotTriangle := by
  intro shapes
  induction shapes with
  | nil =>
    intro h
    simp at h
  | cons shape rest ih =>
    intro h lists
    by_cases hshape : ∀ c ∈ shape.mesh.num_face_vertices, c = 3
    · obtain ⟨s, hmem, c, hc, hne⟩ := h
      have hrest : ∃ s ∈ rest, ∃ c ∈ s.mesh.num_face_vertices, c ≠ 3 := by
        rcases List.mem_cons.mp hmem with rfl | hm
        · exact absurd (hshape c hc) hne
        · exact ⟨s, hm, c, hc, hne⟩
      simp only [geometry.newDrawCallFromObjFile.shapeLoop,
        faceLoop_triangles attributes _ _ hshape]
      exact ih hrest _
    · have hbad : ∃ c ∈ shape.mesh.num_face_vertices, c ≠ 3 := by
        by_contra hno
        exact hshape (fun c hc => by_contra fun hne => hno ⟨c, hc, hne⟩)
      simp only [geometry.newDrawCallFromObjFile.shapeLoop,
        faceLoop_not_triangle attributes _ _ hbad]

theorem faceCorners_length (shape : tinyobj.shape_t) :
    (geometry.faceCorners shape).length = 3 * shape.mesh.num_face_vertices.length := by
  simp [geometry.faceCorners]

theorem faceCorners_flatMap_length {β : Type} (f : tinyobj.index_t → β)
    (shapes : List tinyobj.shape_t) :
    (shapes.flatMap (fun shape => (geometry.faceCorners shape).map f)).length
      = 3 * (shapes.map (fun shape => shape.mesh.num_face_vertices.length)).sum := by
  induction shapes with
  | nil => simp
  | cons shape rest ih =>
    simp only [List.flatMap_cons, List.length_append, ih, List.map_cons, List.sum_cons,
      List.length_map, faceCorners_length]
    ring

/-- C13: for every model `tinyobj::LoadObj` reported as loaded, with every
index in range: if every face of every shape has exactly 3 vertices,
`newDrawCallFromObjFile` returns a draw call whose positions, normals and
texCoords are the vertex, normal and texture coordinate of every face corner,
shape by shape in face order, so all three lists have length 3 times the
total number of faces, the positions/normals length check passes and the
draw call holds exactly the lists built; if some face has a vertex count
other than 3, it fails fatally with the triangle assertion. -/
theorem C13_newDrawCallFromObjFile_triangles (loaded : tinyobj.LoadObjResult)
    (hret : loaded.ret = true) (_hrange : geometry.ObjInRange loaded) :
    ((∀ shape ∈ loaded.shapes, ∀ c ∈ shape.mesh.num_face_vertices, c = 3) →
      ∃ drawCall, geometry.newDrawCallFromObjFile loaded = .ok drawCall
        ∧ drawCall.positions = loaded.shapes.flatMap (fun shape =>
            (geometry.faceCorners shape).map
              (geometry.newDrawCallFromObjFile.vertex loaded.attributes))
        ∧ drawCall.normals = loaded.shapes.flatMap (fun shape =>
            (geometry.faceCorners shape).map
              (geometry.newDrawCallFromObjFile.normal loaded.attributes))
        ∧ drawCall.texCoords = loaded.shapes.flatMap (fun shape =>
            (geometry.faceCorners shape).map
              (geometry.newDrawCallFromObjFile.texCoord loaded.attributes))
        ∧ drawCall.positions.length = 3 * geometry.totalFaces loaded
        ∧ drawCall.normals.length = 3 * geometry.totalFaces loaded
        ∧ drawCall.texCoords.length = 3 * geometry.totalFaces loaded)
    ∧ ((∃ shape ∈ loaded.shapes, ∃ c ∈ shape.mesh.num_face_vertices, c ≠ 3) →
      geometry.newDrawCallFromObjFile loaded = .error Fatal.faceNotTriangle) := by
  constructor
  · intro h
    refine ⟨{ positions := loaded.shapes.flatMap (fun shape =>
                (geometry.faceCorners shape).map
                  (geometry.newDrawCallFromObjFile.vertex loaded.attributes)),
              normals := loaded.shapes.flatMap (fun shape =>
                (geometry.faceCorners shape).map
                  (geometry.newDrawCallFromObjFile.normal loaded.attributes)),
              texCoords := loaded.shapes.flatMap (fun shape =>
                (geometry.faceCorners shape).map
                  (geometry.newDrawCallFromObjFile.texCoord loaded.attributes)) },
      ?_, rfl, rfl, rfl, ?_, ?_, ?_⟩
    · simp only [geometry.newDrawCallFromObjFile, hret, if_true,
        shapeLoop_triangles loaded.attributes loaded.shapes h, List.nil_append,
        faceCorners_flatMap_length]
    · exact faceCorners_flatMap_length _ _
    · exact faceCorners_flatMap_length _ _
    · exact faceCorners_flatMap_length _ _
  · intro h
    simp only [geometry.newDrawCallFromObjFile, hret, if_true,
      shapeLoop_not_triangle loaded.attributes loaded.shapes h]

/-- C13 at the two-triangle square `sampleObj`: six positions, six normals and
six texCoords. -/
theorem C13_newDrawCallFromObjFile_triangles_witness :
    sampleObj.ret = true
    ∧ geometry.ObjInRange sampleObj
    ∧ (∀ shape ∈ sampleObj.shapes, ∀ c ∈ shape.mesh.num_face_vertices, c = 3)
    ∧ ∃ drawCall, geometry.newDrawCallFromObjFile sampleObj = .ok drawCall
        ∧ drawCall.positions.length = 3 * 2
        ∧ drawCall.normals.length = 3 * 2
        ∧ drawCall.texCoords.length = 3 * 2 :=
  have hrange : geometry.ObjInRange sampleObj := by
    simp [geometry.ObjInRange, sampleObj]
  have htri : ∀ shape ∈ sampleObj.shapes, ∀ c ∈ shape.mesh.num_face_vertices, c = 3 := by
    simp [sampleObj]
  match (C13_newDrawCallFromObjFile_triangles sampleObj rfl hrange).1 htri with
  | ⟨drawCall, hok, _, _, _, hp, hn, ht⟩ => ⟨rfl, hrange, htri, drawCall, hok, hp, hn, ht⟩

/-! ### Recording the scene geometry -/

theorem runs_addToCmdBuffer (drawCall : SceneDrawCall) (cmdBuffer : VkCommandBuffer)
    (pipelineLayout : VkPipelineLayout) (env : Env) (t : List Op) :
    Runs (geometry.addToCmdBuffer drawCall cmdBuffer pipelineLayout) env t
      [.DrawCall_addToCmdBuffer drawCall cmdBuffer pipelineLayout] () [Fatal.callee] := by
  unfold geometry.addToCmdBuffer
  exact Runs.bind (runs_calleeCall _ _ _) (runs_pure _ _ _)

theorem runs_renderAllGeometryWithoutSamplers (cmdBuffer : VkCommandBuffer)
    (pipelineLayout : VkPipelineLayout) (env : Env) (t : List Op) :
    Runs (geometry.renderAllGeometryWithoutSamplers cmdBuffer pipelineLayout) env t
      (allGeometryOps cmdBuffer pipelineLayout) () [Fatal.callee] := by
  unfold geometry.renderAllGeometryWithoutSamplers
  exact Runs.conv
    (Runs.bind (runs_addToCmdBuffer _ _ _ _ _) <|
     Runs.bind (runs_addToCmdBuffer _ _ _ _ _) <|
     Runs.bind (runs_addToCmdBuffer _ _ _ _ _) <|
     Runs.bind (runs_addToCmdBuffer _ _ _ _ _) <|
     Runs.bind (runs_addToCmdBuffer _ _ _ _ _) (runs_addToCmdBuffer _ _ _ _ _))
    rfl rfl (by decide)

theorem runs_renderBareGeometry (cmdBuffer : VkCommandBuffer)
    (pipelineLayout : VkPipelineLayout) (env : Env) (t : List Op) :
    Runs (geometry.renderBareGeometry cmdBuffer pipelineLayout) env t
      [ .DrawCall_addToCmdBuffer .sphere0 cmdBuffer pipelineLayout,
        .DrawCall_addToCmdBuffer .sphere1 cmdBuffer pipelineLayout,
        .DrawCall_addToCmdBuffer .obelisk cmdBuffer pipelineLayout ] () [Fatal.callee] := by
  unfold geometry.renderBareGeometry
  exact Runs.conv
    (Runs.bind (runs_addToCmdBuffer _ _ _ _ _) <|
     Runs.bind (runs_addToCmdBuffer _ _ _ _ _) (runs_addToCmdBuffer _ _ _ _ _))
    rfl rfl (by decide)

theorem runs_renderTexturedGeometry (sets : geometry.DescSets) (cmdBuffer : VkCommandBuffer)
    (pipelineLayout : VkPipelineLayout) (env : Env) (t : List Op) :
    Runs (geometry.renderTexturedGeometry sets cmdBuffer pipelineLayout) env t
      [ .vkCmdBindDescriptorSets cmdBuffer VK_PIPELINE_BIND_POINT_GRAPHICS pipelineLayout 18 1
          [sets.frogSamplerDescSet] 0,
        .DrawCall_addToCmdBuffer .frog cmdBuffer pipelineLayout,
        .vkCmdBindDescriptorSets cmdBuffer VK_PIPELINE_BIND_POINT_GRAPHICS pipelineLayout 18 1
          [sets.aeroplaneSamplerDescSet] 0,
        .DrawCall_addToCmdBuffer .aeroplane cmdBuffer pipelineLayout ] () [Fatal.callee] := by
  unfold geometry.renderTexturedGeometry
  exact Runs.conv
    (Runs.bind (runs_call _ _ _) <|
     Runs.bind (runs_addToCmdBuffer _ _ _ _ _) <|
     Runs.bind (runs_call _ _ _) (runs_addToCmdBuffer _ _ _ _ _))
    rfl rfl (by decide)

theorem runs_renderTexturedNormalMappedGeometry (sets : geometry.DescSets)
    (cmdBuffer : VkCommandBuffer) (pipelineLayout : VkPipelineLayout) (env : Env)
    (t : List Op) :
    Runs (geometry.renderTexturedNormalMappedGeometry sets cmdBuffer pipelineLayout) env t
      [ .vkCmdBindDescriptorSets cmdBuffer VK_PIPELINE_BIND_POINT_GRAPHICS pipelineLayout 18 2
          [sets.floorSamplerDescSet, sets.floorNormalSamplerDescSet] 0,
        .DrawCall_addToCmdBuffer .floor cmdBuffer pipelineLayout ] () [Fatal.callee] := by
  unfold geometry.renderTexturedNormalMappedGeometry
  exact Runs.conv (Runs.bind (runs_call _ _ _) (runs_addToCmdBuffer _ _ _ _ _))
    rfl rfl (by decide)

/-- C14: for every command buffer and pipeline layout, and whatever the
environment, `renderAllGeometryWithoutSamplers` makes no call other than
`addToCmdBuffer` on sphere0, sphere1, obelisk, frog, aeroplane and floor, in
that order, each with the given command buffer and pipeline layout; it returns
whenever no `addToCmdBuffer` exits fatally, and when it returns it has made
all six calls, each draw call being recorded exactly once. -/
theorem C14_shadow_pass_draws_all_six (cmdBuffer : VkCommandBuffer)
    (pipelineLayout : VkPipelineLayout) (env : Env) (t : List Op) :
    (geometry.renderAllGeometryWithoutSamplers cmdBuffer pipelineLayout env t).trace
      = t ++ (geometry.renderAllGeometryWithoutSamplers cmdBuffer pipelineLayout).calls env t
    ∧ (∃ n, (geometry.renderAllGeometryWithoutSamplers cmdBuffer pipelineLayout).calls env t
        = List.take n
          [ Op.DrawCall_addToCmdBuffer .sphere0 cmdBuffer pipelineLayout,
            Op.DrawCall_addToCmdBuffer .sphere1 cmdBuffer pipelineLayout,
            Op.DrawCall_addToCmdBuffer .obelisk cmdBuffer pipelineLayout,
            Op.DrawCall_addToCmdBuffer .frog cmdBuffer pipelineLayout,
            Op.DrawCall_addToCmdBuffer .aeroplane cmdBuffer pipelineLayout,
            Op.DrawCall_addToCmdBuffer .floor cmdBuffer pipelineLayout ])
    ∧ ((∀ n, env.calleeFatal n = false) →
        (geometry.renderAllGeometryWithoutSamplers cmdBuffer pipelineLayout env t).result
          = .ok ())
    ∧ ((geometry.renderAllGeometryWithoutSamplers cmdBuffer pipelineLayout env t).result
          = .ok () →
        (geometry.renderAllGeometryWithoutSamplers cmdBuffer pipelineLayout).calls env t
          = [ Op.DrawCall_addToCmdBuffer .sphere0 cmdBuffer pipelineLayout,
              Op.DrawCall_addToCmdBuffer .sphere1 cmdBuffer pipelineLayout,
              Op.DrawCall_addToCmdBuffer .obelisk cmdBuffer pipelineLayout,
              Op.DrawCall_addToCmdBuffer .frog cmdBuffer pipelineLayout,
              Op.DrawCall_addToCmdBuffer .aeroplane cmdBuffer pipelineLayout,
              Op.DrawCall_addToCmdBuffer .floor cmdBuffer pipelineLayout ]
        ∧ ∀ drawCall : SceneDrawCall,
            ((geometry.renderAllGeometryWithoutSamplers cmdBuffer pipelineLayout).calls
              env t).count (Op.DrawCall_addToCmdBuffer drawCall cmdBuffer pipelineLayout)
              = 1) := by
  have hr := runs_renderAllGeometryWithoutSamplers cmdBuffer pipelineLayout env t
  refine ⟨hr.trace_eq, hr.calls_take, ?_, ?_⟩
  · intro hc
    simp [geometry.renderAllGeometryWithoutSamplers, geometry.addToCmdBuffer, bind, Gfx.bind,
      calleeCall, pure, Gfx.pure, hc]
  · intro hok
    rw [hr.calls_ok hok]
    refine ⟨rfl, ?_⟩
    intro drawCall
    cases drawCall <;> simp [allGeometryOps, List.count_cons]

/-- C14 in `sampleEnv`, where no callee exits: command buffer 10, pipeline
layout 40. -/
theorem C14_shadow_pass_draws_all_six_witness :
    (∀ n, sampleEnv.calleeFatal n = false)
    ∧ (geometry.renderAllGeometryWithoutSamplers 10 40 sampleEnv []).result = .ok ()
    ∧ (geometry.renderAllGeometryWithoutSamplers 10 40).calls sampleEnv []
        = [ Op.DrawCall_addToCmdBuffer .sphere0 10 40,
            Op.DrawCall_addToCmdBuffer .sphere1 10 40,
            Op.DrawCall_addToCmdBuffer .obelisk 10 40,
            Op.DrawCall_addToCmdBuffer .frog 10 40,
            Op.DrawCall_addToCmdBuffer .aeroplane 10 40,
            Op.DrawCall_addToCmdBuffer .floor 10 40 ] :=
  have h := C14_shadow_pass_draws_all_six 10 40 sampleEnv []
  ⟨fun _ => rfl, h.2.2.1 (fun _ => rfl), (h.2.2.2 (h.2.2.1 (fun _ => rfl))).1⟩

/-- C17: when the three main-pass routines and the shadow-pass routine return,
`renderBareGeometry` has drawn exactly sphere0, sphere1, obelisk;
`renderTexturedGeometry` exactly frog and aeroplane, each right after a bind
of its own sampler descriptor set; `renderTexturedNormalMappedGeometry`
exactly floor, right after one bind of the floor albedo and floor normal
descriptor sets, in that order.  The three groups are pairwise disjoint, and
together they are the six draw calls of `renderAllGeometryWithoutSamplers`,
each exactly once. -/
theorem C17_main_pass_groups_split_the_scene (sets : geometry.DescSets)
    (cmdBuffer : VkCommandBuffer) (bareLayout texturedLayout normalMappedLayout
      shadowLayout : VkPipelineLayout)
    (env : Env) (tBare tTextured tNormalMapped tShadow : List Op)
    (hbare : (geometry.renderBareGeometry cmdBuffer bareLayout env tBare).result = .ok ())
    (htextured : (geometry.renderTexturedGeometry sets cmdBuffer texturedLayout env
      tTextured).result = .ok ())
    (hnormal : (geometry.renderTexturedNormalMappedGeometry sets cmdBuffer normalMappedLayout
      env tNormalMapped).result = .ok ())
    (hshadow : (geometry.renderAllGeometryWithoutSamplers cmdBuffer shadowLayout env
      tShadow).result = .ok ()) :
    (geometry.renderBareGeometry cmdBuffer bareLayout).calls env tBare
      = [ Op.DrawCall_addToCmdBuffer .sphere0 cmdBuffer bareLayout,
          Op.DrawCall_addToCmdBuffer .sphere1 cmdBuffer bareLayout,
          Op.DrawCall_addToCmdBuffer .obelisk cmdBuffer bareLayout ]
    ∧ (geometry.renderTexturedGeometry sets cmdBuffer texturedLayout).calls env tTextured
      = [ Op.vkCmdBindDescriptorSets cmdBuffer VK_PIPELINE_BIND_POINT_GRAPHICS texturedLayout
            18 1 [sets.frogSamplerDescSet] 0,
          Op.DrawCall_addToCmdBuffer .frog cmdBuffer texturedLayout,
          Op.vkCmdBindDescriptorSets cmdBuffer VK_PIPELINE_BIND_POINT_GRAPHICS texturedLayout
            18 1 [sets.aeroplaneSamplerDescSet] 0,
          Op.DrawCall_addToCmdBuffer .aeroplane cmdBuffer texturedLayout ]
    ∧ (geometry.renderTexturedNormalMappedGeometry sets cmdBuffer normalMappedLayout).calls env
        tNormalMapped
      = [ Op.vkCmdBindDescriptorSets cmdBuffer VK_PIPELINE_BIND_POINT_GRAPHICS
            normalMappedLayout 18 2
            [sets.floorSamplerDescSet, sets.floorNormalSamplerDescSet] 0,
          Op.DrawCall_addToCmdBuffer .floor cmdBuffer normalMappedLayout ]
    ∧ ((geometry.renderBareGeometry cmdBuffer bareLayout).calls env tBare).filterMap
        Op.drawCall = [.sphere0, .sphere1, .obelisk]
    ∧ ((geometry.renderTexturedGeometry sets cmdBuffer texturedLayout).calls env
        tTextured).filterMap Op.drawCall = [.frog, .aeroplane]
    ∧ ((geometry.renderTexturedNormalMappedGeometry sets cmdBuffer normalMappedLayout).calls
        env tNormalMapped).filterMap Op.drawCall = [.floor]
    ∧ (∀ drawCall : SceneDrawCall,
        (((geometry.renderBareGeometry cmdBuffer bareLayout).calls env tBare).filterMap
            Op.drawCall
          ++ ((geometry.renderTexturedGeometry sets cmdBuffer texturedLayout).calls env
            tTextured).filterMap Op.drawCall
          ++ ((geometry.renderTexturedNormalMappedGeometry sets cmdBuffer
            normalMappedLayout).calls env tNormalMapped).filterMap Op.drawCall).count drawCall
          = 1)
    ∧ ((geometry.renderBareGeometry cmdBuffer bareLayout).calls env tBare).filterMap
          Op.drawCall
        ++ ((geometry.renderTexturedGeometry sets cmdBuffer texturedLayout).calls env
          tTextured).filterMap Op.drawCall
        ++ ((geometry.renderTexturedNormalMappedGeometry sets cmdBuffer
          normalMappedLayout).calls env tNormalMapped).filterMap Op.drawCall
      = ((geometry.renderAllGeometryWithoutSamplers cmdBuffer shadowLayout).calls env
          tShadow).filterMap Op.drawCall := by
  rw [(runs_renderBareGeometry cmdBuffer bareLayout env tBare).calls_ok hbare,
    (runs_renderTexturedGeometry sets cmdBuffer texturedLayout env tTextured).calls_ok
      htextured,
    (runs_renderTexturedNormalMappedGeometry sets cmdBuffer normalMappedLayout env
      tNormalMapped).calls_ok hnormal,
    (runs_renderAllGeometryWithoutSamplers cmdBuffer shadowLayout env tShadow).calls_ok
      hshadow]
  refine ⟨rfl, rfl, rfl, rfl, rfl, rfl, ?_, rfl⟩
  intro drawCall
  cases drawCall <;> rfl

/-- C17 in `sampleEnv`, with descriptor sets 31 to 34 and command buffer 10. -/
theorem C17_main_pass_groups_split_the_scene_witness :
    (geometry.renderBareGeometry 10 41 sampleEnv []).result = .ok ()
    ∧ (geometry.renderTexturedGeometry sampleDescSets 10 42 sampleEnv []).result = .ok ()
    ∧ (geometry.renderTexturedNormalMappedGeometry sampleDescSets 10 43 sampleEnv []).result
        = .ok ()
    ∧ (geometry.renderAllGeometryWithoutSamplers 10 40 sampleEnv []).result = .ok ()
    ∧ ((geometry.renderBareGeometry 10 41).calls sampleEnv []).filterMap Op.drawCall
          ++ ((geometry.renderTexturedGeometry sampleDescSets 10 42).calls sampleEnv
            []).filterMap Op.drawCall
          ++ ((geometry.renderTexturedNormalMappedGeometry sampleDescSets 10 43).calls
            sampleEnv []).filterMap Op.drawCall
        = ((geometry.renderAllGeometryWithoutSamplers 10 40).calls sampleEnv []).filterMap
            Op.drawCall :=
  ⟨by rfl, by rfl, by rfl, by rfl,
    (C17_main_pass_groups_split_the_scene sampleDescSets 10 41 42 43 40 sampleEnv [] [] [] []
      (by rfl) (by rfl) (by rfl) (by rfl)).2.2.2.2.2.2.2⟩

/-! ### Rings and spheres -/

theorem addRingVertices_loop_spec (lib : FloatLib) (translation : Vec3) (sideCount : Int)
    (height btmRadius topRadius : CFloat) : ∀ (m : Nat) (i : Int) (verts : List Vec3),
    (sideCount - i).toNat ≤ m →
    ∃ added, geometry.addRingVertices.loop lib translation sideCount height btmRadius
        topRadius i verts = verts ++ added
      ∧ added.length = 6 * (sideCount - i).toNat := by
  intro m
  induction m with
  | zero =>
    intro i verts h
    unfold geometry.addRingVertices.loop
    simp only []
    rw [if_neg (by omega)]
    exact ⟨[], by simp, by simp; omega⟩
  | succ m ih =>
    intro i verts h
    unfold geometry.addRingVertices.loop
    simp only []
    by_cases hlt : i < sideCount
    · rw [if_pos hlt]
      obtain ⟨added, hadd, hlen⟩ := ih (i + 1) _ (by omega)
      rw [hadd]
      refine ⟨[_, _, _, _, _, _] ++ added, by simp only [List.append_assoc]; rfl, ?_⟩
      simp only [List.length_append, List.length_cons, List.length_nil, hlen]
      omega
    · rw [if_neg hlt]
      exact ⟨[], by simp, by simp; omega⟩

theorem newSphereDrawCall_loop_length (lib : FloatLib) (resolution : Int) :
    ∀ (m : Nat) (i : Int) (verts : List Vec3), (resolution - i).toNat ≤ m →
    (geometry.newSphereDrawCall.loop lib resolution i verts).length
      = verts.length + (resolution - i).toNat * (6 * (resolution * 2).toNat) := by
  intro m
  induction m with
  | zero =>
    intro i verts h
    unfold geometry.newSphereDrawCall.loop
    rw [if_neg (by omega)]
    simp [show (resolution - i).toNat = 0 by omega]
  | succ m ih =>
    intro i verts h
    unfold geometry.newSphereDrawCall.loop
    by_cases hlt : i < resolution
    · rw [if_pos hlt]
      simp only []
      rw [ih (i + 1) _ (by omega)]
      obtain ⟨added, hadd, hlen⟩ := addRingVertices_loop_spec lib
        ⟨0, -lib.cosf ((i : CFloat) / (resolution : CFloat) * lib.M_PI), 0⟩ (resolution * 2)
        (-lib.cosf (((i + 1 : Int) : CFloat) / (resolution : CFloat) * lib.M_PI)
          - -lib.cosf ((i : CFloat) / (resolution : CFloat) * lib.M_PI))
        (lib.sinf ((i : CFloat) / (resolution : CFloat) * lib.M_PI))
        (lib.sinf (((i + 1 : Int) : CFloat) / (resolution : CFloat) * lib.M_PI))
        _ 0 verts (le_refl _)
      unfold geometry.addRingVertices
      rw [hadd, List.length_append, hlen]
      have e : (resolution - i).toNat = (resolution - (i + 1)).toNat + 1 := by omega
      rw [e]
      simp only [sub_zero]
      ring
    · rw [if_neg hlt]
      simp [show (resolution - i).toNat = 0 by omega]

theorem foldl_push_eq (verts : List Vec3) : ∀ (acc : List Vec3),
    verts.foldl (fun normals vert => normals ++ [vert]) acc = acc ++ verts := by
  induction verts with
  | nil => intro acc; simp
  | cons v rest ih => intro acc; simp [ih]

/-- C18: for every `sideCount`, `addRingVertices` leaves the existing entries
in place and appends exactly `6*sideCount` vertices when `sideCount >= 0`, and
nothing when `sideCount <= 0`; for every `resolution >= 0` whose double fits
an `int`, `newSphereDrawCall` builds exactly `12*resolution^2` positions, a
multiple of 3; with `smoothNormals` the normals list equals the positions
list, so they have the same length, and without it there are no normals. -/
theorem C18_ring_and_sphere_vertex_counts (lib : FloatLib) (translation : Vec3)
    (sideCount : Int) (height btmRadius topRadius : CFloat) (verts : List Vec3)
    (resolution : Int) (smoothNormals : Bool)
    (hres : 0 ≤ resolution) (_hint : resolution * 2 < 2 ^ 31) :
    (∃ added,
        geometry.addRingVertices lib translation sideCount height btmRadius topRadius verts
          = verts ++ added
        ∧ (0 ≤ sideCount → (added.length : Int) = 6 * sideCount)
        ∧ (sideCount ≤ 0 → added = []))
    ∧ ((geometry.newSphereDrawCall lib resolution smoothNormals).positions.length : Int)
        = 12 * resolution ^ 2
    ∧ 3 ∣ (geometry.newSphereDrawCall lib resolution smoothNormals).positions.length
    ∧ (smoothNormals = true →
        (geometry.newSphereDrawCall lib resolution smoothNormals).normals
          = (geometry.newSphereDrawCall lib resolution smoothNormals).positions)
    ∧ (smoothNormals = false →
        (geometry.newSphereDrawCall lib resolution smoothNormals).normals = []) := by
  obtain ⟨added, hadd, hlen⟩ := addRingVertices_loop_spec lib translation sideCount height
    btmRadius topRadius _ 0 verts (le_refl _)
  have hpos : (geometry.newSphereDrawCall lib resolution smoothNormals).positions
      = geometry.newSphereDrawCall.loop lib resolution 0 [] := by
    unfold geometry.newSphereDrawCall
    cases smoothNormals <;> rfl
  have hcount := newSphereDrawCall_loop_length lib resolution _ 0 [] (le_refl _)
  simp only [sub_zero, List.length_nil, Nat.zero_add] at hcount hlen
  refine ⟨⟨added, hadd, ?_, ?_⟩, ?_, ?_, ?_, ?_⟩
  · intro h
    rw [hlen]
    omega
  · intro h
    have : added.length = 0 := by rw [hlen]; omega
    exact List.length_eq_zero.mp this
  · rw [hpos, hcount]
    have h1 : ((resolution.toNat : Nat) : Int) = resolution := Int.toNat_of_nonneg hres
    have h2 : (((resolution * 2).toNat : Nat) : Int) = resolution * 2 :=
      Int.toNat_of_nonneg (by omega)
    push_cast
    rw [h1, h2]
    ring
  · rw [hpos, hcount]
    exact ⟨resolution.toNat * (2 * (resolution * 2).toNat), by ring⟩
  · intro hs
    subst hs
    simp only [geometry.newSphereDrawCall, if_true]
    rw [foldl_push_eq]
    simp
  · intro hs
    subst hs
    simp [geometry.newSphereDrawCall]

/-- C18 at resolution 2 with smooth normals: 48 positions. -/
theorem C18_ring_and_sphere_vertex_counts_witness :
    (0 : Int) ≤ 2 ∧ (2 : Int) * 2 < 2 ^ 31
    ∧ ((geometry.newSphereDrawCall sampleFloatLib 2 true).positions.length : Int)
        = 12 * 2 ^ 2
    ∧ (geometry.newSphereDrawCall sampleFloatLib 2 true).normals
        = (geometry.newSphereDrawCall sampleFloatLib 2 true).positions :=
  have h := C18_ring_and_sphere_vertex_counts sampleFloatLib ⟨0, 0, 0⟩ 0 0 0 0 [] 2 true
    (by decide) (by decide)
  ⟨by decide, by decide, h.2.1, h.2.2.2.1 rfl⟩

/-! ### Cuboids and the floor -/

/-- C19: for every width, height and yOffset (rationals), `createCuboidVertices`
returns exactly 36 vertices; every one is a corner of the box (x and z are
`width/2` or `-width/2`, y is `yOffset` or `yOffset+height`); and each run of
six consecutive vertices lies in one plane: the first six in
`y = yOffset+height` (top), the next six in `y = yOffset` (bottom), and the
four side faces in `z = -width/2`, `x = -width/2`, `z = width/2` and
`x = width/2`, one plane per side face. -/
theorem C19_createCuboidVertices_box (width height yOffset : CFloat) :
    (geometry.createCuboidVertices width height yOffset).length = 36
    ∧ (∀ v ∈ geometry.createCuboidVertices width height yOffset,
        (v.x = width / 2 ∨ v.x = -(width / 2)) ∧ (v.z = width / 2 ∨ v.z = -(width / 2))
        ∧ (v.y = yOffset ∨ v.y = yOffset + height))
    ∧ (∀ v ∈ (geometry.createCuboidVertices width height yOffset).take 6,
        v.y = yOffset + height)
    ∧ (∀ v ∈ ((geometry.createCuboidVertices width height yOffset).drop 6).take 6,
        v.y = yOffset)
    ∧ (∀ v ∈ ((geometry.createCuboidVertices width height yOffset).drop 12).take 6,
        v.z = -(width / 2))
    ∧ (∀ v ∈ ((geometry.createCuboidVertices width height yOffset).drop 18).take 6,
        v.x = -(width / 2))
    ∧ (∀ v ∈ ((geometry.createCuboidVertices width height yOffset).drop 24).take 6,
        v.z = width / 2)
    ∧ (∀ v ∈ ((geometry.createCuboidVertices width height yOffset).drop 30).take 6,
        v.x = width / 2) := by
  refine ⟨rfl, ?_, ?_, ?_, ?_, ?_, ?_, ?_⟩ <;>
    simp [geometry.createCuboidVertices]

theorem padLoop_eq : ∀ (m target : Nat) (texCoords : List Vec2),
    target - texCoords.length ≤ m →
    geometry.createFloor.padLoop target texCoords
      = texCoords ++ List.replicate (target - texCoords.length) (⟨0, 0⟩ : Vec2) := by
  intro m
  induction m with
  | zero =>
    intro target texCoords h
    unfold geometry.createFloor.padLoop
    rw [if_neg (by omega)]
    simp [show target - texCoords.length = 0 by omega]
  | succ m ih =>
    intro target texCoords h
    unfold geometry.createFloor.padLoop
    by_cases hlt : texCoords.length < target
    · rw [if_pos hlt, ih _ _ (by simp; omega)]
      have : target - texCoords.length = (target - (texCoords ++ [(⟨0, 0⟩ : Vec2)]).length) + 1 := by
        simp; omega
      rw [this, List.replicate_succ]
      simp
    · rw [if_neg hlt]
      simp [show target - texCoords.length = 0 by omega]

/-- C20: the padding loop of `createFloor` ends, for every initial list and
every target length, with the initial list followed by as many `(0,0)` as it
was short of the target: its length is the maximum of the initial length and
the target, and no existing entry is removed or altered.  The floor draw call
has the 36 cuboid positions, no normals, and 36 texCoords: the six initial
ones followed by thirty `(0,0)`. -/
theorem C20_createFloor_padding (target : Nat) (texCoords : List Vec2) :
    geometry.createFloor.padLoop target texCoords
      = texCoords ++ List.replicate (target - texCoords.length) (⟨0, 0⟩ : Vec2)
    ∧ (geometry.createFloor.padLoop target texCoords).length = max texCoords.length target
    ∧ (geometry.createFloor.padLoop target texCoords).take texCoords.length = texCoords
    ∧ geometry.createFloor.positions = geometry.createCuboidVertices 12 0.5 (-0.5)
    ∧ geometry.createFloor.positions.length = 36
    ∧ geometry.createFloor.normals = []
    ∧ geometry.createFloor.texCoords
        = [⟨0, 0⟩, ⟨0, 1⟩, ⟨1, 0⟩, ⟨0, 1⟩, ⟨1, 1⟩, ⟨1, 0⟩] ++ List.replicate 30 (⟨0, 0⟩ : Vec2)
    ∧ geometry.createFloor.texCoords.length = geometry.createFloor.positions.length := by
  have h := padLoop_eq (target - texCoords.length) target texCoords (le_refl _)
  have hfloor : geometry.createFloor.texCoords
      = [⟨0, 0⟩, ⟨0, 1⟩, ⟨1, 0⟩, ⟨0, 1⟩, ⟨1, 1⟩, ⟨1, 0⟩] ++ List.replicate 30 (⟨0, 0⟩ : Vec2) := by
    simp only [geometry.createFloor]
    rw [padLoop_eq 30 _ _ (by simp [geometry.createCuboidVertices])]
    simp [geometry.createCuboidVertices]
  refine ⟨h, ?_, ?_, rfl, rfl, rfl, hfloor, ?_⟩
  · rw [h]
    simp
    omega
  · rw [h]
    simp
  · rw [hfloor]
    rfl

/-! ### Loading the same image twice -/

theorem runs_createImageView (image : VkImage) (format : VkFormat) (aspectMask : VkFlags)
    (env : Env) (t : List Op) :
    Runs (gfx.createImageView image format aspectMask) env t
      [ .vkCreateImageView env.device
          { image := image, format := format, viewType := VK_IMAGE_VIEW_TYPE_2D,
            subresourceRange :=
              { aspectMask := aspectMask, baseMipLevel := 0, levelCount := 1,
                baseArrayLayer := 0, layerCount := 1 } } ]
      (env.handle t.length) [Fatal.imageViewNotCreated] := by
  unfold gfx.createImageView
  exact Runs.conv
    (Runs.bind (runs_getEnv _ _) <|
     Runs.bind (runs_call _ _ _) <|
     Runs.bind (runs_SDL_assert_release _ _ _ _) (runs_pure _ _ _))
    rfl (by simp) (by decide)

theorem runs_loadImage (filePath : String) (normalMap : Bool) (img : StbImage)
    (env : Env) (t : List Op) :
    Runs (gfx.loadImage filePath normalMap (some img)) env t
      (loadImageOps env t.length filePath normalMap img)
      (env.handle (t.length + 1), env.imageMemory (t.length + 1), env.handle (t.length + 33))
      [Fatal.callee, Fatal.debugAssert, Fatal.imageViewNotCreated] := by
  unfold gfx.loadImage
  refine Runs.conv
    (Runs.bind (runs_getEnv _ _) <|
     Runs.bind (runs_call _ _ _) <|
     Runs.bind (runs_calleeCall _ _ _) <|
     Runs.bind (runs_setImageMemoryRGBA _ _ _ _ _ _ _) <|
     Runs.bind (runs_createImageView _ _ _ _ _) <|
     Runs.bind (runs_call _ _ _) (runs_pure _ _ _))
    ?_ ?_ (by decide)
  · simp [loadImageOps, uploadOps_length, Nat.add_assoc]
  · simp [uploadOps_length, Nat.add_assoc]

/-- The image writes among the calls of a complete `loadImage`. -/
theorem loadImageOps_imageWrite (env : Env) (pos : Nat) (filePath : String) (normalMap : Bool)
    (img : StbImage) :
    (loadImageOps env pos filePath normalMap img).filterMap Op.imageWrite
      = [ .created (if normalMap then VK_FORMAT_R8G8B8A8_SNORM else VK_FORMAT_R8G8B8A8_UNORM)
            img.width img.height,
          .staged (gfx.loadImage.pixels normalMap img.width img.height img.data)
            ((4 * img.width * img.height) % 2 ^ 64),
          .copied { width := img.width, height := img.height, depth := 1 },
          .viewed (if normalMap then VK_FORMAT_R8G8B8A8_SNORM
            else VK_FORMAT_R8G8B8A8_UNORM) ] := by
  simp [loadImageOps, uploadOps, createBufferOps, setBufferMemoryOps, oneShotOps,
    defaultSubmitOp, Op.imageWrite, copyRegion]

theorem loadImage_returns (filePath : String) (normalMap : Bool) (img : StbImage)
    (env : Env) (t : List Op) (hcallee : ∀ n, env.calleeFatal n = false)
    (hres : ∀ n, env.vkResult n = VK_SUCCESS) :
    (gfx.loadImage filePath normalMap (some img) env t).result
      = .ok (env.handle (t.length + 1), env.imageMemory (t.length + 1),
          env.handle (t.length + 33)) := by
  cases hd : env.debugAsserts <;>
  simp [gfx.loadImage, gfx.createImageView, SDL_assert_release,
    gfx.setImageMemoryRGBA, gfx.createBuffer, gfx.setBufferMemory,
    gfx.transitionImageLayout, gfx.copyBufferToImage, gfx.createCommandBuffer,
    gfx.beginCommandBuffer, gfx.cmdTransitionImageLayout, gfx.submitCommandBufferDefault,
    gfx.submitCommandBuffer, bind, Gfx.bind, pure, Gfx.pure, getEnv, call, vkCall,
    calleeCall, SDL_assert, hcallee, hd, hres, Nat.add_assoc]

/-- C15: for every decoded image (bytes, width, height) and normal-map flag,
any two runs of `loadImage` that return, in whatever environments, after
whatever earlier calls and from whatever file paths, create the image with the
same format and size, stage the same bytes with the same size, copy the same
extent and view the image in the same format; these are given by the bytes,
width, height and flag alone: the format is SNORM for a normal map and UNORM
otherwise, the staged bytes are the prepared pixels.  A run returns whenever no
callee exits and every call reports success. -/
theorem C15_loadImage_same_input_same_upload (filePath1 filePath2 : String)
    (normalMap : Bool) (img : StbImage) (env1 env2 : Env) (t1 t2 : List Op)
    (h1 : ∃ r, (gfx.loadImage filePath1 normalMap (some img) env1 t1).result = .ok r)
    (h2 : ∃ r, (gfx.loadImage filePath2 normalMap (some img) env2 t2).result = .ok r) :
    ((gfx.loadImage filePath1 normalMap (some img)).calls env1 t1).filterMap Op.imageWrite
      = ((gfx.loadImage filePath2 normalMap (some img)).calls env2 t2).filterMap Op.imageWrite
    ∧ ((gfx.loadImage filePath1 normalMap (some img)).calls env1 t1).filterMap Op.imageWrite
      = [ .created (if normalMap then VK_FORMAT_R8G8B8A8_SNORM else VK_FORMAT_R8G8B8A8_UNORM)
            img.width img.height,
          .staged (gfx.loadImage.pixels normalMap img.width img.height img.data)
            ((4 * img.width * img.height) % 2 ^ 64),
          .copied { width := img.width, height := img.height, depth := 1 },
          .viewed (if normalMap then VK_FORMAT_R8G8B8A8_SNORM
            else VK_FORMAT_R8G8B8A8_UNORM) ]
    ∧ ((∀ n, env1.calleeFatal n = false) → (∀ n, env1.vkResult n = VK_SUCCESS) →
        ∃ r, (gfx.loadImage filePath1 normalMap (some img) env1 t1).result = .ok r) := by
  have hr1 := runs_loadImage filePath1 normalMap img env1 t1
  have hr2 := runs_loadImage filePath2 normalMap img env2 t2
  obtain ⟨r1, hok1⟩ := h1
  obtain ⟨r2, hok2⟩ := h2
  have hc1 : (gfx.loadImage filePath1 normalMap (some img)).calls env1 t1
      = loadImageOps env1 t1.length filePath1 normalMap img := by
    have hv := hr1.2.1 r1 hok1
    exact hr1.calls_ok (hv.2 ▸ hok1)
  have hc2 : (gfx.loadImage filePath2 normalMap (some img)).calls env2 t2
      = loadImageOps env2 t2.length filePath2 normalMap img := by
    have hv := hr2.2.1 r2 hok2
    exact hr2.calls_ok (hv.2 ▸ hok2)
  rw [hc1, hc2, loadImageOps_imageWrite, loadImageOps_imageWrite]
  exact ⟨rfl, rfl, fun hcallee hres => ⟨_, loadImage_returns _ _ _ _ _ hcallee hres⟩⟩

/-- C15 for a two-pixel normal map loaded once in `sampleEnv` from an empty
trace and once in `debugEnv` after an earlier call, from two file paths. -/
theorem C15_loadImage_same_input_same_upload_witness :
    (∃ r, (gfx.loadImage "floor_normal.png" true
        (some ⟨1, 2, [200, 100, 50, 255, 0, 7, 255, 9]⟩) sampleEnv []).result = .ok r)
    ∧ (∃ r, (gfx.loadImage "copy.png" true
        (some ⟨1, 2, [200, 100, 50, 255, 0, 7, 255, 9]⟩) debugEnv
        [.stbi_image_free]).result = .ok r)
    ∧ ((gfx.loadImage "floor_normal.png" true
          (some ⟨1, 2, [200, 100, 50, 255, 0, 7, 255, 9]⟩)).calls sampleEnv []).filterMap
          Op.imageWrite
        = ((gfx.loadImage "copy.png" true
          (some ⟨1, 2, [200, 100, 50, 255, 0, 7, 255, 9]⟩)).calls debugEnv
          [.stbi_image_free]).filterMap Op.imageWrite :=
  have h1 : ∃ r, (gfx.loadImage "floor_normal.png" true
      (some ⟨1, 2, [200, 100, 50, 255, 0, 7, 255, 9]⟩) sampleEnv []).result = .ok r :=
    ⟨_, loadImage_returns _ _ _ _ _ (fun _ => rfl) (fun _ => rfl)⟩
  have h2 : ∃ r, (gfx.loadImage "copy.png" true
      (some ⟨1, 2, [200, 100, 50, 255, 0, 7, 255, 9]⟩) debugEnv
      [.stbi_image_free]).result = .ok r :=
    ⟨_, loadImage_returns _ _ _ _ _ (fun _ => rfl) (fun _ => rfl)⟩
  ⟨h1, h2, (C15_loadImage_same_input_same_upload "floor_normal.png" "copy.png" true
    ⟨1, 2, [200, 100, 50, 255, 0, 7, 255, 9]⟩ sampleEnv debugEnv [] [.stbi_image_free]
    h1 h2).1⟩

/-! ### The bytes of a normal map -/

/-- C16: for every pixel `p < width*height` of a normal-map load with input
bytes `(r,g,b,a)` (four bytes per pixel, `width*height*4` within `int`), the
loop leaves `((r - 127) mod 256, b div 2, ((b div 2) - 127) mod 256, a)`: the
third byte is computed from the second byte the loop has just written, the
alpha byte is unchanged, and replacing the input green byte by any value `g`
leaves the whole output buffer the same; when `normalMap` is false the buffer
is left as it is. -/
theorem C16_normalMap_loop_bytes (width height : Nat) (data : List Nat) (p g : Nat)
    (hlen : data.length = width * height * 4) (_hint : width * height * 4 < 2 ^ 31)
    (hbytes : ∀ x ∈ data, x < 256) (hp : p < width * height) :
    ((gfx.loadImage.pixels true width height data).getD (4 * p) 0 : Int)
        = ((data.getD (4 * p) 0 : Int) - 127) % 256
    ∧ (gfx.loadImage.pixels true width height data).getD (4 * p + 1) 0
        = data.getD (4 * p + 2) 0 / 2
    ∧ ((gfx.loadImage.pixels true width height data).getD (4 * p + 2) 0 : Int)
        = (((data.getD (4 * p + 2) 0 / 2 : Nat) : Int) - 127) % 256
    ∧ ((gfx.loadImage.pixels true width height data).getD (4 * p + 2) 0 : Int)
        = (((gfx.loadImage.pixels true width height data).getD (4 * p + 1) 0 : Int) - 127)
            % 256
    ∧ (gfx.loadImage.pixels true width height data).getD (4 * p + 3) 0
        = data.getD (4 * p + 3) 0
    ∧ gfx.loadImage.pixels true width height (data.set (4 * p + 1) g)
        = gfx.loadImage.pixels true width height data
    ∧ gfx.loadImage.pixels false width height data = data := by
  have key := remapLoop_getD (width * height) (width * height) 0 data (by omega) (by omega)
  have keyg := remapLoop_getD (width * height) (width * height) 0 (data.set (4 * p + 1) g)
    (by omega) (by rw [List.length_set]; omega)
  simp only [gfx.loadImage.pixels, if_true, Nat.mul_zero] at key keyg ⊢
  have h1 : (gfx.loadImage.remapLoop (width * height * 4) 0 data).getD (4 * p + 1) 0
      = data.getD (4 * p + 2) 0 / 2 := by
    rw [key, if_neg (by omega), if_neg (by omega), if_pos (by omega),
      toUint8_half _ (getD_lt_of_bytes data hbytes _)]
  have h2 : ((gfx.loadImage.remapLoop (width * height * 4) 0 data).getD (4 * p + 2) 0 : Int)
      = (((data.getD (4 * p + 2) 0 / 2 : Nat) : Int) - 127) % 256 := by
    rw [key, if_neg (by omega), if_neg (by omega), if_neg (by omega), if_pos (by omega),
      toUint8_cast, toUint8_half _ (getD_lt_of_bytes data hbytes _)]
  refine ⟨?_, h1, h2, ?_, ?_, ?_, ?_⟩
  · rw [key, if_neg (by omega), if_pos (by omega), toUint8_cast]
  · rw [h2, h1]
  · rw [key, if_neg (by omega), if_neg (by omega), if_neg (by omega), if_neg (by omega)]
  · have hl1 := remapLoop_length (width * height * 4) _ 0 data (le_refl _)
    have hl2 := remapLoop_length (width * height * 4) _ 0 (data.set (4 * p + 1) g) (le_refl _)
    rw [List.length_set] at hl2
    apply List.ext_getElem (by rw [hl1, hl2])
    intro j hj1 hj2
    rw [← List.getD_eq_getElem _ 0 hj1, ← List.getD_eq_getElem _ 0 hj2, key, keyg]
    have hset : ∀ i, i % 4 ≠ 1 → (data.set (4 * p + 1) g).getD i 0 = data.getD i 0 := by
      intro i hi
      rw [getD_set_byte _ _ _ _ (by omega), if_neg (by omega)]
    have hj : j < width * height * 4 := by omega
    have hm : j % 4 = 0 ∨ j % 4 = 1 ∨ j % 4 = 2 ∨ j % 4 = 3 := by omega
    have hc0 : ¬ (j < 0 ∨ 4 * (width * height) ≤ j) := by omega
    rw [if_neg hc0, if_neg hc0]
    rcases hm with hm | hm | hm | hm
    · rw [hset j (by omega)]
      simp [hm]
    · rw [hset (j + 1) (by omega)]
      simp [hm]
    · rw [hset j (by omega)]
      simp [hm]
    · rw [hset j (by omega)]
      simp [hm]
  · simp

/-- C16 at pixel 1 of the two-pixel buffer (200,100,50,255), (0,7,255,9), with
the green byte 7 replaced by 99. -/
theorem C16_normalMap_loop_bytes_witness :
    ([200, 100, 50, 255, 0, 7, 255, 9] : List Nat).length = 1 * 2 * 4
    ∧ 1 * 2 * 4 < 2 ^ 31
    ∧ (∀ x ∈ ([200, 100, 50, 255, 0, 7, 255, 9] : List Nat), x < 256)
    ∧ 1 < 1 * 2
    ∧ (gfx.loadImage.pixels true 1 2 [200, 100, 50, 255, 0, 7, 255, 9]).getD (4 * 1 + 1) 0
        = ([200, 100, 50, 255, 0, 7, 255, 9] : List Nat).getD (4 * 1 + 2) 0 / 2
    ∧ gfx.loadImage.pixels true 1 2
          (([200, 100, 50, 255, 0, 7, 255, 9] : List Nat).set (4 * 1 + 1) 99)
        = gfx.loadImage.pixels true 1 2 [200, 100, 50, 255, 0, 7, 255, 9] :=
  have h := C16_normalMap_loop_bytes 1 2 [200, 100, 50, 255, 0, 7, 255, 9] 1 99 (by decide)
    (by decide) (by decide) (by decide)
  ⟨by decide, by decide, by decide, by decide, h.2.1, h.2.2.2.2.2.1⟩

end ShadowMapping
